import Mathlib

/-!
Partition resolution of `disk/part.c`.

A shallow embedding of the partition layer of `disk/part.c`:
`part_driver_lookup_type`, `part_init`, `get_dev_hwpart`, `part_get_info`,
`part_get_info_whole_disk`, `blk_get_device_by_str`,
`blk_get_device_part_str`, `part_get_info_by_name_type`,
`part_get_info_by_name`, `part_get_info_by_dev_and_name`,
`part_get_info_by_dev_and_name_or_num`, and the scaled division
`lba512_muldiv` of `dev_print`.

Conventions of the embedding.

* A C string is the list of its characters before the terminating NUL.
* A `struct blk_desc *` is passed and returned by value: a function that
  writes through the pointer returns the updated descriptor.
* An output buffer (`struct disk_partition *info`) is passed in and returned,
  so that what a callee leaves in the buffer is visible to the caller.
* The block layer's table of descriptors is read through `Env` and is the
  same for every call: what a call writes to a descriptor is in the
  descriptor it hands back, not in the table.
* `int` values are mathematical integers; the one narrowing conversion of the
  code (`unsigned long` to `int`) is explicit, see `ulong_to_int`.
* The build has `CONFIG_HAVE_BLOCK_DEVICE`; the other configuration switches
  that `part.c` tests are fields of `Env`.
* Everything the file takes from outside (`include/part.h`, `include/blk.h`,
  the block layer, the environment, the linker list of partition drivers) is
  either a field of `Env` or a definition marked as modelled.
-/

namespace DiskPart

/-- The characters of a NUL-terminated C string. -/
abbrev CStr := List Char

/-! ## Constants of headers outside `disk/part.c` -/

/-- Error number `ENOENT` of `errno.h`. -/
def ENOENT : Int := 2
/-- Error number `ENODEV` of `errno.h`. -/
def ENODEV : Int := 19
/-- Error number `EINVAL` of `errno.h`. -/
def EINVAL : Int := 22
/-- Error number `ENOSYS` of `errno.h`. -/
def ENOSYS : Int := 38
/-- Error number `EPROTONOSUPPORT` of `errno.h`. -/
def EPROTONOSUPPORT : Int := 93

/-- The format tag of `include/part.h` that means "not classified". -/
def PART_TYPE_UNKNOWN : Int := 0

/-- Selector value of `part.c` line 443. -/
def PART_UNSPECIFIED : Int := -2
/-- Selector value of `part.c` line 444. -/
def PART_AUTO : Int := -1

/-- Interface types named by `part.c` (`enum if_type` of `include/blk.h`). -/
inductive if_type_t where
  | IF_TYPE_UNKNOWN | IF_TYPE_IDE | IF_TYPE_SCSI | IF_TYPE_ATAPI | IF_TYPE_USB
  | IF_TYPE_DOC | IF_TYPE_MMC | IF_TYPE_SD | IF_TYPE_SATA | IF_TYPE_HOST
  | IF_TYPE_NVME | IF_TYPE_EFI_MEDIA | IF_TYPE_PVBLOCK | IF_TYPE_VIRTIO
  deriving DecidableEq, Repr

/-! ## Data model -/

/-- The fields of `struct blk_desc` that the partition layer reads or writes. -/
structure blk_desc where
  if_type : if_type_t
  devnum : Int
  hwpart : Int
  part_type : Int
  type : Int
  lba : Nat
  blksz : Nat
  log2blksz : Int
  deriving DecidableEq, Repr

/-- The record `struct disk_partition` filled in for the caller. -/
structure disk_partition where
  start : Nat
  size : Nat
  blksz : Nat
  name : CStr
  type : CStr
  bootable : Int
  uuid : CStr
  type_guid : CStr
  deriving DecidableEq, Repr

/-- The C type of the `get_info` method: it receives the device, the index
and the caller's buffer, and returns its status with the buffer as it left
it. -/
abbrev get_info_fn := blk_desc → Int → disk_partition → Int × disk_partition

/-- The fields of `struct part_driver` that `part.c` uses. A `get_info` that
is a null pointer is `none`. -/
structure part_driver where
  name : CStr
  part_type : Int
  max_entries : Int
  get_info : Option get_info_fn
  test : blk_desc → Int

/-- What `part.c` takes from the rest of the firmware image. -/
structure Env where
  /-- The linker list of partition drivers, in link order
  (`ll_entry_start` .. `ll_entry_count`). -/
  drivers : List part_driver
  /-- The block layer's `blk_get_devnum_by_typename`. -/
  blk_get_devnum_by_typename : CStr → Int → Option blk_desc
  /-- The block layer's `blk_dselect_hwpart`: status and updated descriptor. -/
  blk_dselect_hwpart : blk_desc → Int → Int × blk_desc
  /-- The environment lookup `env_get`. -/
  env_get : CStr → Option CStr
  /-- The library function `hextoul` of `lib/strto.c`: the value converted
  (an `unsigned long`) and the rest of the string, what `*endp` points to
  after the call. -/
  hextoul : CStr → Nat × CStr
  /-- The result of `ubifs_is_mounted()`. -/
  ubifs_is_mounted : Bool
  /-- Whether `CONFIG_SANDBOX` or `CONFIG_SEMIHOSTING` is enabled. -/
  cfg_hostfs : Bool
  /-- Whether `CONFIG_CMD_UBIFS` is enabled and this is not an SPL build. -/
  cfg_ubifs : Bool
  /-- Whether `PARTITION_UUIDS` is enabled. -/
  cfg_uuids : Bool
  /-- Whether `CONFIG_PARTITION_TYPE_GUID` is enabled. -/
  cfg_type_guid : Bool
  /-- The constant `MAX_SEARCH_PARTITIONS` of `include/part.h`. -/
  MAX_SEARCH_PARTITIONS : Nat
  /-- The string constant `BOOT_PART_TYPE` of `include/part.h`. -/
  BOOT_PART_TYPE : CStr
  /-- The size of the `type` field, `sizeof(info->type)`. -/
  PART_TYPE_LEN : Nat
  /-- The constant `DEV_TYPE_UNKNOWN` of `include/part.h`, the device type of
  a device that is not connected. -/
  DEV_TYPE_UNKNOWN : Int
  /-- The indeterminate initial value of the automatic variable `ret` of
  `blk_get_device_part_str`. -/
  ret_indeterminate : Int
  /-- The indeterminate initial value of the automatic variable `tmpinfo` of
  `blk_get_device_part_str`. -/
  tmpinfo_indeterminate : disk_partition

/-! ## Library functions -/

/-- The offset of the first occurrence of `c` in `s`, as `strchr` finds it;
`none` is the null pointer. -/
def strchr : CStr → Char → Option Nat
  | [], _ => none
  | x :: xs, c => if x = c then some 0 else (strchr xs c).map (· + 1)

/-- Whether `strncmp a b n` is zero: the two strings agree on their first `n`
characters (or entirely, when both are shorter). -/
def strncmp_eq (a b : CStr) (n : Nat) : Bool := a.take n == b.take n

/-- The value of a hexadecimal digit. -/
def hex_digit (c : Char) : Option Nat :=
  if 48 ≤ c.toNat ∧ c.toNat ≤ 57 then some (c.toNat - 48)
  else if 97 ≤ c.toNat ∧ c.toNat ≤ 102 then some (c.toNat - 87)
  else if 65 ≤ c.toNat ∧ c.toNat ≤ 70 then some (c.toNat - 55)
  else none

/-- The digit loop of `hextoul`, with the value accumulated so far. -/
def hextoul_loop : CStr → Nat → Nat × CStr
  | [], acc => (acc, [])
  | c :: cs, acc =>
    match hex_digit c with
    | some v => hextoul_loop cs ((acc * 16 + v) % 2 ^ 64)
    | none => (acc, c :: cs)

/-- Modelled from the spec: `hextoul` of `lib/strto.c`, which is not part of
the sources at hand. The string is "parsed as unsigned hexadecimal": the
longest run of hexadecimal digits at its start is converted, in an
`unsigned long` of 64 bits, and the rest of the string (what `*endp` points
to) is returned with the value. The functions below take `hextoul` from
`Env`; this definition is the one the examples run with. -/
def hextoul (s : CStr) : Nat × CStr := hextoul_loop s 0

/-- The conversion of an `unsigned long` to `int` (32 bits, two's
complement), as in `dev = hextoul(...)` and `part = (int)hextoul(...)`. -/
def ulong_to_int (v : Nat) : Int :=
  if v % 2 ^ 32 < 2 ^ 31 then (v % 2 ^ 32 : Nat) else (v % 2 ^ 32 : Nat) - 2 ^ 32

/-- The halving loop behind `LOG2`. -/
def LOG2_loop : Nat → Nat → Nat
  | 0, _ => 0
  | f + 1, x => if x < 2 then 0 else LOG2_loop f (x / 2) + 1

/-- Modelled from the spec: the macro `LOG2` of `include/part.h`, which is not
part of the sources at hand; "log2(block_size)", the position of the highest
set bit. -/
def LOG2 (x : Nat) : Int := (LOG2_loop x x : Nat)

/-! ## `part_driver_lookup_type` and `part_init` (lines 29-55, 236-256) -/

/-- The first loop of `part_driver_lookup_type` (lines 37-45): the device is
unclassified, every driver's `test` is tried in list order. -/
def lookup_by_test : List part_driver → blk_desc → Option part_driver × blk_desc
  | [], dev_desc => (none, dev_desc)
  | entry :: rest, dev_desc =>
    if entry.test dev_desc = 0 then
      (some entry, { dev_desc with part_type := entry.part_type })
    else lookup_by_test rest dev_desc

/-- The second loop of `part_driver_lookup_type` (lines 47-50): the device is
classified, the driver with its tag is looked up. -/
def lookup_by_tag : List part_driver → blk_desc → Option part_driver
  | [], _ => none
  | entry :: rest, dev_desc =>
    if dev_desc.part_type = entry.part_type then some entry
    else lookup_by_tag rest dev_desc

/-- The function `part_driver_lookup_type`: the driver found (`none` is the
null pointer) and the descriptor after the call. -/
def part_driver_lookup_type (env : Env) (dev_desc : blk_desc) :
    Option part_driver × blk_desc :=
  if dev_desc.part_type = PART_TYPE_UNKNOWN then
    lookup_by_test env.drivers dev_desc
  else
    (lookup_by_tag env.drivers dev_desc, dev_desc)

/-- The loop of `part_init` (lines 246-255). -/
def part_init_loop : List part_driver → blk_desc → blk_desc
  | [], dev_desc => dev_desc
  | entry :: rest, dev_desc =>
    if entry.test dev_desc = 0 then { dev_desc with part_type := entry.part_type }
    else part_init_loop rest dev_desc

/-- The function `part_init`: the tag is reset and the drivers are probed
again. (`blkcache_invalidate` does not touch the descriptor.) -/
def part_init (env : Env) (dev_desc : blk_desc) : blk_desc :=
  part_init_loop env.drivers { dev_desc with part_type := PART_TYPE_UNKNOWN }

/-! ## Device lookup (lines 58-82, 384-441) -/

/-- The function `get_dev_hwpart` (lines 58-77). -/
def get_dev_hwpart (env : Env) (ifname : CStr) (dev hwpart : Int) : Option blk_desc :=
  match env.blk_get_devnum_by_typename ifname dev with
  | none => none
  | some dev_desc =>
    if (env.blk_dselect_hwpart dev_desc hwpart).1 ≠ 0 then none
    else some (env.blk_dselect_hwpart dev_desc hwpart).2

/-- The function `blk_get_dev` (lines 79-82). -/
def blk_get_dev (env : Env) (ifname : CStr) (dev : Int) : Option blk_desc :=
  get_dev_hwpart env ifname dev 0

/-- Lines 421-440 of `blk_get_device_by_str`: the device lookup once both
numbers are parsed. -/
def blk_get_device_by_str_lookup (env : Env) (ifname : CStr) (dev hwpart : Int) :
    Int × Option blk_desc :=
  match get_dev_hwpart env ifname dev hwpart with
  | none => (-ENODEV, none)
  | some d =>
    if d.type = env.DEV_TYPE_UNKNOWN then (-ENODEV, some d)
    else if d.if_type = if_type_t.IF_TYPE_MMC then (dev, some (part_init env d))
    else (dev, some d)

/-- The function `blk_get_device_by_str`: the return value and the value of
`*dev_desc` after the call (`dev_desc` is its value before the call). -/
def blk_get_device_by_str (env : Env) (ifname dev_hwpart_str : CStr)
    (dev_desc : Option blk_desc) : Int × Option blk_desc :=
  let hwpart_str : Option CStr :=
    (strchr dev_hwpart_str '.').map (fun k => dev_hwpart_str.drop (k + 1))
  let dev_str : CStr :=
    match strchr dev_hwpart_str '.' with
    | some k => dev_hwpart_str.take k
    | none => dev_hwpart_str
  let dev : Int := ulong_to_int (env.hextoul dev_str).1
  if (env.hextoul dev_str).2 ≠ [] then (-EINVAL, dev_desc)
  else
    match hwpart_str with
    | some hs =>
      if (env.hextoul hs).2 ≠ [] then (-EINVAL, dev_desc)
      else blk_get_device_by_str_lookup env ifname dev (ulong_to_int (env.hextoul hs).1)
    | none => blk_get_device_by_str_lookup env ifname dev 0

/-! ## Partition lookup by index (lines 331-382) -/

/-- Lines 337-343 of `part_get_info`: the optional fields are emptied before
the driver is asked. -/
def clear_optional_fields (env : Env) (info : disk_partition) : disk_partition :=
  { info with
    uuid := if env.cfg_uuids then [] else info.uuid
    type_guid := if env.cfg_type_guid then [] else info.type_guid }

/-- The function `part_get_info`: the return value, the descriptor after the
driver lookup, and the buffer after the call. -/
def part_get_info (env : Env) (dev_desc : blk_desc) (part : Int) (info : disk_partition) :
    Int × blk_desc × disk_partition :=
  match (part_driver_lookup_type env dev_desc).1 with
  | none =>
    (-EPROTONOSUPPORT, (part_driver_lookup_type env dev_desc).2,
      clear_optional_fields env info)
  | some drv =>
    match drv.get_info with
    | none =>
      (-ENOSYS, (part_driver_lookup_type env dev_desc).2, clear_optional_fields env info)
    | some get_info =>
      if (get_info (part_driver_lookup_type env dev_desc).2 part
            (clear_optional_fields env info)).1 = 0 then
        (0, (part_driver_lookup_type env dev_desc).2,
          (get_info (part_driver_lookup_type env dev_desc).2 part
            (clear_optional_fields env info)).2)
      else
        (-ENOENT, (part_driver_lookup_type env dev_desc).2,
          (get_info (part_driver_lookup_type env dev_desc).2 part
            (clear_optional_fields env info)).2)

/-- The function `part_get_info_whole_disk`: the return value and the buffer
after the call. -/
def part_get_info_whole_disk (env : Env) (dev_desc : blk_desc) (info : disk_partition) :
    Int × disk_partition :=
  (0,
    { start := 0
      size := dev_desc.lba
      blksz := dev_desc.blksz
      bootable := 0
      type := env.BOOT_PART_TYPE
      name := "Whole Disk".toList
      uuid := if env.cfg_uuids then [] else info.uuid
      type_guid := if env.cfg_type_guid then [] else info.type_guid })

/-! ## `blk_get_device_part_str` (lines 445-666) -/

/-- Lines 538-555: the partition ID string as a number. `none` is the exit
"Bad partition specification" (`-ENOENT`); `part_str` is `none` when the
string has no colon. -/
def part_str_to_number (env : Env) (part_str : Option CStr) (allow_whole_dev : Int) :
    Option Int :=
  match part_str with
  | none => some PART_UNSPECIFIED
  | some ps =>
    if ps = [] then some PART_UNSPECIFIED
    else if ps = "auto".toList then some PART_AUTO
    else if (env.hextoul ps).2 ≠ [] ∨ (ulong_to_int (env.hextoul ps).1 = 0 ∧ allow_whole_dev = 0) then
      none
    else some (ulong_to_int (env.hextoul ps).1)

/-- The variables that the search loop of lines 612-636 reads and writes. -/
structure auto_state where
  ret : Int
  part : Int
  p : Int
  info : disk_partition
  tmpinfo : disk_partition
  dev_desc : blk_desc

/-- The loop `for (p = 1; p <= MAX_SEARCH_PARTITIONS; p++)` of lines 613-636.
The first argument counts the iterations that the loop condition still
allows, `MAX_SEARCH_PARTITIONS + 1 - p`; the state returned is the one at the
`break` or when the condition fails. -/
def auto_search (env : Env) : Nat → auto_state → auto_state
  | 0, s => s
  | n + 1, s =>
    if (part_get_info env s.dev_desc s.p s.info).1 ≠ 0 then
      auto_search env n
        { s with
          ret := (part_get_info env s.dev_desc s.p s.info).1
          dev_desc := (part_get_info env s.dev_desc s.p s.info).2.1
          info := (part_get_info env s.dev_desc s.p s.info).2.2
          p := s.p + 1 }
    else if (part_get_info env s.dev_desc s.p s.info).2.2.bootable ≠ 0 then
      { ret := (part_get_info env s.dev_desc s.p s.info).1
        part :=
          if s.part = 0 ∨ (part_get_info env s.dev_desc s.p s.info).2.2.bootable ≠ 0 then s.p
          else s.part
        p := s.p
        info := (part_get_info env s.dev_desc s.p s.info).2.2
        tmpinfo := s.tmpinfo
        dev_desc := (part_get_info env s.dev_desc s.p s.info).2.1 }
    else
      auto_search env n
        { ret := (part_get_info env s.dev_desc s.p s.info).1
          part :=
            if s.part = 0 ∨ (part_get_info env s.dev_desc s.p s.info).2.2.bootable ≠ 0 then s.p
            else s.part
          p := s.p + 1
          info := (part_get_info env s.dev_desc s.p s.info).2.2
          tmpinfo :=
            if (if s.part = 0 ∨ (part_get_info env s.dev_desc s.p s.info).2.2.bootable ≠ 0
                then s.p else s.part) = s.p then
              (part_get_info env s.dev_desc s.p s.info).2.2
            else s.tmpinfo
          dev_desc := (part_get_info env s.dev_desc s.p s.info).2.1 }

/-- Lines 650-661: the type check on the chosen entry and the successful
exit. -/
def check_part_type (env : Env) (dev_desc : blk_desc) (part : Int) (info : disk_partition) :
    Int × blk_desc × disk_partition :=
  if strncmp_eq info.type env.BOOT_PART_TYPE env.PART_TYPE_LEN = false then
    (-EINVAL, dev_desc, info)
  else (part, { dev_desc with log2blksz := LOG2 dev_desc.blksz }, info)

/-- Lines 557-661: the resolution once the device is found and the partition
ID is a number. -/
def resolve_part (env : Env) (dev_desc : blk_desc) (part : Int) (info : disk_partition)
    (allow_whole_dev : Int) : Int × blk_desc × disk_partition :=
  if dev_desc.part_type = PART_TYPE_UNKNOWN ∨ part = 0 then
    if dev_desc.lba = 0 then (-EINVAL, dev_desc, info)
    else if part > 0 ∨ allow_whole_dev = 0 then (-EPROTONOSUPPORT, dev_desc, info)
    else
      (0, { dev_desc with log2blksz := LOG2 dev_desc.blksz },
        (part_get_info_whole_disk env
          { dev_desc with log2blksz := LOG2 dev_desc.blksz } info).2)
  else if (if part = PART_UNSPECIFIED then 1 else part) ≠ PART_AUTO then
    if (part_get_info env dev_desc (if part = PART_UNSPECIFIED then 1 else part) info).1 ≠ 0 then
      part_get_info env dev_desc (if part = PART_UNSPECIFIED then 1 else part) info
    else
      check_part_type env
        (part_get_info env dev_desc (if part = PART_UNSPECIFIED then 1 else part) info).2.1
        (if part = PART_UNSPECIFIED then 1 else part)
        (part_get_info env dev_desc (if part = PART_UNSPECIFIED then 1 else part) info).2.2
  else
    let s := auto_search env env.MAX_SEARCH_PARTITIONS
      { ret := env.ret_indeterminate
        part := 0
        p := 1
        info := info
        tmpinfo := env.tmpinfo_indeterminate
        dev_desc := dev_desc }
    if s.part ≠ 0 then
      check_part_type env s.dev_desc s.part
        (if s.p = (env.MAX_SEARCH_PARTITIONS : Int) + 1 then s.tmpinfo else s.info)
    else (s.ret, s.dev_desc, s.info)

/-- Lines 517-666: the resolution of a device and partition string that is
present. -/
def resolve_dev_part_str (env : Env) (ifname dev_part_str : CStr)
    (dev_desc : Option blk_desc) (info : disk_partition) (allow_whole_dev : Int) :
    Int × Option blk_desc × disk_partition :=
  let part_str : Option CStr :=
    (strchr dev_part_str ':').map (fun k => dev_part_str.drop (k + 1))
  let dev_str : CStr :=
    match strchr dev_part_str ':' with
    | some k => dev_part_str.take k
    | none => dev_part_str
  let r := blk_get_device_by_str env ifname dev_str dev_desc
  if r.1 < 0 then (r.1, r.2, info)
  else
    match r.2 with
    | none => (r.1, none, info)
    | some d =>
      match part_str_to_number env part_str allow_whole_dev with
      | none => (-ENOENT, some d, info)
      | some part =>
        ((resolve_part env d part info allow_whole_dev).1,
          some (resolve_part env d part info allow_whole_dev).2.1,
          (resolve_part env d part info allow_whole_dev).2.2)

/-- The function `blk_get_device_part_str`: the return value, the value of
`*dev_desc` after the call and the buffer `*info` after the call. A null
`dev_part_str` is `none`; `dev_desc` and `info` are the values before the
call. (After a non-negative return of `blk_get_device_by_str` the device
pointer is never null, see `blk_get_device_by_str_device`; the branch for a
null pointer there is not reached.) -/
def blk_get_device_part_str (env : Env) (ifname : CStr) (dev_part_str : Option CStr)
    (dev_desc : Option blk_desc) (info : disk_partition) (allow_whole_dev : Int) :
    Int × Option blk_desc × disk_partition :=
  if env.cfg_hostfs = true ∧ ifname = "hostfs".toList then
    (0, none,
      { start := 0
        size := 0
        blksz := 0
        bootable := 0
        type := env.BOOT_PART_TYPE
        name := "Host filesystem".toList
        uuid := if env.cfg_uuids then [] else info.uuid
        type_guid := if env.cfg_type_guid then [] else info.type_guid })
  else if env.cfg_ubifs = true ∧ ifname = "ubi".toList then
    if env.ubifs_is_mounted = false then (-EINVAL, dev_desc, info)
    else
      (0, none,
        { start := 0
          size := 0
          blksz := 0
          bootable := 0
          type := env.BOOT_PART_TYPE
          name := "UBI".toList
          uuid := []
          type_guid := [] })
  else
    match (if dev_part_str = none ∨ dev_part_str = some [] ∨
              dev_part_str = some "-".toList then
            env.env_get "bootdevice".toList
          else dev_part_str) with
    | none => (-ENODEV, dev_desc, info)
    | some s => resolve_dev_part_str env ifname s dev_desc info allow_whole_dev

/-! ## Lookup by name (lines 668-783) -/

/-- The value `PART_TYPE_ALL` of `part.c` line 27. -/
def PART_TYPE_ALL : Int := -1

/-- The loop `for (i = 1; i < part_drv->max_entries; i++)` of lines 685-695.
The first argument counts the iterations that the loop condition still
allows, `max_entries - i`; the result is the return value of the function
(`-ENOENT` after the `break` or when the condition fails, `i` at a match)
and the buffer as the last call of `get_info` left it. -/
def name_search (get_info : get_info_fn) (dev_desc : blk_desc) (name : CStr) :
    Nat → Int → disk_partition → Int × disk_partition
  | 0, _, info => (-ENOENT, info)
  | n + 1, i, info =>
    if (get_info dev_desc i info).1 ≠ 0 then (-ENOENT, (get_info dev_desc i info).2)
    else if name = (get_info dev_desc i info).2.name then (i, (get_info dev_desc i info).2)
    else name_search get_info dev_desc name n (i + 1) (get_info dev_desc i info).2

/-- The function `part_get_info_by_name_type`: the return value, the
descriptor after the driver lookup and the buffer after the call. The
argument `part_type` is not used by the code. -/
def part_get_info_by_name_type (env : Env) (dev_desc : blk_desc) (name : CStr)
    (info : disk_partition) (_part_type : Int) : Int × blk_desc × disk_partition :=
  match (part_driver_lookup_type env dev_desc).1 with
  | none => (-1, (part_driver_lookup_type env dev_desc).2, info)
  | some part_drv =>
    match part_drv.get_info with
    | none => (-ENOSYS, (part_driver_lookup_type env dev_desc).2, info)
    | some get_info =>
      ((name_search get_info (part_driver_lookup_type env dev_desc).2 name
          (part_drv.max_entries - 1).toNat 1 info).1,
        (part_driver_lookup_type env dev_desc).2,
        (name_search get_info (part_driver_lookup_type env dev_desc).2 name
          (part_drv.max_entries - 1).toNat 1 info).2)

/-- The function `part_get_info_by_name` (lines 700-704). -/
def part_get_info_by_name (env : Env) (dev_desc : blk_desc) (name : CStr)
    (info : disk_partition) : Int × blk_desc × disk_partition :=
  part_get_info_by_name_type env dev_desc name info PART_TYPE_ALL

/-- The function `part_get_info_by_dev_and_name` (lines 721-757): the return
value, the value of `*dev_desc` after the call and the buffer `*part_info`
after the call. A null `dev_part_str` is `none`. (As in
`blk_get_device_part_str`, the branch for a null device after a non-negative
return of the device lookup is not reached.) -/
def part_get_info_by_dev_and_name (env : Env) (dev_iface : CStr) (dev_part_str : Option CStr)
    (dev_desc : Option blk_desc) (part_info : disk_partition) :
    Int × Option blk_desc × disk_partition :=
  match dev_part_str with
  | none => (-EINVAL, dev_desc, part_info)
  | some s =>
    match strchr s '#' with
    | none => (-EINVAL, dev_desc, part_info)
    | some k =>
      if (blk_get_device_by_str env dev_iface (s.take k) dev_desc).1 < 0 then
        ((blk_get_device_by_str env dev_iface (s.take k) dev_desc).1,
          (blk_get_device_by_str env dev_iface (s.take k) dev_desc).2, part_info)
      else
        match (blk_get_device_by_str env dev_iface (s.take k) dev_desc).2 with
        | none => ((blk_get_device_by_str env dev_iface (s.take k) dev_desc).1, none, part_info)
        | some d =>
          ((part_get_info_by_name env d (s.drop (k + 1)) part_info).1,
            some (part_get_info_by_name env d (s.drop (k + 1)) part_info).2.1,
            (part_get_info_by_name env d (s.drop (k + 1)) part_info).2.2)

/-- The function `part_get_info_by_dev_and_name_or_num` (lines 759-783). The
second call receives `*dev_desc` and `*part_info` as the first call left
them. -/
def part_get_info_by_dev_and_name_or_num (env : Env) (dev_iface : CStr)
    (dev_part_str : Option CStr) (dev_desc : Option blk_desc) (part_info : disk_partition)
    (allow_whole_dev : Int) : Int × Option blk_desc × disk_partition :=
  if (part_get_info_by_dev_and_name env dev_iface dev_part_str dev_desc part_info).1 ≥ 0 then
    part_get_info_by_dev_and_name env dev_iface dev_part_str dev_desc part_info
  else
    blk_get_device_part_str env dev_iface dev_part_str
      (part_get_info_by_dev_and_name env dev_iface dev_part_str dev_desc part_info).2.1
      (part_get_info_by_dev_and_name env dev_iface dev_part_str dev_desc part_info).2.2
      allow_whole_dev

/-! ## `lba512_muldiv` (lines 102-121) and its caller

The type `lba512_t` is `uint64_t` (`CONFIG_LBA48`, or `lbaint_t` on a 64-bit
build): its values are the numbers below `2 ^ 64`, and the result of `*`,
`+`, `-` and `<<` is reduced modulo `2 ^ 64`. -/

/-- The local variable `bc_quot` of `lba512_muldiv` (line 118). -/
def lba512_bc_quot (block_count right_shift : Nat) : Nat :=
  block_count >>> right_shift

/-- The local variable `bc_rem` of `lba512_muldiv` (line 119). -/
def lba512_bc_rem (block_count right_shift : Nat) : Nat :=
  (block_count + 2 ^ 64 - (lba512_bc_quot block_count right_shift <<< right_shift) % 2 ^ 64)
    % 2 ^ 64

/-- The function `lba512_muldiv` (lines 112-121). The parameter `right_shift`
is an `int`; a shift of a 64-bit value by a negative count or by 64 or more
is undefined in C, and the result is then `none`. -/
def lba512_muldiv (block_count mul_by : Nat) (right_shift : Int) : Option Nat :=
  if right_shift < 0 ∨ 64 ≤ right_shift then none
  else
    some
      (((lba512_bc_quot block_count right_shift.toNat * mul_by) % 2 ^ 64 +
          (((lba512_bc_rem block_count right_shift.toNat * mul_by) % 2 ^ 64) >>>
            right_shift.toNat)) % 2 ^ 64)

/-- Lines 199-202 of `dev_print`, which the test of line 193 lets through when
capacity and block size are not 0: the number of 512-byte blocks of the
device, `lba512`, and from it the capacity in tenths of a megabyte, `mb`. -/
def dev_print_mb (dev_desc : blk_desc) : Option Nat :=
  lba512_muldiv ((dev_desc.lba * (dev_desc.blksz / 512)) % 2 ^ 64) 10 11

/-! ## Changing what the drivers provide

Used to state that a result does not depend on a driver method. -/

/-- The environment in which each driver `d` has `test` replaced by `T d`. -/
def set_tests (T : part_driver → blk_desc → Int) (env : Env) : Env :=
  { env with drivers := env.drivers.map (fun d => { d with test := T d }) }

/-- The environment in which each driver `d` has `get_info` replaced by `F d`. -/
def set_get_info (F : part_driver → Option get_info_fn) (env : Env) : Env :=
  { env with drivers := env.drivers.map (fun d => { d with get_info := F d }) }

/-- The method that answers as `g` for the indices `1 .. hi` and as `other`
for every other index. -/
def get_info_within (hi : Nat) (other g : get_info_fn) : get_info_fn :=
  fun dev_desc part info =>
    if 1 ≤ part ∧ part ≤ (hi : Int) then g dev_desc part info else other dev_desc part info

/-- The method that answers as `g` for the index `n` and as `other` for every
other index. -/
def get_info_at (n : Int) (other g : get_info_fn) : get_info_fn :=
  fun dev_desc part info =>
    if part = n then g dev_desc part info else other dev_desc part info

/-! ## Concrete devices and drivers for the examples -/

/-- A partition table entry of ten blocks at block `100 * n`. -/
def sample_entry (n : Nat) (bootable : Int) (type : CStr) : disk_partition :=
  { start := 100 * n
    size := 10
    blksz := 512
    name := "part".toList
    type := type
    bootable := bootable
    uuid := []
    type_guid := [] }

/-- A `get_info` method that reads a fixed table: an index with an entry is
answered with status 0 and the entry, any other index with status -1 and the
buffer untouched. -/
def table_get_info (table : Int → Option disk_partition) : get_info_fn :=
  fun _ part info =>
    match table part with
    | some e => (0, e)
    | none => (-1, info)

/-- A driver with tag `tag` whose `test` accepts exactly the devices of
number `devnum`. -/
def sample_driver (name : CStr) (tag devnum : Int) (table : Int → Option disk_partition) :
    part_driver :=
  { name := name
    part_type := tag
    max_entries := 128
    get_info := some (table_get_info table)
    test := fun d => if d.devnum = devnum then 0 else -1 }

/-- A disk of `lba` blocks of 512 bytes on the USB interface, numbered
`devnum` and carrying the format tag `tag`. -/
def sample_disk (devnum tag : Int) (lba : Nat) : blk_desc :=
  { if_type := if_type_t.IF_TYPE_USB
    devnum := devnum
    hwpart := 0
    part_type := tag
    type := 0
    lba := lba
    blksz := 512
    log2blksz := 0 }

/-- An all-zero buffer. -/
def zero_info : disk_partition :=
  { start := 0, size := 0, blksz := 0, name := [], type := [], bootable := 0,
    uuid := [], type_guid := [] }

/-- An image with the interface "usb" carrying device 0 (`disk0`) and two
drivers, tags 1 and 2, reading `table`; both accept device 0. -/
def sample_env (disk0 : blk_desc) (table : Int → Option disk_partition) : Env :=
  { drivers := [sample_driver "EFI".toList 1 0 table, sample_driver "DOS".toList 2 0 table]
    blk_get_devnum_by_typename := fun ifname dev =>
      if ifname = "usb".toList ∧ dev = 0 then some disk0 else none
    blk_dselect_hwpart := fun d hwpart => (0, { d with hwpart := hwpart })
    env_get := fun _ => none
    hextoul := hextoul
    ubifs_is_mounted := false
    cfg_hostfs := false
    cfg_ubifs := false
    cfg_uuids := true
    cfg_type_guid := false
    MAX_SEARCH_PARTITIONS := 64
    BOOT_PART_TYPE := "U-Boot".toList
    PART_TYPE_LEN := 32
    DEV_TYPE_UNKNOWN := 0xff
    ret_indeterminate := 0
    tmpinfo_indeterminate := zero_info }

/-- Entries 1, 2 and 4 valid and not bootable, entry 3 bootable. -/
def table_boot3 : Int → Option disk_partition := fun i =>
  if i = 1 ∨ i = 2 ∨ i = 4 then some (sample_entry i.toNat 0 "U-Boot".toList)
  else if i = 3 then some (sample_entry 3 1 "U-Boot".toList)
  else none

/-- Entries 1 and 2 valid and not bootable, nothing else. -/
def table_no_boot : Int → Option disk_partition := fun i =>
  if i = 1 ∨ i = 2 then some (sample_entry i.toNat 0 "U-Boot".toList) else none

/-- No entry at 1 .. 64, a bootable entry at 65. -/
def table_beyond : Int → Option disk_partition := fun i =>
  if i = 65 then some (sample_entry 65 1 "U-Boot".toList) else none

/-- No entry at all. -/
def table_empty : Int → Option disk_partition := fun _ => none

/-- Entry 1 valid with type "Linux", entry 2 valid with type "U-Boot",
neither bootable, nothing else. -/
def table_other_type : Int → Option disk_partition := fun i =>
  if i = 1 then some (sample_entry 1 0 "Linux".toList)
  else if i = 2 then some (sample_entry 2 0 "U-Boot".toList)
  else none

/-- Entry 1 valid with type "U-Boot" and not bootable, entry 2 bootable with
type "Linux", entry 3 bootable with type "U-Boot", nothing else. -/
def table_boot_other_type : Int → Option disk_partition := fun i =>
  if i = 1 then some (sample_entry 1 0 "U-Boot".toList)
  else if i = 2 then some (sample_entry 2 1 "Linux".toList)
  else if i = 3 then some (sample_entry 3 1 "U-Boot".toList)
  else none

/-- A valid entry of type "U-Boot", not bootable, with the name `name`. -/
def named_entry (n : Nat) (name : CStr) : disk_partition :=
  { sample_entry n 0 "U-Boot".toList with name := name }

/-- Entry 1 named "boot", entry 2 named "data", nothing else. -/
def table_names : Int → Option disk_partition := fun i =>
  if i = 1 then some (named_entry 1 "boot".toList)
  else if i = 2 then some (named_entry 2 "data".toList)
  else none

/-- Entry 1 named "boot", no entry 2, entry 3 named "data". -/
def table_names_hole : Int → Option disk_partition := fun i =>
  if i = 1 then some (named_entry 1 "boot".toList)
  else if i = 3 then some (named_entry 3 "data".toList)
  else none

/-- A single entry, at the index -3. -/
def table_negative : Int → Option disk_partition := fun i =>
  if i = -3 then some (sample_entry 3 0 "U-Boot".toList) else none

/-- The image `sample_env` with one driver only, tag 2, whose `max_entries`
is the given number. -/
def sample_env_entries (disk0 : blk_desc) (table : Int → Option disk_partition)
    (max_entries : Int) : Env :=
  { sample_env disk0 table with
    drivers := [{ sample_driver "DOS".toList 2 0 table with max_entries := max_entries }] }

/-- The image `sample_env` with device 0 on the interface "mmc" instead. -/
def sample_mmc_env (disk0 : blk_desc) (table : Int → Option disk_partition) : Env :=
  { sample_env disk0 table with
    blk_get_devnum_by_typename := fun ifname dev =>
      if ifname = "mmc".toList ∧ dev = 0 then some disk0 else none }

/-- Entries 1, 2 and 4 valid and not bootable, entry 3 bootable, as in
`table_boot3`, and two more entries at the indices -1 and -2. -/
def table_sentinels : Int → Option disk_partition := fun i =>
  if i = -1 then some (named_entry 5 "minus one".toList)
  else if i = -2 then some (named_entry 6 "minus two".toList)
  else table_boot3 i

/-! ## Format classification -/

theorem lookup_by_test_first (pre : List part_driver) (e : part_driver)
    (post : List part_driver) (dev : blk_desc)
    (hpre : ∀ x ∈ pre, x.test dev ≠ 0) (he : e.test dev = 0) :
    lookup_by_test (pre ++ e :: post) dev = (some e, { dev with part_type := e.part_type }) := by
  induction pre with
  | nil => simp [lookup_by_test, he]
  | cons x xs ih =>
    have hx : x.test dev ≠ 0 := hpre x (List.mem_cons_self _ _)
    have hxs : ∀ y ∈ xs, y.test dev ≠ 0 := fun y hy => hpre y (List.mem_cons_of_mem _ hy)
    simp [lookup_by_test, hx, ih hxs]

theorem lookup_by_test_none (l : List part_driver) (dev : blk_desc)
    (hl : ∀ x ∈ l, x.test dev ≠ 0) : lookup_by_test l dev = (none, dev) := by
  induction l with
  | nil => simp [lookup_by_test]
  | cons x xs ih =>
    have hx : x.test dev ≠ 0 := hl x (List.mem_cons_self _ _)
    have hxs : ∀ y ∈ xs, y.test dev ≠ 0 := fun y hy => hl y (List.mem_cons_of_mem _ hy)
    simp [lookup_by_test, hx, ih hxs]

theorem lookup_by_tag_first (pre : List part_driver) (e : part_driver)
    (post : List part_driver) (dev : blk_desc)
    (hpre : ∀ x ∈ pre, x.part_type ≠ dev.part_type) (he : e.part_type = dev.part_type) :
    lookup_by_tag (pre ++ e :: post) dev = some e := by
  induction pre with
  | nil => simp [lookup_by_tag, he]
  | cons x xs ih =>
    have hx : ¬ dev.part_type = x.part_type := fun h => hpre x (List.mem_cons_self _ _) h.symm
    have hxs : ∀ y ∈ xs, y.part_type ≠ dev.part_type :=
      fun y hy => hpre y (List.mem_cons_of_mem _ hy)
    simp [lookup_by_tag, hx, ih hxs]

theorem lookup_by_tag_none (l : List part_driver) (dev : blk_desc)
    (hl : ∀ x ∈ l, x.part_type ≠ dev.part_type) : lookup_by_tag l dev = none := by
  induction l with
  | nil => simp [lookup_by_tag]
  | cons x xs ih =>
    have hx : ¬ dev.part_type = x.part_type := fun h => hl x (List.mem_cons_self _ _) h.symm
    have hxs : ∀ y ∈ xs, y.part_type ≠ dev.part_type :=
      fun y hy => hl y (List.mem_cons_of_mem _ hy)
    simp [lookup_by_tag, hx, ih hxs]

/-- The tag lookup commutes with any change of the drivers that keeps their
tags. -/
theorem lookup_by_tag_map (f : part_driver → part_driver)
    (hf : ∀ d, (f d).part_type = d.part_type) (l : List part_driver) (dev : blk_desc) :
    lookup_by_tag (l.map f) dev = (lookup_by_tag l dev).map f := by
  induction l with
  | nil => simp [lookup_by_tag]
  | cons x xs ih =>
    by_cases hx : dev.part_type = x.part_type
    · simp [lookup_by_tag, hf, hx]
    · simp [lookup_by_tag, hf, hx, ih]

/-- C8. An unclassified device (format tag UNKNOWN) is classified by the first
driver, in registration order, whose `test` returns 0: whenever the driver
list splits into drivers that all fail their test, then a driver `e` that
succeeds, then any further drivers (which may succeed too),
`part_driver_lookup_type` returns `e` and sets the device's tag to the tag of
`e`. When every driver's test fails it returns the null pointer and leaves the
descriptor, tag UNKNOWN included, as it was. -/
theorem part_driver_lookup_type_unclassified (env : Env) (dev : blk_desc)
    (hdev : dev.part_type = PART_TYPE_UNKNOWN) :
    (∀ (pre : List part_driver) (e : part_driver) (post : List part_driver),
        env.drivers = pre ++ e :: post → (∀ x ∈ pre, x.test dev ≠ 0) → e.test dev = 0 →
        part_driver_lookup_type env dev = (some e, { dev with part_type := e.part_type })) ∧
    ((∀ x ∈ env.drivers, x.test dev ≠ 0) →
        part_driver_lookup_type env dev = (none, dev) ∧
        (part_driver_lookup_type env dev).2.part_type = PART_TYPE_UNKNOWN) := by
  refine ⟨?_, ?_⟩
  · intro pre e post hsplit hpre he
    simp only [part_driver_lookup_type, hdev, if_true, hsplit]
    exact lookup_by_test_first pre e post dev hpre he
  · intro hall
    have h : part_driver_lookup_type env dev = (none, dev) := by
      simp only [part_driver_lookup_type, hdev, if_true]
      exact lookup_by_test_none _ dev hall
    exact ⟨h, by rw [h]; exact hdev⟩

/-- Witness of C8: two drivers accept device 0; the first one registered,
"EFI" with tag 1, is returned and its tag is cached. -/
theorem part_driver_lookup_type_unclassified_witness :
    (sample_disk 0 0 64000).part_type = PART_TYPE_UNKNOWN ∧
    (sample_driver "DOS".toList 2 0 table_empty).test (sample_disk 0 0 64000) = 0 ∧
    part_driver_lookup_type (sample_env (sample_disk 0 0 64000) table_empty)
        (sample_disk 0 0 64000) =
      (some (sample_driver "EFI".toList 1 0 table_empty), sample_disk 0 1 64000) :=
  ⟨by decide, by decide,
    (part_driver_lookup_type_unclassified (sample_env (sample_disk 0 0 64000) table_empty)
      (sample_disk 0 0 64000) (by decide)).1 [] (sample_driver "EFI".toList 1 0 table_empty)
      [sample_driver "DOS".toList 2 0 table_empty] rfl (by simp) (by decide)⟩

/-- C9. For a classified device (format tag not UNKNOWN)
`part_driver_lookup_type` returns the first registered driver whose tag
equals the device's tag, the null pointer when no driver has it, and leaves
the descriptor, its tag included, unchanged; replacing every driver's `test`
by any other function changes nothing in the result but that field of the
driver returned, so no test is consulted. -/
theorem part_driver_lookup_type_classified (env : Env) (dev : blk_desc)
    (hdev : dev.part_type ≠ PART_TYPE_UNKNOWN) :
    (∀ (pre : List part_driver) (e : part_driver) (post : List part_driver),
        env.drivers = pre ++ e :: post → (∀ x ∈ pre, x.part_type ≠ dev.part_type) →
        e.part_type = dev.part_type →
        part_driver_lookup_type env dev = (some e, dev)) ∧
    ((∀ x ∈ env.drivers, x.part_type ≠ dev.part_type) →
        part_driver_lookup_type env dev = (none, dev)) ∧
    (∀ T : part_driver → blk_desc → Int,
        part_driver_lookup_type (set_tests T env) dev =
          ((part_driver_lookup_type env dev).1.map (fun d => { d with test := T d }), dev)) ∧
    (part_driver_lookup_type env dev).2 = dev := by
  refine ⟨?_, ?_, ?_, ?_⟩
  · intro pre e post hsplit hpre he
    simp only [part_driver_lookup_type, hdev, if_false, hsplit]
    rw [lookup_by_tag_first pre e post dev hpre he]
  · intro hall
    simp only [part_driver_lookup_type, hdev, if_false]
    rw [lookup_by_tag_none _ dev hall]
  · intro T
    simp only [part_driver_lookup_type, hdev, if_false, set_tests]
    rw [lookup_by_tag_map (fun d => { d with test := T d }) (fun _ => rfl)]
  · simp only [part_driver_lookup_type, hdev, if_false]

/-- Witness of C9: device 0 carries tag 2; the driver with tag 2, "DOS", is
returned although the driver "EFI" registered before it accepts the device. -/
theorem part_driver_lookup_type_classified_witness :
    (sample_disk 0 2 64000).part_type ≠ PART_TYPE_UNKNOWN ∧
    (sample_driver "EFI".toList 1 0 table_empty).test (sample_disk 0 2 64000) = 0 ∧
    part_driver_lookup_type (sample_env (sample_disk 0 2 64000) table_empty)
        (sample_disk 0 2 64000) =
      (some (sample_driver "DOS".toList 2 0 table_empty), sample_disk 0 2 64000) :=
  ⟨by decide, by decide,
    (part_driver_lookup_type_classified (sample_env (sample_disk 0 2 64000) table_empty)
      (sample_disk 0 2 64000) (by decide)).1 [sample_driver "EFI".toList 1 0 table_empty]
      (sample_driver "DOS".toList 2 0 table_empty) [] rfl (by simp [sample_driver, sample_disk])
      (by decide)⟩

/-! ## Strings -/

theorem strchr_none (s : CStr) (c : Char) (h : c ∉ s) : strchr s c = none := by
  induction s with
  | nil => rfl
  | cons x xs ih =>
    have hx : ¬ x = c := fun e => h (by simp [e])
    have hxs : c ∉ xs := fun m => h (List.mem_cons_of_mem _ m)
    simp [strchr, hx, ih hxs]

theorem strchr_append (D : CStr) (c : Char) (S : CStr) (h : c ∉ D) :
    strchr (D ++ c :: S) c = some D.length := by
  induction D with
  | nil => simp [strchr]
  | cons x xs ih =>
    have hx : ¬ x = c := fun e => h (by simp [e])
    have hxs : c ∉ xs := fun m => h (List.mem_cons_of_mem _ m)
    simp [strchr, hx, ih hxs]

theorem take_append_sep (D : CStr) (c : Char) (S : CStr) :
    (D ++ c :: S).take D.length = D := by
  simp

theorem drop_append_sep (D : CStr) (c : Char) (S : CStr) :
    (D ++ c :: S).drop (D.length + 1) = S := by
  induction D with
  | nil => simp
  | cons x xs _ => simp

/-- A value below `2 ^ 31` is not changed by the conversion to `int`. -/
theorem ulong_to_int_small (v : Nat) (h : v < 2 ^ 31) : ulong_to_int v = (v : Int) := by
  have h1 : v % 2 ^ 32 = v := Nat.mod_eq_of_lt (by omega)
  simp only [ulong_to_int, h1]
  rw [if_pos h]

/-! ## Device strings -/

theorem blk_get_device_by_str_plain (env : Env) (ifname D : CStr) (dd : Option blk_desc)
    (hD : '.' ∉ D) :
    blk_get_device_by_str env ifname D dd =
      if (env.hextoul D).2 ≠ [] then (-EINVAL, dd)
      else blk_get_device_by_str_lookup env ifname (ulong_to_int (env.hextoul D).1) 0 := by
  simp only [blk_get_device_by_str, strchr_none D '.' hD, Option.map_none']

theorem blk_get_device_by_str_dotted (env : Env) (ifname D H : CStr) (dd : Option blk_desc)
    (hD : '.' ∉ D) :
    blk_get_device_by_str env ifname (D ++ '.' :: H) dd =
      if (env.hextoul D).2 ≠ [] then (-EINVAL, dd)
      else if (env.hextoul H).2 ≠ [] then (-EINVAL, dd)
      else blk_get_device_by_str_lookup env ifname (ulong_to_int (env.hextoul D).1)
        (ulong_to_int (env.hextoul H).1) := by
  simp only [blk_get_device_by_str, strchr_append D '.' H hD, Option.map_some',
    take_append_sep, drop_append_sep]

/-- A non-negative return of `blk_get_device_by_str_lookup` carries a device. -/
theorem blk_get_device_by_str_lookup_device (env : Env) (ifname : CStr) (dev hwpart : Int)
    (h : 0 ≤ (blk_get_device_by_str_lookup env ifname dev hwpart).1) :
    ∃ d, (blk_get_device_by_str_lookup env ifname dev hwpart).2 = some d := by
  unfold blk_get_device_by_str_lookup at h ⊢
  cases hg : get_dev_hwpart env ifname dev hwpart with
  | none => simp [hg, ENODEV] at h
  | some d =>
    simp only [hg] at h ⊢
    split_ifs <;> exact ⟨_, rfl⟩

/-- A non-negative return of `blk_get_device_by_str` carries a device: the
pointer `*dev_desc` is not null. -/
theorem blk_get_device_by_str_device (env : Env) (ifname s : CStr) (dd : Option blk_desc)
    (h : 0 ≤ (blk_get_device_by_str env ifname s dd).1) :
    ∃ d, (blk_get_device_by_str env ifname s dd).2 = some d := by
  unfold blk_get_device_by_str at h ⊢
  simp only at h ⊢
  split_ifs at h ⊢ with h1
  · simp [EINVAL] at h
  · split at h
    · split_ifs at h ⊢ with h2
      · simp [EINVAL] at h
      · exact blk_get_device_by_str_lookup_device env ifname _ _ h
    · exact blk_get_device_by_str_lookup_device env ifname _ _ h

/-- C10, as the code has it. For a device string "D" or "D.H" (split at the
first '.'), `blk_get_device_by_str` parses D and H with `hextoul`; a
character left over after D or after H makes it return `-EINVAL` with
`*dev_desc` untouched, whatever devices exist; otherwise it looks up the
device whose number is the parsed value of D converted to `int`, with the
hardware partition the parsed value of H converted to `int` (0 when there is
no '.'). The conversion changes nothing for values below `2 ^ 31`, so for
those the device number is hex(D) and the hardware partition is hex(H). -/
theorem blk_get_device_by_str_parses (env : Env) (ifname : CStr) (dd : Option blk_desc) :
    (∀ D : CStr, '.' ∉ D →
      ((env.hextoul D).2 ≠ [] → blk_get_device_by_str env ifname D dd = (-EINVAL, dd)) ∧
      ((env.hextoul D).2 = [] →
        blk_get_device_by_str env ifname D dd =
          blk_get_device_by_str_lookup env ifname (ulong_to_int (env.hextoul D).1) 0) ∧
      ((env.hextoul D).2 = [] → (env.hextoul D).1 < 2 ^ 31 →
        blk_get_device_by_str env ifname D dd =
          blk_get_device_by_str_lookup env ifname ((env.hextoul D).1 : Int) 0)) ∧
    (∀ D H : CStr, '.' ∉ D →
      ((env.hextoul D).2 ≠ [] ∨ (env.hextoul H).2 ≠ [] →
        blk_get_device_by_str env ifname (D ++ '.' :: H) dd = (-EINVAL, dd)) ∧
      ((env.hextoul D).2 = [] → (env.hextoul H).2 = [] →
        blk_get_device_by_str env ifname (D ++ '.' :: H) dd =
          blk_get_device_by_str_lookup env ifname (ulong_to_int (env.hextoul D).1)
            (ulong_to_int (env.hextoul H).1)) ∧
      ((env.hextoul D).2 = [] → (env.hextoul H).2 = [] →
        (env.hextoul D).1 < 2 ^ 31 → (env.hextoul H).1 < 2 ^ 31 →
        blk_get_device_by_str env ifname (D ++ '.' :: H) dd =
          blk_get_device_by_str_lookup env ifname ((env.hextoul D).1 : Int)
            ((env.hextoul H).1 : Int))) := by
  refine ⟨?_, ?_⟩
  · intro D hD
    rw [blk_get_device_by_str_plain env ifname D dd hD]
    refine ⟨fun h => by rw [if_pos h], fun h => by simp [h], fun h hv => ?_⟩
    simp [h, ulong_to_int_small _ hv]
  · intro D H hD
    rw [blk_get_device_by_str_dotted env ifname D H dd hD]
    refine ⟨fun h => ?_, fun h1 h2 => by simp [h1, h2], fun h1 h2 hv hw => ?_⟩
    · by_cases h1 : (env.hextoul D).2 = []
      · have h2 : (env.hextoul H).2 ≠ [] := h.resolve_left (fun hn => hn h1)
        simp [h1, h2]
      · simp [h1]
    · simp [h1, h2, ulong_to_int_small _ hv, ulong_to_int_small _ hw]

/-- Witness of C10: "0.1" is device 0 with hardware partition 1, "0" is
device 0 with hardware partition 0, "0.1z" is refused, and "a.1f" is device
10 with hardware partition 31. -/
theorem blk_get_device_by_str_parses_witness :
    blk_get_device_by_str (sample_env (sample_disk 0 0 64000) table_empty) "usb".toList
        "0.1".toList none =
      blk_get_device_by_str_lookup (sample_env (sample_disk 0 0 64000) table_empty)
        "usb".toList 0 1 ∧
    blk_get_device_by_str (sample_env (sample_disk 0 0 64000) table_empty) "usb".toList
        "0".toList none =
      blk_get_device_by_str_lookup (sample_env (sample_disk 0 0 64000) table_empty)
        "usb".toList 0 0 ∧
    blk_get_device_by_str (sample_env (sample_disk 0 0 64000) table_empty) "usb".toList
        "0.1z".toList none = (-EINVAL, none) ∧
    blk_get_device_by_str (sample_env (sample_disk 0 0 64000) table_empty) "usb".toList
        "a.1f".toList none =
      blk_get_device_by_str_lookup (sample_env (sample_disk 0 0 64000) table_empty)
        "usb".toList 10 31 :=
  ⟨((blk_get_device_by_str_parses (sample_env (sample_disk 0 0 64000) table_empty)
      "usb".toList none).2 "0".toList "1".toList (by decide)).2.2 (by decide) (by decide)
      (by decide) (by decide),
    ((blk_get_device_by_str_parses (sample_env (sample_disk 0 0 64000) table_empty)
      "usb".toList none).1 "0".toList (by decide)).2.2 (by decide) (by decide),
    ((blk_get_device_by_str_parses (sample_env (sample_disk 0 0 64000) table_empty)
      "usb".toList none).2 "0".toList "1z".toList (by decide)).1 (Or.inr (by decide)),
    by decide⟩

/-- C10 as stated fails: the device string "100000000" parses completely, to
hex 100000000 = 4294967296, yet the device looked up is number 0 (the value
converted to `int`): the call returns 0 with device 0, where a lookup of
device number 4294967296 finds nothing. -/
theorem blk_get_device_by_str_narrows :
    '.' ∉ "100000000".toList ∧
    hextoul "100000000".toList = (4294967296, []) ∧
    blk_get_device_by_str (sample_env (sample_disk 0 0 64000) table_empty) "usb".toList
        "100000000".toList none = (0, some (sample_disk 0 0 64000)) ∧
    blk_get_device_by_str_lookup (sample_env (sample_disk 0 0 64000) table_empty)
        "usb".toList 4294967296 0 = (-ENODEV, none) ∧
    blk_get_device_by_str (sample_env (sample_disk 0 0 64000) table_empty) "usb".toList
        "100000000".toList none ≠
      blk_get_device_by_str_lookup (sample_env (sample_disk 0 0 64000) table_empty)
        "usb".toList ((hextoul "100000000".toList).1 : Int) 0 := by
  decide

/-! ## Unfolding `blk_get_device_part_str` -/

theorem append_sep_ne_nil (D : CStr) (c : Char) (S : CStr) : D ++ c :: S ≠ [] := by
  simp

theorem dash_toList : "-".toList = ['-'] := rfl

theorem append_colon_ne_dash (D S : CStr) : D ++ ':' :: S ≠ "-".toList := by
  rw [dash_toList]
  cases D with
  | nil => simp
  | cons x xs => simp

theorem blk_get_device_part_str_some (env : Env) (ifname s : CStr) (dd : Option blk_desc)
    (info : disk_partition) (allow : Int)
    (hh : env.cfg_hostfs = true → ifname ≠ "hostfs".toList)
    (hu : env.cfg_ubifs = true → ifname ≠ "ubi".toList)
    (hs : s ≠ []) (hd : s ≠ "-".toList) :
    blk_get_device_part_str env ifname (some s) dd info allow =
      resolve_dev_part_str env ifname s dd info allow := by
  have h1 : ¬ (env.cfg_hostfs = true ∧ ifname = "hostfs".toList) := fun h => hh h.1 h.2
  have h2 : ¬ (env.cfg_ubifs = true ∧ ifname = "ubi".toList) := fun h => hu h.1 h.2
  have h3 : ¬ ((some s : Option CStr) = none ∨ some s = some [] ∨ some s = some "-".toList) := by
    rintro (h | h | h)
    · cases h
    · exact hs (Option.some.inj h)
    · exact hd (Option.some.inj h)
  unfold blk_get_device_part_str
  rw [if_neg h1, if_neg h2, if_neg h3]

theorem resolve_dev_part_str_colon (env : Env) (ifname D S : CStr) (dd : Option blk_desc)
    (info : disk_partition) (allow : Int) (hD : ':' ∉ D) (r : Int) (d : blk_desc)
    (hr : blk_get_device_by_str env ifname D dd = (r, some d)) (h0 : 0 ≤ r) :
    resolve_dev_part_str env ifname (D ++ ':' :: S) dd info allow =
      match part_str_to_number env (some S) allow with
      | none => (-ENOENT, some d, info)
      | some part =>
        ((resolve_part env d part info allow).1, some (resolve_part env d part info allow).2.1,
          (resolve_part env d part info allow).2.2) := by
  have h1 : ¬ r < 0 := by omega
  simp only [resolve_dev_part_str, strchr_append D ':' S hD, Option.map_some',
    take_append_sep, drop_append_sep, hr, if_neg h1]

theorem resolve_dev_part_str_plain (env : Env) (ifname D : CStr) (dd : Option blk_desc)
    (info : disk_partition) (allow : Int) (hD : ':' ∉ D) (r : Int) (d : blk_desc)
    (hr : blk_get_device_by_str env ifname D dd = (r, some d)) (h0 : 0 ≤ r) :
    resolve_dev_part_str env ifname D dd info allow =
      ((resolve_part env d PART_UNSPECIFIED info allow).1,
        some (resolve_part env d PART_UNSPECIFIED info allow).2.1,
        (resolve_part env d PART_UNSPECIFIED info allow).2.2) := by
  have h1 : ¬ r < 0 := by omega
  simp only [resolve_dev_part_str, strchr_none D ':' hD, Option.map_none', hr, if_neg h1,
    part_str_to_number]

/-- The resolution of "D:S" once the device string D has given a device. -/
theorem blk_get_device_part_str_colon (env : Env) (ifname D S : CStr) (dd : Option blk_desc)
    (info : disk_partition) (allow : Int)
    (hh : env.cfg_hostfs = true → ifname ≠ "hostfs".toList)
    (hu : env.cfg_ubifs = true → ifname ≠ "ubi".toList)
    (hD : ':' ∉ D) (r : Int) (d : blk_desc)
    (hr : blk_get_device_by_str env ifname D dd = (r, some d)) (h0 : 0 ≤ r) :
    blk_get_device_part_str env ifname (some (D ++ ':' :: S)) dd info allow =
      match part_str_to_number env (some S) allow with
      | none => (-ENOENT, some d, info)
      | some part =>
        ((resolve_part env d part info allow).1, some (resolve_part env d part info allow).2.1,
          (resolve_part env d part info allow).2.2) := by
  rw [blk_get_device_part_str_some env ifname _ dd info allow hh hu (append_sep_ne_nil D ':' S)
    (append_colon_ne_dash D S)]
  exact resolve_dev_part_str_colon env ifname D S dd info allow hD r d hr h0

/-- The resolution of "D", a device string without a partition ID. -/
theorem blk_get_device_part_str_plain (env : Env) (ifname D : CStr) (dd : Option blk_desc)
    (info : disk_partition) (allow : Int)
    (hh : env.cfg_hostfs = true → ifname ≠ "hostfs".toList)
    (hu : env.cfg_ubifs = true → ifname ≠ "ubi".toList)
    (hD : ':' ∉ D) (hs : D ≠ []) (hd : D ≠ "-".toList) (r : Int) (d : blk_desc)
    (hr : blk_get_device_by_str env ifname D dd = (r, some d)) (h0 : 0 ≤ r) :
    blk_get_device_part_str env ifname (some D) dd info allow =
      ((resolve_part env d PART_UNSPECIFIED info allow).1,
        some (resolve_part env d PART_UNSPECIFIED info allow).2.1,
        (resolve_part env d PART_UNSPECIFIED info allow).2.2) := by
  rw [blk_get_device_part_str_some env ifname _ dd info allow hh hu hs hd]
  exact resolve_dev_part_str_plain env ifname D dd info allow hD r d hr h0

/-- The whole-disk exit of lines 561-588. -/
theorem resolve_part_whole_disk (env : Env) (d : blk_desc) (part : Int) (info : disk_partition)
    (allow : Int) (h1 : d.part_type = PART_TYPE_UNKNOWN ∨ part = 0) (hl : d.lba ≠ 0)
    (hp : ¬ part > 0) (ha : allow ≠ 0) :
    resolve_part env d part info allow =
      (0, { d with log2blksz := LOG2 d.blksz },
        { start := 0
          size := d.lba
          blksz := d.blksz
          bootable := 0
          type := env.BOOT_PART_TYPE
          name := "Whole Disk".toList
          uuid := if env.cfg_uuids then [] else info.uuid
          type_guid := if env.cfg_type_guid then [] else info.type_guid }) := by
  have h2 : ¬ (part > 0 ∨ allow = 0) := fun h => h.elim hp ha
  unfold resolve_part
  rw [if_pos h1, if_neg hl, if_neg h2]
  rfl

theorem part_init_loop_set_get_info (F : part_driver → Option get_info_fn)
    (l : List part_driver) (d : blk_desc) :
    part_init_loop (l.map (fun x => { x with get_info := F x })) d = part_init_loop l d := by
  induction l with
  | nil => rfl
  | cons x xs ih => simp only [List.map, part_init_loop, ih]

/-- The device lookup does not use any driver's `get_info`. -/
theorem blk_get_device_by_str_set_get_info (F : part_driver → Option get_info_fn) (env : Env)
    (ifname s : CStr) (dd : Option blk_desc) :
    blk_get_device_by_str (set_get_info F env) ifname s dd =
      blk_get_device_by_str env ifname s dd := by
  have hl : ∀ a b, blk_get_device_by_str_lookup (set_get_info F env) ifname a b =
      blk_get_device_by_str_lookup env ifname a b := by
    intro a b
    simp only [blk_get_device_by_str_lookup, get_dev_hwpart, part_init, set_get_info,
      part_init_loop_set_get_info]
  have hx : (set_get_info F env).hextoul = env.hextoul := rfl
  simp only [blk_get_device_by_str, hl, hx]

/-- Lines 543-554: a partition ID that is a complete hexadecimal number is
used as that number, unless it is 0 and the caller wants a partition. -/
theorem part_str_to_number_explicit (env : Env) (S : CStr) (allow : Int) (hS1 : S ≠ [])
    (hS2 : S ≠ "auto".toList) (hS3 : (env.hextoul S).2 = [])
    (h : ulong_to_int (env.hextoul S).1 ≠ 0 ∨ allow ≠ 0) :
    part_str_to_number env (some S) allow = some (ulong_to_int (env.hextoul S).1) := by
  have h4 : ¬ ((env.hextoul S).2 ≠ [] ∨ (ulong_to_int (env.hextoul S).1 = 0 ∧ allow = 0)) := by
    rintro (h5 | ⟨h5, h6⟩)
    · exact h5 hS3
    · exact h.elim (fun h7 => h7 h5) (fun h7 => h7 h6)
  simp only [part_str_to_number]
  rw [if_neg hS1, if_neg hS2, if_neg h4]

/-- C7. Partition 0 is the whole device. When the device string D gives a
device of nonzero capacity, whatever its format tag, and the partition ID is
an explicit number that is 0, `blk_get_device_part_str` with whole-device
access allowed returns 0, records log2 of the block size on the device, and
fills in start 0, size = capacity, blksz = block size of the device (type
`BOOT_PART_TYPE`, name "Whole Disk", not bootable). The result is the same
when every driver's `get_info` is replaced by anything else: no `get_info`
is called. -/
theorem partition_zero_is_whole_device (env : Env) (ifname D S : CStr)
    (dd : Option blk_desc) (info : disk_partition) (allow : Int) (r : Int) (d : blk_desc)
    (hh : env.cfg_hostfs = true → ifname ≠ "hostfs".toList)
    (hu : env.cfg_ubifs = true → ifname ≠ "ubi".toList)
    (hD : ':' ∉ D)
    (hr : blk_get_device_by_str env ifname D dd = (r, some d)) (h0 : 0 ≤ r)
    (hl : d.lba ≠ 0)
    (hS1 : S ≠ []) (hS2 : S ≠ "auto".toList) (hS3 : (env.hextoul S).2 = [])
    (hS4 : ulong_to_int (env.hextoul S).1 = 0)
    (ha : allow ≠ 0) :
    blk_get_device_part_str env ifname (some (D ++ ':' :: S)) dd info allow =
      (0, some { d with log2blksz := LOG2 d.blksz },
        { start := 0
          size := d.lba
          blksz := d.blksz
          bootable := 0
          type := env.BOOT_PART_TYPE
          name := "Whole Disk".toList
          uuid := if env.cfg_uuids then [] else info.uuid
          type_guid := if env.cfg_type_guid then [] else info.type_guid }) ∧
    ∀ F : part_driver → Option get_info_fn,
      blk_get_device_part_str (set_get_info F env) ifname (some (D ++ ':' :: S)) dd info allow =
        blk_get_device_part_str env ifname (some (D ++ ':' :: S)) dd info allow := by
  have key : ∀ e : Env, (e.cfg_hostfs = true → ifname ≠ "hostfs".toList) →
      (e.cfg_ubifs = true → ifname ≠ "ubi".toList) →
      blk_get_device_by_str e ifname D dd = (r, some d) →
      (e.hextoul S).2 = [] → ulong_to_int (e.hextoul S).1 = 0 →
      blk_get_device_part_str e ifname (some (D ++ ':' :: S)) dd info allow =
        (0, some { d with log2blksz := LOG2 d.blksz },
          { start := 0
            size := d.lba
            blksz := d.blksz
            bootable := 0
            type := e.BOOT_PART_TYPE
            name := "Whole Disk".toList
            uuid := if e.cfg_uuids then [] else info.uuid
            type_guid := if e.cfg_type_guid then [] else info.type_guid }) := by
    intro e eh eu er e3 e4
    rw [blk_get_device_part_str_colon e ifname D S dd info allow eh eu hD r d er h0,
      part_str_to_number_explicit e S allow hS1 hS2 e3 (Or.inr ha), e4]
    simp only [resolve_part_whole_disk e d 0 info allow (Or.inr rfl) hl (by decide) ha]
  refine ⟨key env hh hu hr hS3 hS4, fun F => ?_⟩
  rw [key env hh hu hr hS3 hS4,
    key (set_get_info F env) hh hu (by rw [blk_get_device_by_str_set_get_info]; exact hr)
      hS3 hS4]
  rfl

/-- Witness of C7: capacity 64000 blocks of 512 bytes, no partition table,
"0:0" with whole-device access allowed gives index 0, start 0, size 64000,
block size 512. -/
theorem partition_zero_is_whole_device_witness :
    blk_get_device_part_str (sample_env (sample_disk 0 0 64000) table_empty) "usb".toList
        (some "0:0".toList) none zero_info 1 =
      (0, some { sample_disk 0 0 64000 with log2blksz := 9 },
        { start := 0, size := 64000, blksz := 512, bootable := 0, type := "U-Boot".toList,
          name := "Whole Disk".toList, uuid := [], type_guid := [] }) :=
  (partition_zero_is_whole_device (sample_env (sample_disk 0 0 64000) table_empty)
    "usb".toList "0".toList "0".toList none zero_info 1 0 (sample_disk 0 0 64000)
    (by decide) (by decide) (by decide) (by decide) (by decide) (by decide) (by decide)
    (by decide) (by decide) (by decide) (by decide)).1

/-- The exit "No partition table" of lines 575-580. -/
theorem resolve_part_no_table (env : Env) (d : blk_desc) (part : Int) (info : disk_partition)
    (allow : Int) (h1 : d.part_type = PART_TYPE_UNKNOWN ∨ part = 0) (hl : d.lba ≠ 0)
    (hp : part > 0 ∨ allow = 0) :
    resolve_part env d part info allow = (-EPROTONOSUPPORT, d, info) := by
  unfold resolve_part
  rw [if_pos h1, if_neg hl, if_pos hp]

/-- C4, as the code has it. For a device with no recognized partition format
(format tag UNKNOWN) and nonzero capacity: with the partition ID unspecified
("D" with D neither empty nor "-", or "D:") or an explicit number that is
0, and whole-device access
allowed, `blk_get_device_part_str` returns 0 and fills in start 0 and size =
capacity of the device; with an explicit partition number that is positive
as an `int` it fails with `-EPROTONOSUPPORT`, whatever the caller allows. -/
theorem no_table_resolution (env : Env) (ifname D : CStr)
    (dd : Option blk_desc) (info : disk_partition) (allow : Int) (r : Int) (d : blk_desc)
    (hh : env.cfg_hostfs = true → ifname ≠ "hostfs".toList)
    (hu : env.cfg_ubifs = true → ifname ≠ "ubi".toList)
    (hD : ':' ∉ D)
    (hr : blk_get_device_by_str env ifname D dd = (r, some d)) (h0 : 0 ≤ r)
    (ht : d.part_type = PART_TYPE_UNKNOWN) (hl : d.lba ≠ 0) :
    (allow ≠ 0 → D ≠ [] → D ≠ "-".toList →
      blk_get_device_part_str env ifname (some D) dd info allow =
        (0, some { d with log2blksz := LOG2 d.blksz },
          (part_get_info_whole_disk env d info).2)) ∧
    (allow ≠ 0 →
      blk_get_device_part_str env ifname (some (D ++ ':' :: [])) dd info allow =
        (0, some { d with log2blksz := LOG2 d.blksz },
          (part_get_info_whole_disk env d info).2)) ∧
    (allow ≠ 0 → ∀ S : CStr, S ≠ [] → S ≠ "auto".toList → (env.hextoul S).2 = [] →
      ulong_to_int (env.hextoul S).1 = 0 →
      blk_get_device_part_str env ifname (some (D ++ ':' :: S)) dd info allow =
        (0, some { d with log2blksz := LOG2 d.blksz },
          (part_get_info_whole_disk env d info).2)) ∧
    (∀ S : CStr, S ≠ [] → S ≠ "auto".toList → (env.hextoul S).2 = [] →
      0 < ulong_to_int (env.hextoul S).1 →
      blk_get_device_part_str env ifname (some (D ++ ':' :: S)) dd info allow =
        (-EPROTONOSUPPORT, some d, info)) ∧
    (part_get_info_whole_disk env d info).2.start = 0 ∧
    (part_get_info_whole_disk env d info).2.size = d.lba := by
  refine ⟨?_, ?_, ?_, ?_, rfl, rfl⟩
  · intro ha hs hd
    rw [blk_get_device_part_str_plain env ifname D dd info allow hh hu hD hs hd r d hr h0]
    simp only [resolve_part_whole_disk env d PART_UNSPECIFIED info allow (Or.inl ht) hl
      (by decide) ha]
    rfl
  · intro ha
    rw [blk_get_device_part_str_colon env ifname D [] dd info allow hh hu hD r d hr h0]
    have hn : part_str_to_number env (some []) allow = some PART_UNSPECIFIED := by
      simp [part_str_to_number]
    rw [hn]
    simp only [resolve_part_whole_disk env d PART_UNSPECIFIED info allow (Or.inl ht) hl
      (by decide) ha]
    rfl
  · intro ha S hS1 hS2 hS3 hS4
    rw [blk_get_device_part_str_colon env ifname D S dd info allow hh hu hD r d hr h0,
      part_str_to_number_explicit env S allow hS1 hS2 hS3 (Or.inr ha), hS4]
    simp only [resolve_part_whole_disk env d 0 info allow (Or.inl ht) hl (by decide) ha]
    rfl
  · intro S hS1 hS2 hS3 hS4
    rw [blk_get_device_part_str_colon env ifname D S dd info allow hh hu hD r d hr h0,
      part_str_to_number_explicit env S allow hS1 hS2 hS3 (Or.inl (by omega))]
    simp only [resolve_part_no_table env d _ info allow (Or.inl ht) hl (Or.inl hS4)]

/-- Witness of C4: a disk of 64000 blocks without a partition table; "0",
"0:" and "0:0" give the whole disk, "0:1" gives `-EPROTONOSUPPORT`. -/
theorem no_table_resolution_witness :
    blk_get_device_part_str (sample_env (sample_disk 0 0 64000) table_empty) "usb".toList
        (some "0".toList) none zero_info 1 =
      (0, some { sample_disk 0 0 64000 with log2blksz := 9 },
        { start := 0, size := 64000, blksz := 512, bootable := 0, type := "U-Boot".toList,
          name := "Whole Disk".toList, uuid := [], type_guid := [] }) ∧
    blk_get_device_part_str (sample_env (sample_disk 0 0 64000) table_empty) "usb".toList
        (some "0:1".toList) none zero_info 1 =
      (-EPROTONOSUPPORT, some (sample_disk 0 0 64000), zero_info) :=
  ⟨(no_table_resolution (sample_env (sample_disk 0 0 64000) table_empty)
      "usb".toList "0".toList none zero_info 1 0 (sample_disk 0 0 64000)
      (by decide) (by decide) (by decide) (by decide) (by decide) (by decide) (by decide)).1
      (by decide) (by decide) (by decide),
    (no_table_resolution (sample_env (sample_disk 0 0 64000) table_empty)
      "usb".toList "0".toList none zero_info 1 0 (sample_disk 0 0 64000)
      (by decide) (by decide) (by decide) (by decide) (by decide) (by decide) (by decide)).2.2.2.1
      "1".toList (by decide) (by decide) (by decide) (by decide)⟩

/-- C4 as stated fails. A device without a partition table and with capacity
0 is refused with `-EINVAL` for "0:0" although whole-device access is
allowed; and on a device without a partition table and capacity 64000 the
explicit partition number ffffffff does not fail but gives the whole disk
with return value 0. -/
theorem no_table_zero_capacity :
    (sample_disk 0 0 0).part_type = PART_TYPE_UNKNOWN ∧
    blk_get_device_by_str (sample_env (sample_disk 0 0 0) table_empty) "usb".toList
        "0".toList none = (0, some (sample_disk 0 0 0)) ∧
    blk_get_device_part_str (sample_env (sample_disk 0 0 0) table_empty) "usb".toList
        (some "0:0".toList) none zero_info 1 = (-EINVAL, some (sample_disk 0 0 0), zero_info) ∧
    blk_get_device_part_str (sample_env (sample_disk 0 0 0) table_empty) "usb".toList
        (some "0".toList) none zero_info 1 = (-EINVAL, some (sample_disk 0 0 0), zero_info) ∧
    (blk_get_device_part_str (sample_env (sample_disk 0 0 0) table_empty) "usb".toList
        (some "0:0".toList) none zero_info 1).1 < 0 ∧
    (hextoul "ffffffff".toList = (4294967295, []) ∧
      (blk_get_device_part_str (sample_env (sample_disk 0 0 64000) table_empty) "usb".toList
        (some "0:ffffffff".toList) none zero_info 1).1 = 0) := by
  decide

/-- With a partition table, an unspecified partition ID and the number 1 are
resolved alike (lines 594-595). -/
theorem resolve_part_unspecified (env : Env) (d : blk_desc) (info : disk_partition)
    (allow : Int) (ht : d.part_type ≠ PART_TYPE_UNKNOWN) :
    resolve_part env d PART_UNSPECIFIED info allow = resolve_part env d 1 info allow := by
  have h1 : ¬ (d.part_type = PART_TYPE_UNKNOWN ∨ PART_UNSPECIFIED = 0) := by
    rintro (h | h)
    · exact ht h
    · exact absurd h (by decide)
  have h2 : ¬ (d.part_type = PART_TYPE_UNKNOWN ∨ (1 : Int) = 0) := by
    rintro (h | h)
    · exact ht h
    · exact absurd h (by decide)
  have h3 : ¬ ((1 : Int) = PART_UNSPECIFIED) := by decide
  unfold resolve_part
  rw [if_neg h1, if_neg h2]
  simp only [if_true, if_neg h3]

theorem resolve_dev_part_str_unfold_colon (env : Env) (ifname D S : CStr)
    (dd : Option blk_desc) (info : disk_partition) (allow : Int) (hD : ':' ∉ D) :
    resolve_dev_part_str env ifname (D ++ ':' :: S) dd info allow =
      if (blk_get_device_by_str env ifname D dd).1 < 0 then
        ((blk_get_device_by_str env ifname D dd).1, (blk_get_device_by_str env ifname D dd).2,
          info)
      else
        match (blk_get_device_by_str env ifname D dd).2 with
        | none => ((blk_get_device_by_str env ifname D dd).1, none, info)
        | some d =>
          match part_str_to_number env (some S) allow with
          | none => (-ENOENT, some d, info)
          | some part =>
            ((resolve_part env d part info allow).1,
              some (resolve_part env d part info allow).2.1,
              (resolve_part env d part info allow).2.2) := by
  simp only [resolve_dev_part_str, strchr_append D ':' S hD, Option.map_some',
    take_append_sep, drop_append_sep]

theorem resolve_dev_part_str_unfold_plain (env : Env) (ifname D : CStr)
    (dd : Option blk_desc) (info : disk_partition) (allow : Int) (hD : ':' ∉ D) :
    resolve_dev_part_str env ifname D dd info allow =
      if (blk_get_device_by_str env ifname D dd).1 < 0 then
        ((blk_get_device_by_str env ifname D dd).1, (blk_get_device_by_str env ifname D dd).2,
          info)
      else
        match (blk_get_device_by_str env ifname D dd).2 with
        | none => ((blk_get_device_by_str env ifname D dd).1, none, info)
        | some d =>
          ((resolve_part env d PART_UNSPECIFIED info allow).1,
            some (resolve_part env d PART_UNSPECIFIED info allow).2.1,
            (resolve_part env d PART_UNSPECIFIED info allow).2.2) := by
  simp only [resolve_dev_part_str, strchr_none D ':' hD, Option.map_none', part_str_to_number]

/-- For a string that is present, not empty and not "-", the environment is
not consulted and the string itself is resolved. -/
theorem blk_get_device_part_str_unfold (env : Env) (ifname s : CStr) (dd : Option blk_desc)
    (info : disk_partition) (allow : Int) (hs : s ≠ []) (hd : s ≠ "-".toList) :
    blk_get_device_part_str env ifname (some s) dd info allow =
      if env.cfg_hostfs = true ∧ ifname = "hostfs".toList then
        blk_get_device_part_str env ifname none dd info allow
      else if env.cfg_ubifs = true ∧ ifname = "ubi".toList then
        blk_get_device_part_str env ifname none dd info allow
      else resolve_dev_part_str env ifname s dd info allow := by
  have h3 : ¬ ((some s : Option CStr) = none ∨ some s = some [] ∨ some s = some "-".toList) := by
    rintro (h | h | h)
    · cases h
    · exact hs (Option.some.inj h)
    · exact hd (Option.some.inj h)
  unfold blk_get_device_part_str
  split_ifs <;> first | rfl | simp_all

/-- C5, as the code has it. When the device string D (without ':', neither
empty nor the placeholder "-") gives a device with a recognized format
(format tag not UNKNOWN), and `hextoul` reads "1" as the number 1,
`blk_get_device_part_str` gives the same return value, the same partition
record and the same device descriptor for "D", for "D:" and for "D:1",
whatever `allow_whole_dev` is. -/
theorem unspecified_is_partition_one (env : Env) (ifname D : CStr)
    (dd : Option blk_desc) (info : disk_partition) (allow : Int) (r : Int) (d : blk_desc)
    (hD : ':' ∉ D) (hs : D ≠ []) (hd : D ≠ "-".toList)
    (hx : env.hextoul "1".toList = (1, []))
    (hr : blk_get_device_by_str env ifname D dd = (r, some d))
    (ht : d.part_type ≠ PART_TYPE_UNKNOWN) :
    blk_get_device_part_str env ifname (some D) dd info allow =
        blk_get_device_part_str env ifname (some (D ++ ':' :: "1".toList)) dd info allow ∧
    blk_get_device_part_str env ifname (some (D ++ ':' :: [])) dd info allow =
        blk_get_device_part_str env ifname (some (D ++ ':' :: "1".toList)) dd info allow := by
  have hn1 : part_str_to_number env (some "1".toList) allow = some 1 := by
    rw [part_str_to_number_explicit env "1".toList allow (by decide) (by decide)
      (by rw [hx]) (Or.inl (by rw [hx]; decide)), hx]
    rfl
  have hn0 : part_str_to_number env (some []) allow = some PART_UNSPECIFIED := by
    simp [part_str_to_number]
  have e1 : resolve_dev_part_str env ifname D dd info allow =
      resolve_dev_part_str env ifname (D ++ ':' :: "1".toList) dd info allow := by
    rw [resolve_dev_part_str_unfold_plain env ifname D dd info allow hD,
      resolve_dev_part_str_unfold_colon env ifname D _ dd info allow hD, hr, hn1]
    simp only [resolve_part_unspecified env d info allow ht]
  have e2 : resolve_dev_part_str env ifname (D ++ ':' :: []) dd info allow =
      resolve_dev_part_str env ifname (D ++ ':' :: "1".toList) dd info allow := by
    rw [resolve_dev_part_str_unfold_colon env ifname D _ dd info allow hD,
      resolve_dev_part_str_unfold_colon env ifname D _ dd info allow hD, hr, hn1, hn0]
    simp only [resolve_part_unspecified env d info allow ht]
  constructor
  · rw [blk_get_device_part_str_unfold env ifname D dd info allow hs hd,
      blk_get_device_part_str_unfold env ifname _ dd info allow (append_sep_ne_nil D ':' _)
        (append_colon_ne_dash D _), e1]
  · rw [blk_get_device_part_str_unfold env ifname _ dd info allow (append_sep_ne_nil D ':' _)
        (append_colon_ne_dash D _),
      blk_get_device_part_str_unfold env ifname _ dd info allow (append_sep_ne_nil D ':' _)
        (append_colon_ne_dash D _), e2]

/-- Witness of C5: on a disk with a partition table whose entry 1 exists,
"0", "0:" and "0:1" all give partition 1. -/
theorem unspecified_is_partition_one_witness :
    (blk_get_device_part_str (sample_env (sample_disk 0 2 64000) table_no_boot) "usb".toList
        (some "0".toList) none zero_info 0 =
      blk_get_device_part_str (sample_env (sample_disk 0 2 64000) table_no_boot) "usb".toList
        (some "0:1".toList) none zero_info 0 ∧
    blk_get_device_part_str (sample_env (sample_disk 0 2 64000) table_no_boot) "usb".toList
        (some "0:".toList) none zero_info 0 =
      blk_get_device_part_str (sample_env (sample_disk 0 2 64000) table_no_boot) "usb".toList
        (some "0:1".toList) none zero_info 0) ∧
    (blk_get_device_part_str (sample_env (sample_disk 0 2 64000) table_no_boot) "usb".toList
        (some "0:1".toList) none zero_info 0).1 = 1 :=
  ⟨unspecified_is_partition_one (sample_env (sample_disk 0 2 64000) table_no_boot)
      "usb".toList "0".toList none zero_info 0 0 (sample_disk 0 2 64000)
      (by decide) (by decide) (by decide) (by decide) (by decide) (by decide), by decide⟩

/-- C5 as stated fails for the empty device string. It denotes device 0 (the
device lookup accepts it, and ":1" gives partition 1 of device 0), but given
alone it is the request to use the environment variable "bootdevice"; when
that is not set the call fails with `-ENODEV`. -/
theorem unspecified_empty_device_string :
    blk_get_device_by_str (sample_env (sample_disk 0 2 64000) table_no_boot) "usb".toList
        [] none = (0, some (sample_disk 0 2 64000)) ∧
    (sample_disk 0 2 64000).part_type ≠ PART_TYPE_UNKNOWN ∧
    blk_get_device_part_str (sample_env (sample_disk 0 2 64000) table_no_boot) "usb".toList
        (some []) none zero_info 1 = (-ENODEV, none, zero_info) ∧
    blk_get_device_part_str (sample_env (sample_disk 0 2 64000) table_no_boot) "usb".toList
        (some ([] ++ ':' :: "1".toList)) none zero_info 1 =
      (1, some { sample_disk 0 2 64000 with log2blksz := 9 },
        sample_entry 1 0 "U-Boot".toList) ∧
    blk_get_device_part_str (sample_env (sample_disk 0 2 64000) table_no_boot) "usb".toList
        (some []) none zero_info 1 ≠
      blk_get_device_part_str (sample_env (sample_disk 0 2 64000) table_no_boot) "usb".toList
        (some ([] ++ ':' :: "1".toList)) none zero_info 1 := by
  decide

/-! ## Lookup by index on a classified device -/

/-- On a classified device whose driver has a `get_info` method,
`part_get_info` is that method applied to the buffer with the optional fields
emptied; a nonzero status becomes `-ENOENT`, and the descriptor is not
touched. -/
theorem part_get_info_known (env : Env) (dev : blk_desc) (part : Int) (info : disk_partition)
    (drv : part_driver) (g : get_info_fn) (ht : dev.part_type ≠ PART_TYPE_UNKNOWN)
    (hd : (part_driver_lookup_type env dev).1 = some drv) (hg : drv.get_info = some g) :
    part_get_info env dev part info =
      (if (g dev part (clear_optional_fields env info)).1 = 0 then 0 else -ENOENT, dev,
        (g dev part (clear_optional_fields env info)).2) := by
  have h2 : (part_driver_lookup_type env dev).2 = dev := by
    simp only [part_driver_lookup_type, if_neg ht]
  unfold part_get_info
  rw [hd]
  simp only [hg, h2]
  split_ifs <;> rfl

/-- The return value of `part_get_info` is 0 or negative. -/
theorem part_get_info_ret (env : Env) (dev : blk_desc) (part : Int) (info : disk_partition) :
    (part_get_info env dev part info).1 = 0 ∨ (part_get_info env dev part info).1 < 0 := by
  unfold part_get_info
  split
  · right; simp [EPROTONOSUPPORT]
  · split
    · right; simp [ENOSYS]
    · split_ifs
      · left; rfl
      · right; simp [ENOENT]

/-- On a classified device `part_get_info` leaves the descriptor as it is. -/
theorem part_get_info_dev (env : Env) (dev : blk_desc) (part : Int) (info : disk_partition)
    (ht : dev.part_type ≠ PART_TYPE_UNKNOWN) : (part_get_info env dev part info).2.1 = dev := by
  have h2 : (part_driver_lookup_type env dev).2 = dev := by
    simp only [part_driver_lookup_type, if_neg ht]
  unfold part_get_info
  split
  · exact h2
  · split
    · exact h2
    · split_ifs <;> exact h2

/-! ## The search loop -/

/-- One iteration of the search loop on an index without a valid entry. -/
theorem auto_search_absent (env : Env) (dev : blk_desc) (drv : part_driver) (g : get_info_fn)
    (ht : dev.part_type ≠ PART_TYPE_UNKNOWN)
    (hd : (part_driver_lookup_type env dev).1 = some drv) (hg : drv.get_info = some g)
    (n : Nat) (s : auto_state) (hs : s.dev_desc = dev)
    (h1 : (g dev s.p (clear_optional_fields env s.info)).1 ≠ 0) :
    auto_search env (n + 1) s =
      auto_search env n
        { ret := -ENOENT
          part := s.part
          p := s.p + 1
          info := (g dev s.p (clear_optional_fields env s.info)).2
          tmpinfo := s.tmpinfo
          dev_desc := dev } := by
  have e := part_get_info_known env dev s.p s.info drv g ht hd hg
  rw [if_neg h1] at e
  have hne : (-ENOENT : Int) ≠ 0 := by decide
  simp only [auto_search, hs, e, ne_eq, hne, not_false_eq_true, if_true]

/-- One iteration of the search loop on a valid bootable entry: the loop is
left. -/
theorem auto_search_bootable_entry (env : Env) (dev : blk_desc) (drv : part_driver)
    (g : get_info_fn) (ht : dev.part_type ≠ PART_TYPE_UNKNOWN)
    (hd : (part_driver_lookup_type env dev).1 = some drv) (hg : drv.get_info = some g)
    (n : Nat) (s : auto_state) (hs : s.dev_desc = dev)
    (h1 : (g dev s.p (clear_optional_fields env s.info)).1 = 0)
    (h2 : (g dev s.p (clear_optional_fields env s.info)).2.bootable ≠ 0) :
    auto_search env (n + 1) s =
      { ret := 0
        part := s.p
        p := s.p
        info := (g dev s.p (clear_optional_fields env s.info)).2
        tmpinfo := s.tmpinfo
        dev_desc := dev } := by
  have e := part_get_info_known env dev s.p s.info drv g ht hd hg
  rw [if_pos h1] at e
  simp only [auto_search, hs, e, ne_eq, not_true_eq_false, if_false, h2, not_false_eq_true,
    if_true, or_true]

/-- One iteration of the search loop on a valid entry that is not bootable. -/
theorem auto_search_plain_entry (env : Env) (dev : blk_desc) (drv : part_driver)
    (g : get_info_fn) (ht : dev.part_type ≠ PART_TYPE_UNKNOWN)
    (hd : (part_driver_lookup_type env dev).1 = some drv) (hg : drv.get_info = some g)
    (n : Nat) (s : auto_state) (hs : s.dev_desc = dev)
    (h1 : (g dev s.p (clear_optional_fields env s.info)).1 = 0)
    (h2 : (g dev s.p (clear_optional_fields env s.info)).2.bootable = 0) :
    auto_search env (n + 1) s =
      auto_search env n
        { ret := 0
          part := if s.part = 0 then s.p else s.part
          p := s.p + 1
          info := (g dev s.p (clear_optional_fields env s.info)).2
          tmpinfo :=
            if (if s.part = 0 then s.p else s.part) = s.p then
              (g dev s.p (clear_optional_fields env s.info)).2
            else s.tmpinfo
          dev_desc := dev } := by
  have e := part_get_info_known env dev s.p s.info drv g ht hd hg
  rw [if_pos h1] at e
  simp only [auto_search, hs, e, ne_eq, not_true_eq_false, if_false, h2, or_false]

/-- The search loop stops at the first index with a valid bootable entry. -/
theorem auto_search_first_bootable (env : Env) (dev : blk_desc) (drv : part_driver)
    (g : get_info_fn) (ht : dev.part_type ≠ PART_TYPE_UNKNOWN)
    (hd : (part_driver_lookup_type env dev).1 = some drv) (hg : drv.get_info = some g)
    (k : Nat) :
    ∀ (n : Nat) (s : auto_state), k < n → s.dev_desc = dev →
      (∀ buf, (g dev (s.p + k) buf).1 = 0 ∧ (g dev (s.p + k) buf).2.bootable ≠ 0) →
      (∀ j : Nat, j < k → ∀ buf,
        (g dev (s.p + j) buf).1 ≠ 0 ∨ (g dev (s.p + j) buf).2.bootable = 0) →
      ∃ buf, (auto_search env n s).part = s.p + k ∧ (auto_search env n s).p = s.p + k ∧
        (auto_search env n s).info = (g dev (s.p + k) buf).2 ∧
        (auto_search env n s).dev_desc = dev := by
  induction k with
  | zero =>
    intro n s hn hs hb _
    obtain ⟨m, rfl⟩ : ∃ m, n = m + 1 := ⟨n - 1, by omega⟩
    have hb0 := hb (clear_optional_fields env s.info)
    simp only [Nat.cast_zero, add_zero] at hb0 ⊢
    rw [auto_search_bootable_entry env dev drv g ht hd hg m s hs hb0.1 hb0.2]
    exact ⟨clear_optional_fields env s.info, rfl, rfl, rfl, rfl⟩
  | succ k ih =>
    intro n s hn hs hb hlt
    obtain ⟨m, rfl⟩ : ∃ m, n = m + 1 := ⟨n - 1, by omega⟩
    have hkm : k < m := by omega
    have e1 : ∀ j : Nat, s.p + 1 + (j : Int) = s.p + ((j + 1 : Nat) : Int) := by
      intro j; push_cast; ring
    have h0 := hlt 0 (by omega) (clear_optional_fields env s.info)
    simp only [Nat.cast_zero, add_zero] at h0
    by_cases hv : (g dev s.p (clear_optional_fields env s.info)).1 = 0
    · have hnb : (g dev s.p (clear_optional_fields env s.info)).2.bootable = 0 :=
        h0.resolve_left (fun h => h hv)
      rw [auto_search_plain_entry env dev drv g ht hd hg m s hs hv hnb]
      have := ih m
        { ret := 0
          part := if s.part = 0 then s.p else s.part
          p := s.p + 1
          info := (g dev s.p (clear_optional_fields env s.info)).2
          tmpinfo :=
            if (if s.part = 0 then s.p else s.part) = s.p then
              (g dev s.p (clear_optional_fields env s.info)).2
            else s.tmpinfo
          dev_desc := dev } hkm rfl (by intro buf; simp only [e1]; exact hb buf)
        (by intro j hj buf; simp only [e1]; exact hlt (j + 1) (by omega) buf)
      simpa only [e1] using this
    · rw [auto_search_absent env dev drv g ht hd hg m s hs hv]
      have := ih m { ret := -ENOENT, part := s.part, p := s.p + 1,
                     info := (g dev s.p (clear_optional_fields env s.info)).2,
                     tmpinfo := s.tmpinfo, dev_desc := dev } hkm rfl
        (by intro buf; simp only [e1]; exact hb buf)
        (by intro j hj buf; simp only [e1]; exact hlt (j + 1) (by omega) buf)
      simpa only [e1] using this

/-- Once a first valid entry is recorded, the rest of the loop, if it meets
no bootable entry, runs to the end and keeps the record. -/
theorem auto_search_rest (env : Env) (dev : blk_desc) (drv : part_driver)
    (g : get_info_fn) (ht : dev.part_type ≠ PART_TYPE_UNKNOWN)
    (hd : (part_driver_lookup_type env dev).1 = some drv) (hg : drv.get_info = some g)
    (n : Nat) :
    ∀ s : auto_state, s.dev_desc = dev → s.part ≠ 0 → s.part < s.p →
      (∀ j : Nat, j < n → ∀ buf,
        (g dev (s.p + j) buf).1 ≠ 0 ∨ (g dev (s.p + j) buf).2.bootable = 0) →
      (auto_search env n s).part = s.part ∧ (auto_search env n s).p = s.p + n ∧
        (auto_search env n s).tmpinfo = s.tmpinfo ∧ (auto_search env n s).dev_desc = dev := by
  induction n with
  | zero =>
    intro s hs _ _ _
    refine ⟨rfl, ?_, rfl, hs⟩
    simp [auto_search]
  | succ m ih =>
    intro s hs hp hlt hnb
    have e1 : ∀ j : Nat, s.p + 1 + (j : Int) = s.p + ((j + 1 : Nat) : Int) := by
      intro j; push_cast; ring
    have h0 := hnb 0 (by omega) (clear_optional_fields env s.info)
    simp only [Nat.cast_zero, add_zero] at h0
    by_cases hv : (g dev s.p (clear_optional_fields env s.info)).1 = 0
    · have hb : (g dev s.p (clear_optional_fields env s.info)).2.bootable = 0 :=
        h0.resolve_left (fun h => h hv)
      rw [auto_search_plain_entry env dev drv g ht hd hg m s hs hv hb]
      have hne : ¬ s.part = s.p := by omega
      have := ih { ret := 0, part := s.part, p := s.p + 1,
                   info := (g dev s.p (clear_optional_fields env s.info)).2,
                   tmpinfo := s.tmpinfo, dev_desc := dev } rfl hp
        (by show s.part < s.p + 1; omega)
        (by intro j hj buf; simp only [e1]; exact hnb (j + 1) (by omega) buf)
      simp only [if_neg hp, if_neg hne]
      simpa only [e1] using this
    · rw [auto_search_absent env dev drv g ht hd hg m s hs hv]
      have := ih { ret := -ENOENT, part := s.part, p := s.p + 1,
                   info := (g dev s.p (clear_optional_fields env s.info)).2,
                   tmpinfo := s.tmpinfo, dev_desc := dev } rfl hp
        (by show s.part < s.p + 1; omega)
        (by intro j hj buf; simp only [e1]; exact hnb (j + 1) (by omega) buf)
      simpa only [e1] using this

/-- Without any bootable entry the loop runs to the end and records the first
valid entry with a copy of its contents. -/
theorem auto_search_first_valid (env : Env) (dev : blk_desc) (drv : part_driver)
    (g : get_info_fn) (ht : dev.part_type ≠ PART_TYPE_UNKNOWN)
    (hd : (part_driver_lookup_type env dev).1 = some drv) (hg : drv.get_info = some g)
    (k : Nat) :
    ∀ (n : Nat) (s : auto_state), k < n → s.dev_desc = dev → s.part = 0 → 0 < s.p →
      (∀ buf, (g dev (s.p + k) buf).1 = 0) →
      (∀ j : Nat, j < k → ∀ buf, (g dev (s.p + j) buf).1 ≠ 0) →
      (∀ j : Nat, j < n → ∀ buf,
        (g dev (s.p + j) buf).1 ≠ 0 ∨ (g dev (s.p + j) buf).2.bootable = 0) →
      ∃ buf, (auto_search env n s).part = s.p + k ∧ (auto_search env n s).p = s.p + n ∧
        (auto_search env n s).tmpinfo = (g dev (s.p + k) buf).2 ∧
        (auto_search env n s).dev_desc = dev := by
  induction k with
  | zero =>
    intro n s hn hs hp0 hpos hv _ hnb
    obtain ⟨m, rfl⟩ : ∃ m, n = m + 1 := ⟨n - 1, by omega⟩
    have e1 : ∀ j : Nat, s.p + 1 + (j : Int) = s.p + ((j + 1 : Nat) : Int) := by
      intro j; push_cast; ring
    have hv0 := hv (clear_optional_fields env s.info)
    have h0 := hnb 0 (by omega) (clear_optional_fields env s.info)
    simp only [Nat.cast_zero, add_zero] at hv0 h0 ⊢
    have hb : (g dev s.p (clear_optional_fields env s.info)).2.bootable = 0 :=
      h0.resolve_left (fun h => h hv0)
    rw [auto_search_plain_entry env dev drv g ht hd hg m s hs hv0 hb]
    simp only [if_pos hp0, if_true]
    have := auto_search_rest env dev drv g ht hd hg m
      { ret := 0, part := s.p, p := s.p + 1,
        info := (g dev s.p (clear_optional_fields env s.info)).2,
        tmpinfo := (g dev s.p (clear_optional_fields env s.info)).2, dev_desc := dev } rfl
      (by show s.p ≠ 0; omega) (by show s.p < s.p + 1; omega)
      (by intro j hj buf; simp only [e1]; exact hnb (j + 1) (by omega) buf)
    refine ⟨clear_optional_fields env s.info, this.1, ?_, this.2.2.1, this.2.2.2⟩
    rw [this.2.1]; push_cast; ring
  | succ k ih =>
    intro n s hn hs hp0 hpos hv hlt hnb
    obtain ⟨m, rfl⟩ : ∃ m, n = m + 1 := ⟨n - 1, by omega⟩
    have hkm : k < m := by omega
    have e1 : ∀ j : Nat, s.p + 1 + (j : Int) = s.p + ((j + 1 : Nat) : Int) := by
      intro j; push_cast; ring
    have h0 := hlt 0 (by omega) (clear_optional_fields env s.info)
    simp only [Nat.cast_zero, add_zero] at h0
    rw [auto_search_absent env dev drv g ht hd hg m s hs h0]
    have := ih m { ret := -ENOENT, part := s.part, p := s.p + 1,
                   info := (g dev s.p (clear_optional_fields env s.info)).2,
                   tmpinfo := s.tmpinfo, dev_desc := dev } hkm rfl hp0
      (by show 0 < s.p + 1; omega)
      (by intro buf; simp only [e1]; exact hv buf)
      (by intro j hj buf; simp only [e1]; exact hlt (j + 1) (by omega) buf)
      (by intro j hj buf; simp only [e1]; exact hnb (j + 1) (by omega) buf)
    simpa only [e1] using this

/-- When no index of the range has a valid entry, the loop runs to the end
with nothing recorded and `ret` holding `-ENOENT`. -/
theorem auto_search_all_absent (env : Env) (dev : blk_desc) (drv : part_driver)
    (g : get_info_fn) (ht : dev.part_type ≠ PART_TYPE_UNKNOWN)
    (hd : (part_driver_lookup_type env dev).1 = some drv) (hg : drv.get_info = some g)
    (n : Nat) :
    ∀ s : auto_state, s.dev_desc = dev → s.part = 0 →
      (∀ j : Nat, j < n → ∀ buf, (g dev (s.p + j) buf).1 ≠ 0) →
      (auto_search env n s).part = 0 ∧ (auto_search env n s).dev_desc = dev ∧
        (0 < n ∨ s.ret = -ENOENT → (auto_search env n s).ret = -ENOENT) := by
  induction n with
  | zero =>
    intro s hs hp _
    simp only [auto_search]
    exact ⟨hp, hs, fun h => h.elim (fun h => absurd h (by omega)) id⟩
  | succ m ih =>
    intro s hs hp hab
    have e1 : ∀ j : Nat, s.p + 1 + (j : Int) = s.p + ((j + 1 : Nat) : Int) := by
      intro j; push_cast; ring
    have h0 := hab 0 (by omega) (clear_optional_fields env s.info)
    simp only [Nat.cast_zero, add_zero] at h0
    rw [auto_search_absent env dev drv g ht hd hg m s hs h0]
    have := ih { ret := -ENOENT, part := s.part, p := s.p + 1,
                 info := (g dev s.p (clear_optional_fields env s.info)).2,
                 tmpinfo := s.tmpinfo, dev_desc := dev } rfl hp
      (by intro j hj buf; simp only [e1]; exact hab (j + 1) (by omega) buf)
    exact ⟨this.1, this.2.1, fun _ => this.2.2 (Or.inr rfl)⟩

theorem strncmp_eq_self (a : CStr) (n : Nat) : strncmp_eq a a n = true := by
  simp [strncmp_eq]

theorem part_str_to_number_auto (env : Env) (allow : Int) :
    part_str_to_number env (some "auto".toList) allow = some PART_AUTO := by
  unfold part_str_to_number
  simp only []
  rw [if_neg (by decide), if_pos trivial]

/-- The type check of lines 650-661 by cases. -/
theorem check_part_type_eq (env : Env) (d : blk_desc) (part : Int) (e : disk_partition) :
    check_part_type env d part e =
      if strncmp_eq e.type env.BOOT_PART_TYPE env.PART_TYPE_LEN = true then
        (part, { d with log2blksz := LOG2 d.blksz }, e)
      else (-EINVAL, d, e) := by
  unfold check_part_type
  cases strncmp_eq e.type env.BOOT_PART_TYPE env.PART_TYPE_LEN <;> simp

/-- The branch of lines 607-649 for the selector "auto" on a classified
device. -/
theorem resolve_part_auto (env : Env) (d : blk_desc) (info : disk_partition) (allow : Int)
    (ht : d.part_type ≠ PART_TYPE_UNKNOWN) :
    resolve_part env d PART_AUTO info allow =
      if (auto_search env env.MAX_SEARCH_PARTITIONS
            { ret := env.ret_indeterminate, part := 0, p := 1, info := info,
              tmpinfo := env.tmpinfo_indeterminate, dev_desc := d }).part ≠ 0 then
        check_part_type env
          (auto_search env env.MAX_SEARCH_PARTITIONS
            { ret := env.ret_indeterminate, part := 0, p := 1, info := info,
              tmpinfo := env.tmpinfo_indeterminate, dev_desc := d }).dev_desc
          (auto_search env env.MAX_SEARCH_PARTITIONS
            { ret := env.ret_indeterminate, part := 0, p := 1, info := info,
              tmpinfo := env.tmpinfo_indeterminate, dev_desc := d }).part
          (if (auto_search env env.MAX_SEARCH_PARTITIONS
                { ret := env.ret_indeterminate, part := 0, p := 1, info := info,
                  tmpinfo := env.tmpinfo_indeterminate, dev_desc := d }).p =
                (env.MAX_SEARCH_PARTITIONS : Int) + 1 then
            (auto_search env env.MAX_SEARCH_PARTITIONS
              { ret := env.ret_indeterminate, part := 0, p := 1, info := info,
                tmpinfo := env.tmpinfo_indeterminate, dev_desc := d }).tmpinfo
          else
            (auto_search env env.MAX_SEARCH_PARTITIONS
              { ret := env.ret_indeterminate, part := 0, p := 1, info := info,
                tmpinfo := env.tmpinfo_indeterminate, dev_desc := d }).info)
      else
        ((auto_search env env.MAX_SEARCH_PARTITIONS
            { ret := env.ret_indeterminate, part := 0, p := 1, info := info,
              tmpinfo := env.tmpinfo_indeterminate, dev_desc := d }).ret,
          (auto_search env env.MAX_SEARCH_PARTITIONS
            { ret := env.ret_indeterminate, part := 0, p := 1, info := info,
              tmpinfo := env.tmpinfo_indeterminate, dev_desc := d }).dev_desc,
          (auto_search env env.MAX_SEARCH_PARTITIONS
            { ret := env.ret_indeterminate, part := 0, p := 1, info := info,
              tmpinfo := env.tmpinfo_indeterminate, dev_desc := d }).info) := by
  have h1 : ¬ (d.part_type = PART_TYPE_UNKNOWN ∨ PART_AUTO = 0) := by
    rintro (h | h)
    · exact ht h
    · exact absurd h (by decide)
  have h2 : ¬ (PART_AUTO = PART_UNSPECIFIED) := by decide
  unfold resolve_part
  rw [if_neg h1]
  simp only [if_neg h2, ne_eq, not_true_eq_false, if_false]

/-- C1. Auto search, bootable case. The device string D gives a classified
device whose driver has `get_info`, and `p` in `1 .. MAX_SEARCH_PARTITIONS`
is the smallest index whose entry `get_info` reports as valid (status 0) and
bootable; the indices below `p` may be absent or valid and not bootable. Then
`blk_get_device_part_str` on "D:auto" hands back exactly what `get_info`
returned for `p`; when that entry passes the type check the return value is
`p` (in particular when its type is `BOOT_PART_TYPE`), otherwise it is
`-EINVAL`. -/
theorem auto_selects_first_bootable (env : Env) (ifname D : CStr)
    (dd : Option blk_desc) (info : disk_partition) (allow : Int) (r : Int) (d : blk_desc)
    (drv : part_driver) (g : get_info_fn) (p : Nat)
    (hh : env.cfg_hostfs = true → ifname ≠ "hostfs".toList)
    (hu : env.cfg_ubifs = true → ifname ≠ "ubi".toList)
    (hD : ':' ∉ D)
    (hr : blk_get_device_by_str env ifname D dd = (r, some d)) (h0 : 0 ≤ r)
    (ht : d.part_type ≠ PART_TYPE_UNKNOWN)
    (hd : (part_driver_lookup_type env d).1 = some drv) (hg : drv.get_info = some g)
    (hp1 : 1 ≤ p) (hp2 : p ≤ env.MAX_SEARCH_PARTITIONS)
    (hp : ∀ buf, (g d p buf).1 = 0 ∧ (g d p buf).2.bootable ≠ 0)
    (hlt : ∀ i : Nat, 1 ≤ i → i < p → ∀ buf,
      (g d i buf).1 ≠ 0 ∨ (g d i buf).2.bootable = 0) :
    ∃ buf,
      blk_get_device_part_str env ifname (some (D ++ ':' :: "auto".toList)) dd info allow =
        (if strncmp_eq (g d p buf).2.type env.BOOT_PART_TYPE env.PART_TYPE_LEN = true then
          ((p : Int), some { d with log2blksz := LOG2 d.blksz }, (g d p buf).2)
        else (-EINVAL, some d, (g d p buf).2)) ∧
      ((g d p buf).2.type = env.BOOT_PART_TYPE →
        (blk_get_device_part_str env ifname (some (D ++ ':' :: "auto".toList)) dd info
          allow).1 = (p : Int)) := by
  have ep : ∀ j : Nat, (1 : Int) + (j : Int) = ((j + 1 : Nat) : Int) := by
    intro j; push_cast; ring
  obtain ⟨k, rfl⟩ : ∃ k, p = k + 1 := ⟨p - 1, by omega⟩
  obtain ⟨buf, s1, s2, s3, s4⟩ := auto_search_first_bootable env d drv g ht hd hg k
    env.MAX_SEARCH_PARTITIONS
    { ret := env.ret_indeterminate, part := 0, p := 1, info := info,
      tmpinfo := env.tmpinfo_indeterminate, dev_desc := d } (by omega) rfl
    (by intro buf; simp only [ep]; exact hp buf)
    (by intro j hj buf; simp only [ep]; exact hlt (j + 1) (by omega) (by omega) buf)
  simp only [ep] at s1 s2 s3
  have hne : ¬ (((k + 1 : Nat) : Int) = 0) := by omega
  have hnm : ¬ (((k + 1 : Nat) : Int) = (env.MAX_SEARCH_PARTITIONS : Int) + 1) := by omega
  have key : blk_get_device_part_str env ifname (some (D ++ ':' :: "auto".toList)) dd info
      allow =
      (if strncmp_eq (g d ((k + 1 : Nat) : Int) buf).2.type env.BOOT_PART_TYPE
            env.PART_TYPE_LEN = true then
        (((k + 1 : Nat) : Int), some { d with log2blksz := LOG2 d.blksz },
          (g d ((k + 1 : Nat) : Int) buf).2)
      else (-EINVAL, some d, (g d ((k + 1 : Nat) : Int) buf).2)) := by
    rw [blk_get_device_part_str_colon env ifname D _ dd info allow hh hu hD r d hr h0,
      part_str_to_number_auto]
    simp only [resolve_part_auto env d info allow ht, s1, s2, s3, s4, ne_eq, hne,
      not_false_eq_true, if_true, if_neg hnm, check_part_type_eq]
    split_ifs <;> rfl
  refine ⟨buf, key, fun hty => ?_⟩
  rw [key, hty, strncmp_eq_self, if_pos rfl]

/-- Witness of C1: entries 1, 2 and 4 valid and not bootable, entry 3
bootable; "0:auto" gives partition 3 with the record of entry 3. -/
theorem auto_selects_first_bootable_witness :
    (∃ buf,
      blk_get_device_part_str (sample_env (sample_disk 0 2 64000) table_boot3) "usb".toList
          (some ("0".toList ++ ':' :: "auto".toList)) none zero_info 1 =
        (if strncmp_eq (table_get_info table_boot3 (sample_disk 0 2 64000) (3 : Nat) buf).2.type
              (sample_env (sample_disk 0 2 64000) table_boot3).BOOT_PART_TYPE
              (sample_env (sample_disk 0 2 64000) table_boot3).PART_TYPE_LEN = true then
          (((3 : Nat) : Int),
            some { sample_disk 0 2 64000 with log2blksz := LOG2 (sample_disk 0 2 64000).blksz },
            (table_get_info table_boot3 (sample_disk 0 2 64000) (3 : Nat) buf).2)
        else
          (-EINVAL, some (sample_disk 0 2 64000),
            (table_get_info table_boot3 (sample_disk 0 2 64000) (3 : Nat) buf).2)) ∧
      ((table_get_info table_boot3 (sample_disk 0 2 64000) (3 : Nat) buf).2.type =
          (sample_env (sample_disk 0 2 64000) table_boot3).BOOT_PART_TYPE →
        (blk_get_device_part_str (sample_env (sample_disk 0 2 64000) table_boot3) "usb".toList
          (some ("0".toList ++ ':' :: "auto".toList)) none zero_info 1).1 = ((3 : Nat) : Int))) ∧
    blk_get_device_part_str (sample_env (sample_disk 0 2 64000) table_boot3) "usb".toList
        (some "0:auto".toList) none zero_info 1 =
      (3, some { sample_disk 0 2 64000 with log2blksz := 9 },
        sample_entry 3 1 "U-Boot".toList) :=
  ⟨auto_selects_first_bootable (sample_env (sample_disk 0 2 64000) table_boot3) "usb".toList
      "0".toList none zero_info 1 0 (sample_disk 0 2 64000)
      (sample_driver "DOS".toList 2 0 table_boot3) (table_get_info table_boot3) 3
      (by decide) (by decide) (by decide) (by decide) (by decide) (by decide) rfl rfl
      (by decide) (by decide) (fun _ => ⟨rfl, by show (1 : Int) ≠ 0; decide⟩)
      (fun i h1 h2 _ => by interval_cases i <;> exact Or.inr rfl),
    by decide⟩

/-- C2. Auto search, fallback case. The device string D gives a classified
device whose driver has `get_info`; no index of `1 .. MAX_SEARCH_PARTITIONS`
has an entry that is both valid and bootable, and `f` is the smallest index
of that range with a valid entry. Then `blk_get_device_part_str` on "D:auto"
hands back exactly what `get_info` returned for `f` (the copy saved when `f`
was queried, not what later queries left in the buffer); when that entry
passes the type check the return value is `f` (in particular when its type
is `BOOT_PART_TYPE`), otherwise it is `-EINVAL`. -/
theorem auto_falls_back_to_first_valid (env : Env) (ifname D : CStr)
    (dd : Option blk_desc) (info : disk_partition) (allow : Int) (r : Int) (d : blk_desc)
    (drv : part_driver) (g : get_info_fn) (f : Nat)
    (hh : env.cfg_hostfs = true → ifname ≠ "hostfs".toList)
    (hu : env.cfg_ubifs = true → ifname ≠ "ubi".toList)
    (hD : ':' ∉ D)
    (hr : blk_get_device_by_str env ifname D dd = (r, some d)) (h0 : 0 ≤ r)
    (ht : d.part_type ≠ PART_TYPE_UNKNOWN)
    (hd : (part_driver_lookup_type env d).1 = some drv) (hg : drv.get_info = some g)
    (hf1 : 1 ≤ f) (hf2 : f ≤ env.MAX_SEARCH_PARTITIONS)
    (hf : ∀ buf, (g d f buf).1 = 0)
    (hlt : ∀ i : Nat, 1 ≤ i → i < f → ∀ buf, (g d i buf).1 ≠ 0)
    (hnb : ∀ i : Nat, 1 ≤ i → i ≤ env.MAX_SEARCH_PARTITIONS → ∀ buf,
      (g d i buf).1 ≠ 0 ∨ (g d i buf).2.bootable = 0) :
    ∃ buf,
      blk_get_device_part_str env ifname (some (D ++ ':' :: "auto".toList)) dd info allow =
        (if strncmp_eq (g d f buf).2.type env.BOOT_PART_TYPE env.PART_TYPE_LEN = true then
          ((f : Int), some { d with log2blksz := LOG2 d.blksz }, (g d f buf).2)
        else (-EINVAL, some d, (g d f buf).2)) ∧
      ((g d f buf).2.type = env.BOOT_PART_TYPE →
        (blk_get_device_part_str env ifname (some (D ++ ':' :: "auto".toList)) dd info
          allow).1 = (f : Int)) := by
  have ep : ∀ j : Nat, (1 : Int) + (j : Int) = ((j + 1 : Nat) : Int) := by
    intro j; push_cast; ring
  obtain ⟨k, rfl⟩ : ∃ k, f = k + 1 := ⟨f - 1, by omega⟩
  obtain ⟨buf, s1, s2, s3, s4⟩ := auto_search_first_valid env d drv g ht hd hg k
    env.MAX_SEARCH_PARTITIONS
    { ret := env.ret_indeterminate, part := 0, p := 1, info := info,
      tmpinfo := env.tmpinfo_indeterminate, dev_desc := d } (by omega) rfl rfl
    (by show (0 : Int) < 1; omega)
    (by intro buf; simp only [ep]; exact hf buf)
    (by intro j hj buf; simp only [ep]; exact hlt (j + 1) (by omega) (by omega) buf)
    (by intro j hj buf; simp only [ep]; exact hnb (j + 1) (by omega) (by omega) buf)
  simp only [ep] at s1 s3
  have s2' : (auto_search env env.MAX_SEARCH_PARTITIONS
      { ret := env.ret_indeterminate, part := 0, p := 1, info := info,
        tmpinfo := env.tmpinfo_indeterminate, dev_desc := d }).p =
      (env.MAX_SEARCH_PARTITIONS : Int) + 1 := by
    rw [s2]; ring
  have hne : ¬ (((k + 1 : Nat) : Int) = 0) := by omega
  have key : blk_get_device_part_str env ifname (some (D ++ ':' :: "auto".toList)) dd info
      allow =
      (if strncmp_eq (g d ((k + 1 : Nat) : Int) buf).2.type env.BOOT_PART_TYPE
            env.PART_TYPE_LEN = true then
        (((k + 1 : Nat) : Int), some { d with log2blksz := LOG2 d.blksz },
          (g d ((k + 1 : Nat) : Int) buf).2)
      else (-EINVAL, some d, (g d ((k + 1 : Nat) : Int) buf).2)) := by
    rw [blk_get_device_part_str_colon env ifname D _ dd info allow hh hu hD r d hr h0,
      part_str_to_number_auto]
    simp only [resolve_part_auto env d info allow ht, s1, s2', s3, s4, ne_eq, hne,
      not_false_eq_true, if_true, check_part_type_eq]
    split_ifs <;> rfl
  refine ⟨buf, key, fun hty => ?_⟩
  rw [key, hty, strncmp_eq_self, if_pos rfl]

/-- Witness of C2: entries 1 and 2 valid and not bootable, nothing else;
"0:auto" gives partition 1 with the record of entry 1. -/
theorem auto_falls_back_to_first_valid_witness :
    (∃ buf,
      blk_get_device_part_str (sample_env (sample_disk 0 2 64000) table_no_boot) "usb".toList
          (some ("0".toList ++ ':' :: "auto".toList)) none zero_info 1 =
        (if strncmp_eq
              (table_get_info table_no_boot (sample_disk 0 2 64000) (1 : Nat) buf).2.type
              (sample_env (sample_disk 0 2 64000) table_no_boot).BOOT_PART_TYPE
              (sample_env (sample_disk 0 2 64000) table_no_boot).PART_TYPE_LEN = true then
          (((1 : Nat) : Int),
            some { sample_disk 0 2 64000 with log2blksz := LOG2 (sample_disk 0 2 64000).blksz },
            (table_get_info table_no_boot (sample_disk 0 2 64000) (1 : Nat) buf).2)
        else
          (-EINVAL, some (sample_disk 0 2 64000),
            (table_get_info table_no_boot (sample_disk 0 2 64000) (1 : Nat) buf).2)) ∧
      ((table_get_info table_no_boot (sample_disk 0 2 64000) (1 : Nat) buf).2.type =
          (sample_env (sample_disk 0 2 64000) table_no_boot).BOOT_PART_TYPE →
        (blk_get_device_part_str (sample_env (sample_disk 0 2 64000) table_no_boot)
          "usb".toList (some ("0".toList ++ ':' :: "auto".toList)) none zero_info 1).1 =
            ((1 : Nat) : Int))) ∧
    blk_get_device_part_str (sample_env (sample_disk 0 2 64000) table_no_boot) "usb".toList
        (some "0:auto".toList) none zero_info 1 =
      (1, some { sample_disk 0 2 64000 with log2blksz := 9 },
        sample_entry 1 0 "U-Boot".toList) :=
  ⟨auto_falls_back_to_first_valid (sample_env (sample_disk 0 2 64000) table_no_boot)
      "usb".toList "0".toList none zero_info 1 0 (sample_disk 0 2 64000)
      (sample_driver "DOS".toList 2 0 table_no_boot) (table_get_info table_no_boot) 1
      (by decide) (by decide) (by decide) (by decide) (by decide) (by decide) rfl rfl
      (by decide) (by decide) (fun _ => rfl)
      (fun i h1 h2 _ => absurd h2 (by omega))
      (fun i _ _ _ => by
        by_cases h : i = 1 ∨ i = 2
        · rcases h with rfl | rfl <;> exact Or.inr rfl
        · left
          have h3 : ¬ ((i : Int) = 1 ∨ (i : Int) = 2) := by omega
          have h4 : table_no_boot (i : Int) = none := if_neg h3
          simp only [table_get_info, h4]
          decide),
    by decide⟩

/-! ## The search loop asks only for the indices `1 .. MAX_SEARCH_PARTITIONS` -/

/-- On a classified device and for an index in `1 .. hi`, `part_get_info`
does not see what the drivers' `get_info` answer outside `1 .. hi`. -/
theorem part_get_info_within (env : Env) (hi : Nat) (other : get_info_fn) (dev : blk_desc)
    (p : Int) (info : disk_partition) (ht : dev.part_type ≠ PART_TYPE_UNKNOWN)
    (h1 : 1 ≤ p) (h2 : p ≤ (hi : Int)) :
    part_get_info (set_get_info (fun x => x.get_info.map (get_info_within hi other)) env)
        dev p info =
      part_get_info env dev p info := by
  have l1 : part_driver_lookup_type env dev = (lookup_by_tag env.drivers dev, dev) := by
    simp only [part_driver_lookup_type, if_neg ht]
  have l2 : part_driver_lookup_type
      (set_get_info (fun x => x.get_info.map (get_info_within hi other)) env) dev =
      ((lookup_by_tag env.drivers dev).map
        (fun x => { x with get_info := x.get_info.map (get_info_within hi other) }), dev) := by
    simp only [part_driver_lookup_type, if_neg ht, set_get_info]
    rw [lookup_by_tag_map
      (fun x => { x with get_info := x.get_info.map (get_info_within hi other) })
      (fun _ => rfl)]
  unfold part_get_info
  rw [l1, l2]
  cases hl : lookup_by_tag env.drivers dev with
  | none => rfl
  | some drv =>
    cases hgi : drv.get_info with
    | none => simp only [Option.map_some', hgi, Option.map_none']; rfl
    | some g =>
      have hw : ∀ buf, get_info_within hi other g dev p buf = g dev p buf := by
        intro buf
        simp only [get_info_within]
        rw [if_pos ⟨h1, h2⟩]
      simp only [Option.map_some', hgi, hw]
      rfl

/-- The search loop started at `p` with `n` iterations left, all within
`1 .. hi`, does not see what `get_info` answers outside `1 .. hi`. -/
theorem auto_search_within (env : Env) (hi : Nat) (other : get_info_fn) (n : Nat) :
    ∀ s : auto_state, s.dev_desc.part_type ≠ PART_TYPE_UNKNOWN → 1 ≤ s.p →
      s.p + (n : Int) ≤ (hi : Int) + 1 →
      auto_search (set_get_info (fun x => x.get_info.map (get_info_within hi other)) env) n s =
        auto_search env n s := by
  induction n with
  | zero => intro s _ _ _; rfl
  | succ m ih =>
    intro s ht h1 h2
    have e := part_get_info_within env hi other s.dev_desc s.p s.info ht h1
      (by push_cast at h2; omega)
    have hdev := part_get_info_dev env s.dev_desc s.p s.info ht
    have hbound : s.p + 1 + (m : Int) ≤ (hi : Int) + 1 := by push_cast at h2; omega
    have hih : ∀ t : auto_state,
        t.dev_desc = (part_get_info env s.dev_desc s.p s.info).2.1 → t.p = s.p + 1 →
        auto_search (set_get_info (fun x => x.get_info.map (get_info_within hi other)) env) m t =
          auto_search env m t := by
      intro t hd hp
      exact ih t (by rw [hd, hdev]; exact ht) (by rw [hp]; omega) (by rw [hp]; exact hbound)
    simp only [auto_search, e]
    split_ifs <;> first | rfl | exact hih _ rfl rfl

/-- The resolution of the selector "auto" does not see what `get_info`
answers outside `1 .. MAX_SEARCH_PARTITIONS`. -/
theorem resolve_part_auto_within (env : Env) (other : get_info_fn) (d : blk_desc)
    (info : disk_partition) (allow : Int) :
    resolve_part
        (set_get_info
          (fun x => x.get_info.map (get_info_within env.MAX_SEARCH_PARTITIONS other)) env)
        d PART_AUTO info allow =
      resolve_part env d PART_AUTO info allow := by
  by_cases ht : d.part_type = PART_TYPE_UNKNOWN
  · unfold resolve_part
    rw [if_pos (Or.inl ht), if_pos (Or.inl ht)]
    rfl
  · rw [resolve_part_auto _ d info allow ht, resolve_part_auto env d info allow ht]
    have e := auto_search_within env env.MAX_SEARCH_PARTITIONS other env.MAX_SEARCH_PARTITIONS
      { ret := env.ret_indeterminate, part := 0, p := 1, info := info,
        tmpinfo := env.tmpinfo_indeterminate, dev_desc := d } ht (by show (1 : Int) ≤ 1; omega)
      (by show (1 : Int) + _ ≤ _; omega)
    simp only [set_get_info] at e ⊢
    rw [e]
    rfl

/-- The resolution of "D:auto" does not see what `get_info` answers outside
`1 .. MAX_SEARCH_PARTITIONS`. -/
theorem blk_get_device_part_str_auto_within (env : Env) (other : get_info_fn)
    (ifname D : CStr) (dd : Option blk_desc) (info : disk_partition) (allow : Int)
    (hD : ':' ∉ D) :
    blk_get_device_part_str
        (set_get_info
          (fun x => x.get_info.map (get_info_within env.MAX_SEARCH_PARTITIONS other)) env)
        ifname (some (D ++ ':' :: "auto".toList)) dd info allow =
      blk_get_device_part_str env ifname (some (D ++ ':' :: "auto".toList)) dd info allow := by
  have hres : resolve_dev_part_str
      (set_get_info
        (fun x => x.get_info.map (get_info_within env.MAX_SEARCH_PARTITIONS other)) env)
      ifname (D ++ ':' :: "auto".toList) dd info allow =
      resolve_dev_part_str env ifname (D ++ ':' :: "auto".toList) dd info allow := by
    rw [resolve_dev_part_str_unfold_colon _ ifname D _ dd info allow hD,
      resolve_dev_part_str_unfold_colon env ifname D _ dd info allow hD,
      blk_get_device_by_str_set_get_info, part_str_to_number_auto, part_str_to_number_auto]
    cases (blk_get_device_by_str env ifname D dd).2 with
    | none => rfl
    | some d => simp only [resolve_part_auto_within env other d info allow]
  rw [blk_get_device_part_str_unfold _ ifname _ dd info allow (append_sep_ne_nil D ':' _)
      (append_colon_ne_dash D _),
    blk_get_device_part_str_unfold env ifname _ dd info allow (append_sep_ne_nil D ':' _)
      (append_colon_ne_dash D _), hres]
  by_cases c1 : env.cfg_hostfs = true ∧ ifname = "hostfs".toList
  · have c1' : (set_get_info
        (fun x => x.get_info.map (get_info_within env.MAX_SEARCH_PARTITIONS other))
        env).cfg_hostfs = true ∧ ifname = "hostfs".toList := c1
    rw [if_pos c1, if_pos c1']
    unfold blk_get_device_part_str
    rw [if_pos c1, if_pos c1']
    rfl
  · have c1' : ¬ ((set_get_info
        (fun x => x.get_info.map (get_info_within env.MAX_SEARCH_PARTITIONS other))
        env).cfg_hostfs = true ∧ ifname = "hostfs".toList) := c1
    rw [if_neg c1, if_neg c1']
    by_cases c2 : env.cfg_ubifs = true ∧ ifname = "ubi".toList
    · have c2' : (set_get_info
          (fun x => x.get_info.map (get_info_within env.MAX_SEARCH_PARTITIONS other))
          env).cfg_ubifs = true ∧ ifname = "ubi".toList := c2
      rw [if_pos c2, if_pos c2']
      unfold blk_get_device_part_str
      rw [if_neg c1, if_neg c1', if_pos c2, if_pos c2']
      rfl
    · have c2' : ¬ ((set_get_info
          (fun x => x.get_info.map (get_info_within env.MAX_SEARCH_PARTITIONS other))
          env).cfg_ubifs = true ∧ ifname = "ubi".toList) := c2
      rw [if_neg c2, if_neg c2']

/-- The return value of `part_get_info` is 0 or one of three error codes. -/
theorem part_get_info_codes (env : Env) (dev : blk_desc) (part : Int) (info : disk_partition) :
    (part_get_info env dev part info).1 = 0 ∨
      (part_get_info env dev part info).1 = -ENOENT ∨
      (part_get_info env dev part info).1 = -ENOSYS ∨
      (part_get_info env dev part info).1 = -EPROTONOSUPPORT := by
  unfold part_get_info
  split
  · right; right; right; rfl
  · split
    · right; right; left; rfl
    · split_ifs
      · left; rfl
      · right; left; rfl

/-- When `part_get_info` fails for every index of the range, for whatever
reason, the loop runs to the end with nothing recorded and `ret` holding the
error code of the last call. -/
theorem auto_search_all_fail (env : Env) (d : blk_desc)
    (ht : d.part_type ≠ PART_TYPE_UNKNOWN) (n : Nat) :
    ∀ s : auto_state, s.dev_desc = d → s.part = 0 →
      (∀ j : Nat, j < n → ∀ buf, (part_get_info env d (s.p + j) buf).1 ≠ 0) →
      (auto_search env n s).part = 0 ∧ (auto_search env n s).dev_desc = d ∧
        (0 < n ∨ (s.ret = -ENOENT ∨ s.ret = -ENOSYS ∨ s.ret = -EPROTONOSUPPORT) →
          ((auto_search env n s).ret = -ENOENT ∨ (auto_search env n s).ret = -ENOSYS ∨
            (auto_search env n s).ret = -EPROTONOSUPPORT)) := by
  induction n with
  | zero =>
    intro s hs hp _
    exact ⟨hp, hs, fun h => h.elim (fun h => absurd h (by omega)) id⟩
  | succ m ih =>
    intro s hs hp hab
    have e1 : ∀ j : Nat, s.p + 1 + (j : Int) = s.p + ((j + 1 : Nat) : Int) := by
      intro j; push_cast; ring
    have h0 := hab 0 (by omega) s.info
    simp only [Nat.cast_zero, add_zero] at h0
    have hcode : (part_get_info env d s.p s.info).1 = -ENOENT ∨
        (part_get_info env d s.p s.info).1 = -ENOSYS ∨
        (part_get_info env d s.p s.info).1 = -EPROTONOSUPPORT :=
      (part_get_info_codes env d s.p s.info).resolve_left h0
    have := ih
      { s with
        ret := (part_get_info env d s.p s.info).1
        dev_desc := (part_get_info env d s.p s.info).2.1
        info := (part_get_info env d s.p s.info).2.2
        p := s.p + 1 }
      (part_get_info_dev env d s.p s.info ht) hp
      (by intro j hj buf; simp only [e1]; exact hab (j + 1) (by omega) buf)
    simp only [auto_search, hs, ne_eq, h0, not_false_eq_true, if_true]
    exact ⟨this.1, this.2.1, fun _ => this.2.2 (Or.inr hcode)⟩

/-- C3. Auto search bound. The device string D gives a classified device and
`MAX_SEARCH_PARTITIONS` is at least 1. (1) When the device's driver has
`get_info` and `get_info` fails for every index of
`1 .. MAX_SEARCH_PARTITIONS`, `blk_get_device_part_str` on "D:auto" returns
`-ENOENT`, whatever `get_info` answers for other indices. (2) When the lookup
`part_get_info` fails for every index of that range for whatever reason (no
entry, no driver, no method), the call returns a negative error code. (3) For
every image and device string, the result for "D:auto" stays the same when
every driver's `get_info` is changed arbitrarily outside
`1 .. MAX_SEARCH_PARTITIONS`: no other index is queried. -/
theorem auto_fails_without_valid_entry (env : Env) (ifname D : CStr)
    (dd : Option blk_desc) (info : disk_partition) (allow : Int) (r : Int) (d : blk_desc)
    (hh : env.cfg_hostfs = true → ifname ≠ "hostfs".toList)
    (hu : env.cfg_ubifs = true → ifname ≠ "ubi".toList)
    (hD : ':' ∉ D)
    (hr : blk_get_device_by_str env ifname D dd = (r, some d)) (h0 : 0 ≤ r)
    (ht : d.part_type ≠ PART_TYPE_UNKNOWN)
    (hmax : 1 ≤ env.MAX_SEARCH_PARTITIONS) :
    (∀ (drv : part_driver) (g : get_info_fn),
      (part_driver_lookup_type env d).1 = some drv → drv.get_info = some g →
      (∀ i : Nat, 1 ≤ i → i ≤ env.MAX_SEARCH_PARTITIONS → ∀ buf, (g d i buf).1 ≠ 0) →
      (blk_get_device_part_str env ifname (some (D ++ ':' :: "auto".toList)) dd info
          allow).1 = -ENOENT ∧
      (blk_get_device_part_str env ifname (some (D ++ ':' :: "auto".toList)) dd info
          allow).2.1 = some d) ∧
    ((∀ i : Nat, 1 ≤ i → i ≤ env.MAX_SEARCH_PARTITIONS → ∀ buf,
        (part_get_info env d i buf).1 ≠ 0) →
      (blk_get_device_part_str env ifname (some (D ++ ':' :: "auto".toList)) dd info
          allow).1 < 0 ∧
      (blk_get_device_part_str env ifname (some (D ++ ':' :: "auto".toList)) dd info
          allow).2.1 = some d) ∧
    (∀ other : get_info_fn,
      blk_get_device_part_str
          (set_get_info
            (fun x => x.get_info.map (get_info_within env.MAX_SEARCH_PARTITIONS other)) env)
          ifname (some (D ++ ':' :: "auto".toList)) dd info allow =
        blk_get_device_part_str env ifname (some (D ++ ':' :: "auto".toList)) dd info
          allow) := by
  have ep : ∀ j : Nat, (1 : Int) + (j : Int) = ((j + 1 : Nat) : Int) := by
    intro j; push_cast; ring
  have unfold_auto : blk_get_device_part_str env ifname (some (D ++ ':' :: "auto".toList)) dd
      info allow =
      ((resolve_part env d PART_AUTO info allow).1,
        some (resolve_part env d PART_AUTO info allow).2.1,
        (resolve_part env d PART_AUTO info allow).2.2) := by
    rw [blk_get_device_part_str_colon env ifname D _ dd info allow hh hu hD r d hr h0,
      part_str_to_number_auto]
  refine ⟨?_, ?_, fun other =>
    blk_get_device_part_str_auto_within env other ifname D dd info allow hD⟩
  · intro drv g hd hg hab
    obtain ⟨s1, s2, s3⟩ := auto_search_all_absent env d drv g ht hd hg
      env.MAX_SEARCH_PARTITIONS
      { ret := env.ret_indeterminate, part := 0, p := 1, info := info,
        tmpinfo := env.tmpinfo_indeterminate, dev_desc := d } rfl rfl
      (by intro j hj buf; simp only [ep]; exact hab (j + 1) (by omega) (by omega) buf)
    have s3' := s3 (Or.inl (by omega))
    rw [unfold_auto]
    simp only [resolve_part_auto env d info allow ht, s1, s2, s3', ne_eq, not_true_eq_false,
      if_false, and_self]
  · intro hfail
    obtain ⟨s1, s2, s3⟩ := auto_search_all_fail env d ht env.MAX_SEARCH_PARTITIONS
      { ret := env.ret_indeterminate, part := 0, p := 1, info := info,
        tmpinfo := env.tmpinfo_indeterminate, dev_desc := d } rfl rfl
      (by intro j hj buf; simp only [ep]; exact hfail (j + 1) (by omega) (by omega) buf)
    have s3' := s3 (Or.inl (by omega))
    rw [unfold_auto]
    simp only [resolve_part_auto env d info allow ht, s1, s2, ne_eq, not_true_eq_false,
      if_false, and_true]
    rcases s3' with h | h | h <;> rw [h] <;> decide

/-- Witness of C3: no entry at 1 .. 64 and a bootable entry at 65; "0:auto"
fails with `-ENOENT`. -/
theorem auto_fails_without_valid_entry_witness :
    table_beyond 65 = some (sample_entry 65 1 "U-Boot".toList) ∧
    (blk_get_device_part_str (sample_env (sample_disk 0 2 64000) table_beyond) "usb".toList
        (some ("0".toList ++ ':' :: "auto".toList)) none zero_info 1).1 = -ENOENT :=
  ⟨by decide,
    ((auto_fails_without_valid_entry (sample_env (sample_disk 0 2 64000) table_beyond)
      "usb".toList "0".toList none zero_info 1 0 (sample_disk 0 2 64000)
      (by decide) (by decide) (by decide) (by decide) (by decide) (by decide)
      (by decide)).1
      (sample_driver "DOS".toList 2 0 table_beyond) (table_get_info table_beyond) rfl rfl
      (fun i _ h2 _ => by
        have h3 : ¬ ((i : Int) = 65) := by
          have : i ≤ 64 := h2
          omega
        have h4 : table_beyond (i : Int) = none := if_neg h3
        simp only [table_get_info, h4]
        decide)).1⟩

/-! ## Type validation -/

/-- A positive result of the type check means that the check passed. -/
theorem check_part_type_pos (env : Env) (d : blk_desc) (part : Int) (e : disk_partition)
    (h : 1 ≤ (check_part_type env d part e).1) :
    strncmp_eq (check_part_type env d part e).2.2.type env.BOOT_PART_TYPE
      env.PART_TYPE_LEN = true := by
  rw [check_part_type_eq] at h ⊢
  by_cases hc : strncmp_eq e.type env.BOOT_PART_TYPE env.PART_TYPE_LEN = true
  · rw [if_pos hc]; exact hc
  · rw [if_neg hc] at h
    have h' : (1 : Int) ≤ -EINVAL := h
    exact absurd h' (by decide)

/-- After at least one iteration `ret` holds a return value of
`part_get_info`, which is never positive. -/
theorem auto_search_ret (env : Env) (n : Nat) :
    ∀ s : auto_state, (0 < n ∨ s.ret ≤ 0) → (auto_search env n s).ret ≤ 0 := by
  induction n with
  | zero =>
    intro s h
    exact h.elim (fun h => absurd h (by omega)) id
  | succ m ih =>
    intro s _
    have hle : (part_get_info env s.dev_desc s.p s.info).1 ≤ 0 := by
      rcases part_get_info_ret env s.dev_desc s.p s.info with h | h <;> omega
    simp only [auto_search]
    split_ifs <;> first | exact hle | exact ih _ (Or.inr hle)

/-- A return value of at least 1 of lines 557-661 has passed the type
check. -/
theorem resolve_part_pos (env : Env) (d : blk_desc) (part : Int) (info : disk_partition)
    (allow : Int) (hmax : 1 ≤ env.MAX_SEARCH_PARTITIONS)
    (h : 1 ≤ (resolve_part env d part info allow).1) :
    strncmp_eq (resolve_part env d part info allow).2.2.type env.BOOT_PART_TYPE
      env.PART_TYPE_LEN = true := by
  have hs := auto_search_ret env env.MAX_SEARCH_PARTITIONS
    { ret := env.ret_indeterminate, part := 0, p := 1, info := info,
      tmpinfo := env.tmpinfo_indeterminate, dev_desc := d } (Or.inl (by omega))
  have hg := part_get_info_ret env d (if part = PART_UNSPECIFIED then 1 else part) info
  unfold resolve_part at h ⊢
  by_cases h1 : d.part_type = PART_TYPE_UNKNOWN ∨ part = 0
  · rw [if_pos h1] at h
    split_ifs at h
    · have h' : (1 : Int) ≤ -EINVAL := h
      exact absurd h' (by decide)
    · have h' : (1 : Int) ≤ -EPROTONOSUPPORT := h
      exact absurd h' (by decide)
    · have h' : (1 : Int) ≤ 0 := h
      exact absurd h' (by decide)
  · rw [if_neg h1] at h ⊢
    by_cases h2 : (if part = PART_UNSPECIFIED then 1 else part) ≠ PART_AUTO
    · rw [if_pos h2] at h ⊢
      by_cases h3 : (part_get_info env d (if part = PART_UNSPECIFIED then 1 else part) info).1 ≠ 0
      · rw [if_pos h3] at h
        rcases hg with h4 | h4
        · exact absurd h4 h3
        · omega
      · rw [if_neg h3] at h ⊢
        exact check_part_type_pos env _ _ _ h
    · rw [if_neg h2] at h ⊢
      simp only at h ⊢
      split_ifs at h ⊢
      · exact check_part_type_pos env _ _ _ h
      · exact check_part_type_pos env _ _ _ h
      · omega

/-- A return value of at least 1 of lines 517-666 has passed the type
check. -/
theorem resolve_dev_part_str_pos (env : Env) (ifname s : CStr) (dd : Option blk_desc)
    (info : disk_partition) (allow : Int) (hmax : 1 ≤ env.MAX_SEARCH_PARTITIONS)
    (h : 1 ≤ (resolve_dev_part_str env ifname s dd info allow).1) :
    strncmp_eq (resolve_dev_part_str env ifname s dd info allow).2.2.type env.BOOT_PART_TYPE
      env.PART_TYPE_LEN = true := by
  have hdevice := blk_get_device_by_str_device env ifname
    (match strchr s ':' with
      | some k => s.take k
      | none => s) dd
  simp only [resolve_dev_part_str] at h ⊢
  generalize blk_get_device_by_str env ifname
    (match strchr s ':' with
      | some k => s.take k
      | none => s) dd = q at h hdevice ⊢
  by_cases h1 : q.1 < 0
  · rw [if_pos h1] at h
    have h' : 1 ≤ q.1 := h
    omega
  · rw [if_neg h1] at h ⊢
    obtain ⟨d, hq⟩ := hdevice (by omega)
    rw [hq] at h ⊢
    simp only at h ⊢
    cases hn : part_str_to_number env (Option.map (fun k => List.drop (k + 1) s) (strchr s ':'))
        allow with
    | none =>
      rw [hn] at h
      have h' : (1 : Int) ≤ -ENOENT := h
      exact absurd h' (by decide)
    | some part =>
      rw [hn] at h
      simp only at h ⊢
      exact resolve_part_pos env d part info allow hmax h

/-- C6. Type validation. (1) Whatever the input, a return value of at least
1 of `blk_get_device_part_str` comes with a partition record that passed the
comparison of its type field with `BOOT_PART_TYPE`. (2) For an explicit
index `n >= 1` on a classified device: when `part_get_info` succeeds for `n`
but the type field of the entry differs from `BOOT_PART_TYPE`, the call
returns `-EINVAL`, with the entry handed back. (3) For "auto" on a classified
device: when the search has chosen an entry (the saved first valid one after
a full scan, else the bootable one just read) and its type field differs, the
call returns `-EINVAL`. `MAX_SEARCH_PARTITIONS` is at least 1. -/
theorem type_validation (env : Env) (ifname : CStr) (hmax : 1 ≤ env.MAX_SEARCH_PARTITIONS) :
    (∀ (dev_part_str : Option CStr) (dd : Option blk_desc) (info : disk_partition)
        (allow : Int),
      1 ≤ (blk_get_device_part_str env ifname dev_part_str dd info allow).1 →
      strncmp_eq (blk_get_device_part_str env ifname dev_part_str dd info allow).2.2.type
        env.BOOT_PART_TYPE env.PART_TYPE_LEN = true) ∧
    (∀ (D S : CStr) (dd : Option blk_desc) (info : disk_partition) (allow : Int) (r : Int)
        (d : blk_desc),
      (env.cfg_hostfs = true → ifname ≠ "hostfs".toList) →
      (env.cfg_ubifs = true → ifname ≠ "ubi".toList) →
      ':' ∉ D → blk_get_device_by_str env ifname D dd = (r, some d) → 0 ≤ r →
      d.part_type ≠ PART_TYPE_UNKNOWN →
      S ≠ [] → S ≠ "auto".toList → (env.hextoul S).2 = [] → 0 < ulong_to_int (env.hextoul S).1 →
      (part_get_info env d (ulong_to_int (env.hextoul S).1) info).1 = 0 →
      strncmp_eq (part_get_info env d (ulong_to_int (env.hextoul S).1) info).2.2.type
        env.BOOT_PART_TYPE env.PART_TYPE_LEN = false →
      blk_get_device_part_str env ifname (some (D ++ ':' :: S)) dd info allow =
        (-EINVAL, some d, (part_get_info env d (ulong_to_int (env.hextoul S).1) info).2.2)) ∧
    (∀ (D : CStr) (dd : Option blk_desc) (info : disk_partition) (allow : Int) (r : Int)
        (d : blk_desc),
      (env.cfg_hostfs = true → ifname ≠ "hostfs".toList) →
      (env.cfg_ubifs = true → ifname ≠ "ubi".toList) →
      ':' ∉ D → blk_get_device_by_str env ifname D dd = (r, some d) → 0 ≤ r →
      d.part_type ≠ PART_TYPE_UNKNOWN →
      (auto_search env env.MAX_SEARCH_PARTITIONS
        { ret := env.ret_indeterminate, part := 0, p := 1, info := info,
          tmpinfo := env.tmpinfo_indeterminate, dev_desc := d }).part ≠ 0 →
      strncmp_eq
        (if (auto_search env env.MAX_SEARCH_PARTITIONS
              { ret := env.ret_indeterminate, part := 0, p := 1, info := info,
                tmpinfo := env.tmpinfo_indeterminate, dev_desc := d }).p =
              (env.MAX_SEARCH_PARTITIONS : Int) + 1 then
          (auto_search env env.MAX_SEARCH_PARTITIONS
            { ret := env.ret_indeterminate, part := 0, p := 1, info := info,
              tmpinfo := env.tmpinfo_indeterminate, dev_desc := d }).tmpinfo
        else
          (auto_search env env.MAX_SEARCH_PARTITIONS
            { ret := env.ret_indeterminate, part := 0, p := 1, info := info,
              tmpinfo := env.tmpinfo_indeterminate, dev_desc := d }).info).type
        env.BOOT_PART_TYPE env.PART_TYPE_LEN = false →
      (blk_get_device_part_str env ifname (some (D ++ ':' :: "auto".toList)) dd info
        allow).1 = -EINVAL) ∧
    (∀ a : CStr, a.length < env.PART_TYPE_LEN →
      env.BOOT_PART_TYPE.length < env.PART_TYPE_LEN →
      (strncmp_eq a env.BOOT_PART_TYPE env.PART_TYPE_LEN = true ↔ a = env.BOOT_PART_TYPE)) := by
  refine ⟨?_, ?_, ?_, ?_⟩
  · intro dev_part_str dd info allow h
    unfold blk_get_device_part_str at h ⊢
    by_cases c1 : env.cfg_hostfs = true ∧ ifname = "hostfs".toList
    · rw [if_pos c1] at h
      have h' : (1 : Int) ≤ 0 := h
      exact absurd h' (by decide)
    · rw [if_neg c1] at h ⊢
      by_cases c2 : env.cfg_ubifs = true ∧ ifname = "ubi".toList
      · rw [if_pos c2] at h
        split_ifs at h
        · have h' : (1 : Int) ≤ -EINVAL := h
          exact absurd h' (by decide)
        · have h' : (1 : Int) ≤ 0 := h
          exact absurd h' (by decide)
      · rw [if_neg c2] at h ⊢
        split at h
        · have h' : (1 : Int) ≤ -ENODEV := h
          exact absurd h' (by decide)
        · exact resolve_dev_part_str_pos env ifname _ dd info allow hmax h
  · intro D S dd info allow r d hh hu hD hr h0 ht hS1 hS2 hS3 hS4 hok hty
    have hne : ulong_to_int (env.hextoul S).1 ≠ 0 := by omega
    have h1 : ¬ (d.part_type = PART_TYPE_UNKNOWN ∨ ulong_to_int (env.hextoul S).1 = 0) := by
      rintro (h | h)
      · exact ht h
      · exact hne h
    have h2 : ¬ (ulong_to_int (env.hextoul S).1 = PART_UNSPECIFIED) := by
      intro h; rw [h] at hS4; exact absurd hS4 (by decide)
    have h3 : ulong_to_int (env.hextoul S).1 ≠ PART_AUTO := by
      intro h; rw [h] at hS4; exact absurd hS4 (by decide)
    have hdev := part_get_info_dev env d (ulong_to_int (env.hextoul S).1) info ht
    rw [blk_get_device_part_str_colon env ifname D S dd info allow hh hu hD r d hr h0,
      part_str_to_number_explicit env S allow hS1 hS2 hS3 (Or.inl hne)]
    unfold resolve_part
    simp only [if_neg h1, if_neg h2, h3, ne_eq, not_false_eq_true, if_true, hok,
      not_true_eq_false, if_false, check_part_type, hty, hdev]
  · intro D dd info allow r d hh hu hD hr h0 ht hpart hty
    rw [blk_get_device_part_str_colon env ifname D _ dd info allow hh hu hD r d hr h0,
      part_str_to_number_auto]
    simp only [resolve_part_auto env d info allow ht, hpart, ne_eq, not_false_eq_true, if_true,
      check_part_type, hty]
  · intro a ha hb
    simp only [strncmp_eq, List.take_of_length_le (Nat.le_of_lt ha),
      List.take_of_length_le (Nat.le_of_lt hb), beq_iff_eq]

/-- Witness of C6: entry 1 has type "Linux", entry 2 has type "U-Boot";
"0:1" is refused with `-EINVAL` although the entry exists, "0:2" gives 2. -/
theorem type_validation_witness :
    blk_get_device_part_str (sample_env (sample_disk 0 2 64000) table_other_type) "usb".toList
        (some ("0".toList ++ ':' :: "1".toList)) none zero_info 1 =
      (-EINVAL, some (sample_disk 0 2 64000),
        (part_get_info (sample_env (sample_disk 0 2 64000) table_other_type)
          (sample_disk 0 2 64000) (ulong_to_int (hextoul "1".toList).1) zero_info).2.2) ∧
    strncmp_eq
      (blk_get_device_part_str (sample_env (sample_disk 0 2 64000) table_other_type)
        "usb".toList (some "0:2".toList) none zero_info 1).2.2.type
      (sample_env (sample_disk 0 2 64000) table_other_type).BOOT_PART_TYPE
      (sample_env (sample_disk 0 2 64000) table_other_type).PART_TYPE_LEN = true ∧
    blk_get_device_part_str (sample_env (sample_disk 0 2 64000) table_other_type) "usb".toList
        (some "0:1".toList) none zero_info 1 =
      (-22, some (sample_disk 0 2 64000), sample_entry 1 0 "Linux".toList) ∧
    (blk_get_device_part_str (sample_env (sample_disk 0 2 64000) table_other_type) "usb".toList
        (some "0:2".toList) none zero_info 1).1 = 2 :=
  ⟨(type_validation (sample_env (sample_disk 0 2 64000) table_other_type) "usb".toList
      (by decide)).2.1 "0".toList "1".toList none zero_info 1 0 (sample_disk 0 2 64000)
      (by decide) (by decide) (by decide) (by decide) (by decide) (by decide) (by decide)
      (by decide) (by decide) (by decide) (by decide) (by decide),
    (type_validation (sample_env (sample_disk 0 2 64000) table_other_type) "usb".toList
      (by decide)).1 (some "0:2".toList) none zero_info 1 (by decide),
    by decide, by decide⟩

/-! ## Rejected partition IDs -/

/-- Lines 549-554: a partition ID with characters left over, or one that is
0 when the caller wants a partition, is refused. -/
theorem part_str_to_number_rejected (env : Env) (S : CStr) (allow : Int) (hS1 : S ≠ [])
    (hS2 : S ≠ "auto".toList)
    (h : (env.hextoul S).2 ≠ [] ∨ (ulong_to_int (env.hextoul S).1 = 0 ∧ allow = 0)) :
    part_str_to_number env (some S) allow = none := by
  simp only [part_str_to_number]
  rw [if_neg hS1, if_neg hS2, if_pos h]

/-- C11. Partition-selector rejection. When the device part D of "D:S"
resolves to a device and S is not empty, is not "auto", and either leaves
characters over after `hextoul` or parses to 0 while `allow_whole_dev` is 0,
`blk_get_device_part_str` returns `-ENOENT` with the buffer untouched; the
result is the same when every driver's `get_info` is replaced by anything
else, so no `get_info` is called. -/
theorem selector_rejected (env : Env) (ifname D S : CStr)
    (dd : Option blk_desc) (info : disk_partition) (allow : Int) (r : Int) (d : blk_desc)
    (hh : env.cfg_hostfs = true → ifname ≠ "hostfs".toList)
    (hu : env.cfg_ubifs = true → ifname ≠ "ubi".toList)
    (hD : ':' ∉ D)
    (hr : blk_get_device_by_str env ifname D dd = (r, some d)) (h0 : 0 ≤ r)
    (hS1 : S ≠ []) (hS2 : S ≠ "auto".toList)
    (hrej : (env.hextoul S).2 ≠ [] ∨ ((env.hextoul S).1 = 0 ∧ allow = 0)) :
    blk_get_device_part_str env ifname (some (D ++ ':' :: S)) dd info allow =
      (-ENOENT, some d, info) ∧
    ∀ F : part_driver → Option get_info_fn,
      blk_get_device_part_str (set_get_info F env) ifname (some (D ++ ':' :: S)) dd info allow =
        blk_get_device_part_str env ifname (some (D ++ ':' :: S)) dd info allow := by
  have hrej' : ∀ e : Env, e.hextoul = env.hextoul →
      ((e.hextoul S).2 ≠ [] ∨ (ulong_to_int (e.hextoul S).1 = 0 ∧ allow = 0)) := by
    intro e he
    rw [he]
    rcases hrej with h | ⟨h1, h2⟩
    · exact Or.inl h
    · exact Or.inr ⟨by rw [h1]; decide, h2⟩
  have key : ∀ e : Env, (e.cfg_hostfs = true → ifname ≠ "hostfs".toList) →
      (e.cfg_ubifs = true → ifname ≠ "ubi".toList) → e.hextoul = env.hextoul →
      blk_get_device_by_str e ifname D dd = (r, some d) →
      blk_get_device_part_str e ifname (some (D ++ ':' :: S)) dd info allow =
        (-ENOENT, some d, info) := by
    intro e eh eu ex er
    rw [blk_get_device_part_str_colon e ifname D S dd info allow eh eu hD r d er h0,
      part_str_to_number_rejected e S allow hS1 hS2 (hrej' e ex)]
  refine ⟨key env hh hu rfl hr, fun F => ?_⟩
  rw [key env hh hu rfl hr,
    key (set_get_info F env) hh hu rfl
      (by rw [blk_get_device_by_str_set_get_info]; exact hr)]

/-- Witness of C11: on a disk with a partition table, "0:1x" (a character
left over) and "0:0" with `allow_whole_dev` 0 are refused with `-ENOENT`. -/
theorem selector_rejected_witness :
    blk_get_device_part_str (sample_env (sample_disk 0 2 64000) table_no_boot) "usb".toList
        (some ("0".toList ++ ':' :: "1x".toList)) none zero_info 1 =
      (-ENOENT, some (sample_disk 0 2 64000), zero_info) ∧
    blk_get_device_part_str (sample_env (sample_disk 0 2 64000) table_no_boot) "usb".toList
        (some ("0".toList ++ ':' :: "0".toList)) none zero_info 0 =
      (-ENOENT, some (sample_disk 0 2 64000), zero_info) :=
  ⟨(selector_rejected (sample_env (sample_disk 0 2 64000) table_no_boot) "usb".toList
      "0".toList "1x".toList none zero_info 1 0 (sample_disk 0 2 64000)
      (by decide) (by decide) (by decide) (by decide) (by decide) (by decide) (by decide)
      (Or.inl (by decide))).1,
    (selector_rejected (sample_env (sample_disk 0 2 64000) table_no_boot) "usb".toList
      "0".toList "0".toList none zero_info 0 0 (sample_disk 0 2 64000)
      (by decide) (by decide) (by decide) (by decide) (by decide) (by decide) (by decide)
      (Or.inr (by decide))).1⟩

/-! ## The whole-disk view -/

/-- C14. Whole-disk view contents. For every device descriptor,
`part_get_info_whole_disk` fills in start 0, size = capacity of the device
in blocks, blksz = block size of the device, bootable 0, type
`BOOT_PART_TYPE` and name "Whole Disk". The record is the same for any list
of drivers, and for any descriptor with the same capacity and block size: no
handler is involved and only those two fields of the device are read; the
function has no write to the descriptor. -/
theorem whole_disk_view (env : Env) (dev : blk_desc) (info : disk_partition) :
    (part_get_info_whole_disk env dev info).2.start = 0 ∧
    (part_get_info_whole_disk env dev info).2.size = dev.lba ∧
    (part_get_info_whole_disk env dev info).2.blksz = dev.blksz ∧
    (part_get_info_whole_disk env dev info).2.bootable = 0 ∧
    (part_get_info_whole_disk env dev info).2.type = env.BOOT_PART_TYPE ∧
    (part_get_info_whole_disk env dev info).2.name = "Whole Disk".toList ∧
    (∀ drivers : List part_driver,
      part_get_info_whole_disk { env with drivers := drivers } dev info =
        part_get_info_whole_disk env dev info) ∧
    (∀ dev2 : blk_desc, dev2.lba = dev.lba → dev2.blksz = dev.blksz →
      part_get_info_whole_disk env dev2 info = part_get_info_whole_disk env dev info) := by
  refine ⟨rfl, rfl, rfl, rfl, rfl, rfl, fun _ => rfl, fun dev2 h1 h2 => ?_⟩
  simp only [part_get_info_whole_disk, h1, h2]

/-- C15, as the code has it. `part_get_info_whole_disk` returns 0 for every
device, also one of capacity 0 (the record then has size 0). The refusal of a
zero-capacity device is made by its caller: when the device string D gives a
device of capacity 0 and the whole-disk branch of `blk_get_device_part_str`
is entered (format tag UNKNOWN, or partition number 0),
`blk_get_device_part_str` returns `-EINVAL` without filling the record. -/
theorem whole_disk_always_succeeds (env : Env) :
    (∀ (dev : blk_desc) (info : disk_partition),
      (part_get_info_whole_disk env dev info).1 = 0) ∧
    (∀ (ifname D S : CStr) (dd : Option blk_desc) (info : disk_partition) (allow : Int)
        (r : Int) (d : blk_desc) (part : Int),
      (env.cfg_hostfs = true → ifname ≠ "hostfs".toList) →
      (env.cfg_ubifs = true → ifname ≠ "ubi".toList) →
      ':' ∉ D → blk_get_device_by_str env ifname D dd = (r, some d) → 0 ≤ r →
      d.lba = 0 → part_str_to_number env (some S) allow = some part →
      (d.part_type = PART_TYPE_UNKNOWN ∨ part = 0) →
      blk_get_device_part_str env ifname (some (D ++ ':' :: S)) dd info allow =
        (-EINVAL, some d, info)) := by
  refine ⟨fun _ _ => rfl, ?_⟩
  intro ifname D S dd info allow r d part hh hu hD hr h0 hl hn h1
  rw [blk_get_device_part_str_colon env ifname D S dd info allow hh hu hD r d hr h0, hn]
  simp only [resolve_part, if_pos h1, if_pos hl]

/-- Witness of C15: a device of capacity 0 without a partition table; "0:0"
with whole-device access allowed is refused with `-EINVAL`. -/
theorem whole_disk_always_succeeds_witness :
    blk_get_device_part_str (sample_env (sample_disk 0 0 0) table_empty) "usb".toList
        (some ("0".toList ++ ':' :: "0".toList)) none zero_info 1 =
      (-EINVAL, some (sample_disk 0 0 0), zero_info) :=
  (whole_disk_always_succeeds (sample_env (sample_disk 0 0 0) table_empty)).2
    "usb".toList "0".toList "0".toList none zero_info 1 0 (sample_disk 0 0 0) 0
    (by decide) (by decide) (by decide) (by decide) (by decide) (by decide) (by decide)
    (by decide)

/-- C15 as stated fails: for a device of capacity 0
`part_get_info_whole_disk` returns 0, not an error, and fills in a record of
size 0. -/
theorem whole_disk_zero_capacity :
    (sample_disk 0 0 0).lba = 0 ∧
    part_get_info_whole_disk (sample_env (sample_disk 0 0 0) table_empty) (sample_disk 0 0 0)
        zero_info =
      (0, { start := 0, size := 0, blksz := 512, bootable := 0, type := "U-Boot".toList,
            name := "Whole Disk".toList, uuid := [], type_guid := [] }) := by
  decide

/-! ## Error mapping of `part_get_info` -/

/-- C18. Explicit-index error mapping. `part_get_info` returns
`-EPROTONOSUPPORT` when `part_driver_lookup_type` finds no driver, `-ENOSYS`
when the driver found has no `get_info`, and otherwise asks `get_info` of
the driver found (on the descriptor after the lookup and the buffer with the
optional fields emptied): status 0 gives 0 with the buffer as `get_info`
left it, every nonzero status gives `-ENOENT`. So it returns 0 exactly when
a driver is found, has `get_info`, and `get_info` returns 0. -/
theorem part_get_info_error_mapping (env : Env) (dev : blk_desc) (part : Int)
    (info : disk_partition) :
    ((part_driver_lookup_type env dev).1 = none →
      (part_get_info env dev part info).1 = -EPROTONOSUPPORT) ∧
    (∀ drv : part_driver, (part_driver_lookup_type env dev).1 = some drv →
      drv.get_info = none → (part_get_info env dev part info).1 = -ENOSYS) ∧
    (∀ (drv : part_driver) (g : get_info_fn),
      (part_driver_lookup_type env dev).1 = some drv → drv.get_info = some g →
      ((g (part_driver_lookup_type env dev).2 part (clear_optional_fields env info)).1 = 0 →
        (part_get_info env dev part info).1 = 0 ∧
        (part_get_info env dev part info).2.2 =
          (g (part_driver_lookup_type env dev).2 part (clear_optional_fields env info)).2) ∧
      ((g (part_driver_lookup_type env dev).2 part (clear_optional_fields env info)).1 ≠ 0 →
        (part_get_info env dev part info).1 = -ENOENT)) ∧
    ((part_get_info env dev part info).1 = 0 ↔
      ∃ (drv : part_driver) (g : get_info_fn),
        (part_driver_lookup_type env dev).1 = some drv ∧ drv.get_info = some g ∧
        (g (part_driver_lookup_type env dev).2 part (clear_optional_fields env info)).1 = 0) := by
  refine ⟨?_, ?_, ?_, ?_⟩
  · intro h
    simp only [part_get_info, h]
  · intro drv h1 h2
    simp only [part_get_info, h1, h2]
  · intro drv g h1 h2
    constructor
    · intro h3
      simp only [part_get_info, h1, h2, h3, if_true, and_self]
    · intro h3
      simp only [part_get_info, h1, h2, if_neg h3]
  · constructor
    · intro h
      cases h1 : (part_driver_lookup_type env dev).1 with
      | none =>
        simp only [part_get_info, h1] at h
        exact absurd h (by decide)
      | some drv =>
        cases h2 : drv.get_info with
        | none =>
          simp only [part_get_info, h1, h2] at h
          exact absurd h (by decide)
        | some g =>
          refine ⟨drv, g, rfl, h2, ?_⟩
          by_contra h3
          simp only [part_get_info, h1, h2, if_neg h3] at h
          exact absurd h (by decide)
    · rintro ⟨drv, g, h1, h2, h3⟩
      simp only [part_get_info, h1, h2, h3, if_true]

/-- Witness of C18: on a disk with tag 2 whose driver has entries 1 and 2,
index 1 gives 0 and index 7 gives `-ENOENT` although the driver's own status
is -1; on a disk with a tag no driver has, the result is
`-EPROTONOSUPPORT`. -/
theorem part_get_info_error_mapping_witness :
    (part_get_info (sample_env (sample_disk 0 2 64000) table_no_boot) (sample_disk 0 2 64000)
        1 zero_info).1 = 0 ∧
    (table_get_info table_no_boot (sample_disk 0 2 64000) 7 zero_info).1 = -1 ∧
    (part_get_info (sample_env (sample_disk 0 2 64000) table_no_boot) (sample_disk 0 2 64000)
        7 zero_info).1 = -ENOENT ∧
    (part_get_info (sample_env (sample_disk 0 9 64000) table_no_boot) (sample_disk 0 9 64000)
        1 zero_info).1 = -EPROTONOSUPPORT :=
  ⟨((part_get_info_error_mapping (sample_env (sample_disk 0 2 64000) table_no_boot)
      (sample_disk 0 2 64000) 1 zero_info).2.2.1
      (sample_driver "DOS".toList 2 0 table_no_boot) (table_get_info table_no_boot)
      rfl rfl).1 (by decide) |>.1,
    by decide,
    ((part_get_info_error_mapping (sample_env (sample_disk 0 2 64000) table_no_boot)
      (sample_disk 0 2 64000) 7 zero_info).2.2.1
      (sample_driver "DOS".toList 2 0 table_no_boot) (table_get_info table_no_boot)
      rfl rfl).2 (by decide),
    (part_get_info_error_mapping (sample_env (sample_disk 0 9 64000) table_no_boot)
      (sample_disk 0 9 64000) 1 zero_info).1 rfl⟩

/-! ## Lookup by name -/

/-- The name loop returns `-ENOENT` or an index it was asked to examine. -/
theorem name_search_ret (g : get_info_fn) (d : blk_desc) (name : CStr) (n : Nat) :
    ∀ (i : Int) (info : disk_partition),
      (name_search g d name n i info).1 = -ENOENT ∨
        (i ≤ (name_search g d name n i info).1 ∧
          (name_search g d name n i info).1 < i + n) := by
  induction n with
  | zero => intro i info; left; rfl
  | succ m ih =>
    intro i info
    simp only [name_search]
    split_ifs
    · left; rfl
    · right; constructor
      · exact le_refl i
      · push_cast; omega
    · rcases ih (i + 1) (g d i info).2 with h | ⟨h1, h2⟩
      · left; exact h
      · right; constructor
        · omega
        · push_cast; omega

/-- The name loop returns the first index of its range whose entry has the
name, when `get_info` succeeds up to there. -/
theorem name_search_found (g : get_info_fn) (d : blk_desc) (name : CStr) (k : Nat) :
    ∀ (n : Nat) (i : Int) (info : disk_partition), k < n →
      (∀ buf, (g d (i + k) buf).1 = 0 ∧ (g d (i + k) buf).2.name = name) →
      (∀ m : Nat, m < k → ∀ buf, (g d (i + m) buf).1 = 0 ∧ (g d (i + m) buf).2.name ≠ name) →
      ∃ buf, name_search g d name n i info = (i + k, (g d (i + k) buf).2) := by
  induction k with
  | zero =>
    intro n i info hn hk _
    obtain ⟨m, rfl⟩ : ∃ m, n = m + 1 := ⟨n - 1, by omega⟩
    have h := hk info
    simp only [Nat.cast_zero, add_zero] at h ⊢
    refine ⟨info, ?_⟩
    simp only [name_search, h.1, ne_eq, not_true_eq_false, if_false, h.2, if_true]
  | succ k ih =>
    intro n i info hn hk hlt
    obtain ⟨m, rfl⟩ : ∃ m, n = m + 1 := ⟨n - 1, by omega⟩
    have e1 : ∀ j : Nat, i + 1 + (j : Int) = i + ((j + 1 : Nat) : Int) := by
      intro j; push_cast; ring
    have h := hlt 0 (by omega) info
    simp only [Nat.cast_zero, add_zero] at h
    have hne : ¬ name = (g d i info).2.name := fun e => h.2 e.symm
    have := ih m (i + 1) (g d i info).2 (by omega)
      (by intro buf; simp only [e1]; exact hk buf)
      (by intro j hj buf; simp only [e1]; exact hlt (j + 1) (by omega) buf)
    simp only [e1] at this
    simp only [name_search, h.1, ne_eq, not_true_eq_false, if_false, hne]
    exact this

/-- The name loop gives up at the first index where `get_info` fails, when
no entry before it has the name. -/
theorem name_search_hole (g : get_info_fn) (d : blk_desc) (name : CStr) (n : Nat) :
    ∀ (k : Nat) (i : Int) (info : disk_partition),
      (∀ buf, (g d (i + k) buf).1 ≠ 0) →
      (∀ m : Nat, m < k → ∀ buf, ¬ ((g d (i + m) buf).1 = 0 ∧ (g d (i + m) buf).2.name = name)) →
      (name_search g d name n i info).1 = -ENOENT := by
  induction n with
  | zero => intro k i info _ _; rfl
  | succ m ih =>
    intro k i info hk hlt
    have e1 : ∀ j : Nat, i + 1 + (j : Int) = i + ((j + 1 : Nat) : Int) := by
      intro j; push_cast; ring
    simp only [name_search]
    by_cases h1 : (g d i info).1 ≠ 0
    · rw [if_pos h1]
    · rw [if_neg h1]
      have h1' : (g d i info).1 = 0 := by
        by_contra h; exact h1 h
      cases k with
      | zero =>
        have := hk info
        simp only [Nat.cast_zero, add_zero] at this
        exact absurd h1' this
      | succ k =>
        have h0 := hlt 0 (by omega) info
        simp only [Nat.cast_zero, add_zero] at h0
        have hne : ¬ name = (g d i info).2.name := fun e => h0 ⟨h1', e.symm⟩
        rw [if_neg hne]
        exact ih k (i + 1) (g d i info).2
          (by intro buf; simp only [e1]; exact hk buf)
          (by intro j hj buf; simp only [e1]; exact hlt (j + 1) (by omega) buf)

/-- The name loop that gives up at the index `hi` does not see what
`get_info` answers outside `1 .. hi`. -/
theorem name_search_within (g other : get_info_fn) (d : blk_desc) (name : CStr) (hi : Nat)
    (hhole : ∀ buf, (g d hi buf).1 ≠ 0) (n : Nat) :
    ∀ (i : Int) (info : disk_partition), 1 ≤ i → i ≤ (hi : Int) →
      name_search (get_info_within hi other g) d name n i info =
        name_search g d name n i info := by
  induction n with
  | zero => intro i info _ _; rfl
  | succ m ih =>
    intro i info h1 h2
    have hw : get_info_within hi other g d i info = g d i info := by
      simp only [get_info_within]
      rw [if_pos ⟨h1, h2⟩]
    simp only [name_search, hw]
    by_cases hf : (g d i info).1 ≠ 0
    · rw [if_pos hf, if_pos hf]
    · rw [if_neg hf, if_neg hf]
      by_cases hn : name = (g d i info).2.name
      · rw [if_pos hn, if_pos hn]
      · rw [if_neg hn, if_neg hn]
        have hlt : i ≠ (hi : Int) := by
          intro e
          rw [e] at hf
          exact hf (hhole info)
        exact ih (i + 1) _ (by omega) (by omega)

theorem lookup_by_test_map (f : part_driver → part_driver)
    (hf1 : ∀ x, (f x).test = x.test) (hf2 : ∀ x, (f x).part_type = x.part_type)
    (l : List part_driver) (d : blk_desc) :
    lookup_by_test (l.map f) d = ((lookup_by_test l d).1.map f, (lookup_by_test l d).2) := by
  induction l with
  | nil => rfl
  | cons x xs ih =>
    by_cases hx : x.test d = 0
    · simp [lookup_by_test, hf1, hf2, hx]
    · simp [lookup_by_test, hf1, hx, ih]

/-- The driver lookup does not use any driver's `get_info`. -/
theorem part_driver_lookup_type_set_get_info (F : part_driver → Option get_info_fn)
    (env : Env) (d : blk_desc) :
    part_driver_lookup_type (set_get_info F env) d =
      ((part_driver_lookup_type env d).1.map (fun x => { x with get_info := F x }),
        (part_driver_lookup_type env d).2) := by
  unfold part_driver_lookup_type
  by_cases ht : d.part_type = PART_TYPE_UNKNOWN
  · rw [if_pos ht, if_pos ht]
    exact lookup_by_test_map (fun x => { x with get_info := F x }) (fun _ => rfl)
      (fun _ => rfl) env.drivers d
  · rw [if_neg ht, if_neg ht]
    simp only [set_get_info]
    rw [lookup_by_tag_map (fun x => { x with get_info := F x }) (fun _ => rfl)]

/-- With a driver that has `get_info`, `part_get_info_by_name` is the name
loop over the indices below `max_entries`. -/
theorem part_get_info_by_name_eq (env : Env) (dev : blk_desc) (name : CStr)
    (info : disk_partition) (drv : part_driver) (g : get_info_fn)
    (hd : (part_driver_lookup_type env dev).1 = some drv) (hg : drv.get_info = some g) :
    part_get_info_by_name env dev name info =
      ((name_search g (part_driver_lookup_type env dev).2 name (drv.max_entries - 1).toNat 1
          info).1,
        (part_driver_lookup_type env dev).2,
        (name_search g (part_driver_lookup_type env dev).2 name (drv.max_entries - 1).toNat 1
          info).2) := by
  simp only [part_get_info_by_name, part_get_info_by_name_type, hd, hg]

/-- The return value of `part_get_info_by_name` is never 0: it is negative
or an index from 1 on. -/
theorem part_get_info_by_name_ne_zero (env : Env) (dev : blk_desc) (name : CStr)
    (info : disk_partition) :
    (part_get_info_by_name env dev name info).1 < 0 ∨
      1 ≤ (part_get_info_by_name env dev name info).1 := by
  unfold part_get_info_by_name part_get_info_by_name_type
  split
  · left; show (-1 : Int) < 0; decide
  · split
    · left; show -ENOSYS < 0; decide
    · rename_i g _
      rcases name_search_ret g (part_driver_lookup_type env dev).2 name
        ((_ : Int) - 1).toNat 1 info with h | ⟨h, _⟩
      · left; rw [h]; decide
      · right; exact h

/-- For an index below `max_entries`: when `get_info` succeeds for every
index from 1 to `i` and `i` is the least index whose entry has the name,
`part_get_info_by_name` returns `i` with the record of entry `i`. -/
theorem part_get_info_by_name_found (env : Env) (dev : blk_desc) (name : CStr)
    (info : disk_partition) (drv : part_driver) (g : get_info_fn) (i : Nat)
    (hd : (part_driver_lookup_type env dev).1 = some drv) (hg : drv.get_info = some g)
    (hi1 : 1 ≤ i) (hi2 : (i : Int) < drv.max_entries)
    (hok : ∀ k : Nat, 1 ≤ k → k ≤ i → ∀ buf,
      (g (part_driver_lookup_type env dev).2 k buf).1 = 0)
    (hname : ∀ buf, (g (part_driver_lookup_type env dev).2 i buf).2.name = name)
    (hleast : ∀ k : Nat, 1 ≤ k → k < i → ∀ buf,
      (g (part_driver_lookup_type env dev).2 k buf).2.name ≠ name) :
    ∃ buf, part_get_info_by_name env dev name info =
      ((i : Int), (part_driver_lookup_type env dev).2,
        (g (part_driver_lookup_type env dev).2 i buf).2) := by
  have ep : ∀ j : Nat, (1 : Int) + (j : Int) = ((j + 1 : Nat) : Int) := by
    intro j; push_cast; ring
  obtain ⟨k, rfl⟩ : ∃ k, i = k + 1 := ⟨i - 1, by omega⟩
  obtain ⟨buf, h⟩ := name_search_found g (part_driver_lookup_type env dev).2 name k
    (drv.max_entries - 1).toNat 1 info (by push_cast at hi2; omega)
    (by intro buf; simp only [ep]; exact ⟨hok (k + 1) (by omega) (by omega) buf, hname buf⟩)
    (by intro m hm buf; simp only [ep]
        exact ⟨hok (m + 1) (by omega) (by omega) buf, hleast (m + 1) (by omega) (by omega) buf⟩)
  simp only [ep] at h
  exact ⟨buf, by rw [part_get_info_by_name_eq env dev name info drv g hd hg, h]⟩

/-- C12, at the failing input. The driver has `max_entries = 2`; `get_info`
succeeds for the indices 1 and 2, entry 1 is named "boot" and entry 2 is
named "data", so 2 is the least index with the name "data" and it equals
`max_entries`. `part_get_info_by_name` for "data" returns `-ENOENT`, with the
record of entry 1 left in the buffer: the loop condition `i < max_entries`
ends the scan before index 2. With `max_entries = 3` the same table gives
2. -/
theorem name_lookup_misses_last_entry :
    (part_driver_lookup_type (sample_env_entries (sample_disk 0 2 64000) table_names 2)
        (sample_disk 0 2 64000)).1.map (fun d => d.max_entries) = some 2 ∧
    table_get_info table_names (sample_disk 0 2 64000) 1 zero_info =
      (0, named_entry 1 "boot".toList) ∧
    table_get_info table_names (sample_disk 0 2 64000) 2 zero_info =
      (0, named_entry 2 "data".toList) ∧
    part_get_info_by_name (sample_env_entries (sample_disk 0 2 64000) table_names 2)
        (sample_disk 0 2 64000) "data".toList zero_info =
      (-ENOENT, sample_disk 0 2 64000, named_entry 1 "boot".toList) ∧
    part_get_info_by_name (sample_env_entries (sample_disk 0 2 64000) table_names 3)
        (sample_disk 0 2 64000) "data".toList zero_info =
      (2, sample_disk 0 2 64000, named_entry 2 "data".toList) := by
  decide

/-- C13. Name lookup stops at the first hole. The device has a driver with
`get_info`; `get_info` fails at the index `j >= 1`, and no index below `j`
has an entry with the name. Then `part_get_info_by_name` returns `-ENOENT`,
whatever entries exist above `j`; and the whole result stays the same when
the driver's `get_info` is changed arbitrarily outside `1 .. j`: no index
above `j` is queried. -/
theorem name_lookup_stops_at_hole (env : Env) (dev : blk_desc) (name : CStr)
    (info : disk_partition) (drv : part_driver) (g : get_info_fn) (j : Nat)
    (hd : (part_driver_lookup_type env dev).1 = some drv) (hg : drv.get_info = some g)
    (hj : 1 ≤ j)
    (hhole : ∀ buf, (g (part_driver_lookup_type env dev).2 j buf).1 ≠ 0)
    (hbelow : ∀ k : Nat, 1 ≤ k → k < j → ∀ buf,
      ¬ ((g (part_driver_lookup_type env dev).2 k buf).1 = 0 ∧
          (g (part_driver_lookup_type env dev).2 k buf).2.name = name)) :
    (part_get_info_by_name env dev name info).1 = -ENOENT ∧
    ∀ other : get_info_fn,
      part_get_info_by_name
          (set_get_info (fun x => x.get_info.map (get_info_within j other)) env) dev name info =
        part_get_info_by_name env dev name info := by
  have ep : ∀ m : Nat, (1 : Int) + (m : Int) = ((m + 1 : Nat) : Int) := by
    intro m; push_cast; ring
  obtain ⟨k, rfl⟩ : ∃ k, j = k + 1 := ⟨j - 1, by omega⟩
  constructor
  · rw [part_get_info_by_name_eq env dev name info drv g hd hg]
    exact name_search_hole g (part_driver_lookup_type env dev).2 name _ k 1 info
      (by intro buf; simp only [ep]; exact hhole buf)
      (by intro m hm buf; simp only [ep]; exact hbelow (m + 1) (by omega) (by omega) buf)
  · intro other
    have hl := part_driver_lookup_type_set_get_info
      (fun x => x.get_info.map (get_info_within (k + 1) other)) env dev
    have hd2 : (part_driver_lookup_type
        (set_get_info (fun x => x.get_info.map (get_info_within (k + 1) other)) env) dev).1 =
        some { drv with get_info := drv.get_info.map (get_info_within (k + 1) other) } := by
      rw [hl, hd]; rfl
    have hd3 : (part_driver_lookup_type
        (set_get_info (fun x => x.get_info.map (get_info_within (k + 1) other)) env) dev).2 =
        (part_driver_lookup_type env dev).2 := by
      rw [hl]
    rw [part_get_info_by_name_eq _ dev name info _ (get_info_within (k + 1) other g) hd2
        (by simp only [hg, Option.map_some']),
      part_get_info_by_name_eq env dev name info drv g hd hg, hd3,
      name_search_within g other (part_driver_lookup_type env dev).2 name (k + 1) hhole _ 1 info
        (le_refl 1) (by push_cast; omega)]

/-- Witness of C13: entry 1 is named "boot", there is no entry 2, entry 3 is
named "data"; the lookup of "data" returns `-ENOENT`. -/
theorem name_lookup_stops_at_hole_witness :
    table_names_hole 3 = some (named_entry 3 "data".toList) ∧
    (part_get_info_by_name (sample_env (sample_disk 0 2 64000) table_names_hole)
      (sample_disk 0 2 64000) "data".toList zero_info).1 = -ENOENT :=
  ⟨by decide,
    (name_lookup_stops_at_hole (sample_env (sample_disk 0 2 64000) table_names_hole)
      (sample_disk 0 2 64000) "data".toList zero_info
      (sample_driver "DOS".toList 2 0 table_names_hole) (table_get_info table_names_hole) 2
      rfl rfl (by decide) (fun _ => by show (-1 : Int) ≠ 0; decide)
      (fun k h1 h2 _ => by
        have hk : k = 1 := by omega
        subst hk
        show ¬ ((0 : Int) = 0 ∧ "boot".toList = "data".toList)
        decide)).1⟩

/-- C17, at the failing input. (1) Whatever the input, the return value of
`part_get_info_by_dev_and_name` is negative or at least 1, never 0. (2) On a
disk whose entry 1 is named "boot" and entry 2 is named "data", "0#data"
returns 2 and "#boot" returns 1 (device 0, hardware partition 0), each with
the record of the named entry. -/
theorem name_form_returns_index :
    (∀ (env : Env) (dev_iface : CStr) (dev_part_str : Option CStr) (dd : Option blk_desc)
        (info : disk_partition),
      (part_get_info_by_dev_and_name env dev_iface dev_part_str dd info).1 < 0 ∨
        1 ≤ (part_get_info_by_dev_and_name env dev_iface dev_part_str dd info).1) ∧
    part_get_info_by_dev_and_name (sample_env (sample_disk 0 2 64000) table_names)
        "usb".toList (some "0#data".toList) none zero_info =
      (2, some (sample_disk 0 2 64000), named_entry 2 "data".toList) ∧
    part_get_info_by_dev_and_name (sample_env (sample_disk 0 2 64000) table_names)
        "usb".toList (some "#boot".toList) none zero_info =
      (1, some (sample_disk 0 2 64000), named_entry 1 "boot".toList) := by
  refine ⟨?_, by decide, by decide⟩
  intro env dev_iface dev_part_str dd info
  unfold part_get_info_by_dev_and_name
  split
  · left; show -EINVAL < 0; decide
  · split
    · left; show -EINVAL < 0; decide
    · rename_i s _ k _
      by_cases h1 : (blk_get_device_by_str env dev_iface (List.take k s) dd).1 < 0
      · rw [if_pos h1]; left; exact h1
      · rw [if_neg h1]
        obtain ⟨d, hd⟩ := blk_get_device_by_str_device env dev_iface (List.take k s) dd
          (by omega)
        rw [hd]
        exact part_get_info_by_name_ne_zero env d _ info

/-! ## Name or number -/

/-- What `strchr` finds: the string splits at the offset returned, and the
character does not occur before it. -/
theorem strchr_some (t : CStr) (c : Char) :
    ∀ k : Nat, strchr t c = some k → t = t.take k ++ c :: t.drop (k + 1) ∧ c ∉ t.take k := by
  induction t with
  | nil => intro k h; simp [strchr] at h
  | cons x xs ih =>
    intro k h
    by_cases hx : x = c
    · simp only [strchr, if_pos hx, Option.some.injEq] at h
      subst h
      subst hx
      simp
    · simp only [strchr, if_neg hx, Option.map_eq_some'] at h
      obtain ⟨m, hm, rfl⟩ := h
      obtain ⟨h1, h2⟩ := ih m hm
      refine ⟨?_, ?_⟩
      · simp only [List.take_succ_cons, List.drop_succ_cons, List.cons_append]
        rw [← h1]
      · simp only [List.take_succ_cons, List.mem_cons, not_or]
        exact ⟨fun e => hx e.symm, h2⟩

/-- A character that occurs in a string occurs before or after the first
occurrence of a different character. -/
theorem mem_take_or_drop (t : CStr) (c x : Char) (k : Nat) (hk : strchr t c = some k)
    (hx : x ∈ t) (hne : x ≠ c) : x ∈ t.take k ∨ x ∈ t.drop (k + 1) := by
  have h := (strchr_some t c k hk).1
  rw [h] at hx
  simp only [List.mem_append, List.mem_cons] at hx
  rcases hx with h1 | h1 | h1
  · exact Or.inl h1
  · exact absurd h1 hne
  · exact Or.inr h1

/-- Two runs of the device lookup on the same string either both stop at a
parse error, each leaving its `*dev_desc` as it was, or agree entirely. -/
theorem blk_get_device_by_str_two_runs (env : Env) (ifname t : CStr)
    (dd dd2 : Option blk_desc) :
    (blk_get_device_by_str env ifname t dd = (-EINVAL, dd) ∧
        blk_get_device_by_str env ifname t dd2 = (-EINVAL, dd2)) ∨
      blk_get_device_by_str env ifname t dd = blk_get_device_by_str env ifname t dd2 := by
  unfold blk_get_device_by_str
  simp only
  split_ifs with h1
  · left; exact ⟨rfl, rfl⟩
  · split
    · split_ifs with h2
      · left; exact ⟨rfl, rfl⟩
      · right; rfl
    · right; rfl

/-- When `hextoul` stops at '#', a device string with a '#' in it is a parse
error. -/
theorem blk_get_device_by_str_hash (env : Env) (ifname t : CStr) (dd : Option blk_desc)
    (hx : ∀ u : CStr, '#' ∈ u → (env.hextoul u).2 ≠ []) (ht : '#' ∈ t) :
    blk_get_device_by_str env ifname t dd = (-EINVAL, dd) := by
  cases hk : strchr t '.' with
  | none =>
    simp only [blk_get_device_by_str, hk, Option.map_none']
    rw [if_pos (hx t ht)]
  | some k =>
    simp only [blk_get_device_by_str, hk, Option.map_some']
    by_cases h1 : (env.hextoul (List.take k t)).2 ≠ []
    · rw [if_pos h1]
    · rw [if_neg h1]
      have h2 : '#' ∈ t.drop (k + 1) := by
        rcases mem_take_or_drop t '.' '#' k hk ht (by decide) with h | h
        · exact absurd (hx _ h) h1
        · exact h
      rw [if_pos (hx _ h2)]

/-- When `hextoul` stops at '#', the return value of
`blk_get_device_part_str` on a string with a '#' in it does not depend on
the values of `*dev_desc` and `*info` before the call. -/
theorem blk_get_device_part_str_hash_ret (env : Env) (ifname s : CStr)
    (dd dd2 : Option blk_desc) (info info2 : disk_partition) (allow : Int)
    (hx : ∀ u : CStr, '#' ∈ u → (env.hextoul u).2 ≠ []) (hs : '#' ∈ s) :
    (blk_get_device_part_str env ifname (some s) dd info allow).1 =
      (blk_get_device_part_str env ifname (some s) dd2 info2 allow).1 := by
  have hne : s ≠ [] := by
    intro e; rw [e] at hs; simp at hs
  have hnd : s ≠ "-".toList := by
    intro e; rw [e] at hs; exact absurd hs (by decide)
  have hres : (resolve_dev_part_str env ifname s dd info allow).1 =
      (resolve_dev_part_str env ifname s dd2 info2 allow).1 := by
    cases hk : strchr s ':' with
    | none =>
      simp only [resolve_dev_part_str, hk, blk_get_device_by_str_hash env ifname s _ hx hs]
      rw [if_pos (by decide), if_pos (by decide)]
    | some k =>
      simp only [resolve_dev_part_str, hk, Option.map_some']
      rcases mem_take_or_drop s ':' '#' k hk hs (by decide) with h | h
      · simp only [blk_get_device_by_str_hash env ifname _ _ hx h]
        rw [if_pos (by decide), if_pos (by decide)]
      · have hp : part_str_to_number env (some (List.drop (k + 1) s)) allow = none := by
          apply part_str_to_number_rejected
          · intro e; rw [e] at h; simp at h
          · intro e; rw [e] at h; exact absurd h (by decide)
          · exact Or.inl (hx _ h)
        rcases blk_get_device_by_str_two_runs env ifname (List.take k s) dd dd2 with
          ⟨e1, e2⟩ | e
        · have hneg : ∀ x : Option blk_desc, ((-EINVAL, x) : Int × Option blk_desc).1 < 0 :=
            fun _ => by show -EINVAL < 0; decide
          rw [e1, e2, if_pos (hneg dd), if_pos (hneg dd2)]
        · rw [e]
          by_cases h1 : (blk_get_device_by_str env ifname (List.take k s) dd2).1 < 0
          · rw [if_pos h1, if_pos h1]
          · rw [if_neg h1, if_neg h1]
            obtain ⟨d, hd⟩ := blk_get_device_by_str_device env ifname (List.take k s) dd2
              (by omega)
            rw [hd]
            simp only [hp]
  rw [blk_get_device_part_str_unfold env ifname s dd info allow hne hnd,
    blk_get_device_part_str_unfold env ifname s dd2 info2 allow hne hnd]
  by_cases c1 : env.cfg_hostfs = true ∧ ifname = "hostfs".toList
  · rw [if_pos c1, if_pos c1]
    unfold blk_get_device_part_str
    rw [if_pos c1, if_pos c1]
  · rw [if_neg c1, if_neg c1]
    by_cases c2 : env.cfg_ubifs = true ∧ ifname = "ubi".toList
    · rw [if_pos c2, if_pos c2]
      unfold blk_get_device_part_str
      rw [if_neg c1, if_neg c1, if_pos c2, if_pos c2]
      split_ifs <;> rfl
    · rw [if_neg c2, if_neg c2]
      exact hres

/-- Without a '#' in the string (or without a string) the name form returns
`-EINVAL` and touches nothing. -/
theorem part_get_info_by_dev_and_name_no_hash (env : Env) (dev_iface : CStr)
    (s : Option CStr) (dd : Option blk_desc) (info : disk_partition)
    (hs : ∀ t : CStr, s = some t → '#' ∉ t) :
    part_get_info_by_dev_and_name env dev_iface s dd info = (-EINVAL, dd, info) := by
  cases s with
  | none => rfl
  | some t =>
    simp only [part_get_info_by_dev_and_name, strchr_none t '#' (hs t rfl)]

/-- C16. Two-stage name-or-number resolution. (1) When the '#name' lookup
`part_get_info_by_dev_and_name` returns a non-negative value,
`part_get_info_by_dev_and_name_or_num` returns its result. (2) Otherwise it
returns what `blk_get_device_part_str` returns for the same string and
`allow_whole_dev`, called with `*dev_desc` and `*part_info` as the first
stage left them. (3) For a string without '#' (or a null string) the first
stage touches nothing, and the return value, the device descriptor and the
partition record are those of `blk_get_device_part_str` on the same
arguments. (4) When `hextoul` stops at '#' and the first stage fails, the
return value is that of `blk_get_device_part_str` on the caller's own
arguments too: what the first stage left behind does not matter. -/
theorem name_or_num_two_stage (env : Env) (dev_iface : CStr) (s : Option CStr)
    (dd : Option blk_desc) (info : disk_partition) (allow : Int) :
    (0 ≤ (part_get_info_by_dev_and_name env dev_iface s dd info).1 →
      part_get_info_by_dev_and_name_or_num env dev_iface s dd info allow =
        part_get_info_by_dev_and_name env dev_iface s dd info) ∧
    ((part_get_info_by_dev_and_name env dev_iface s dd info).1 < 0 →
      part_get_info_by_dev_and_name_or_num env dev_iface s dd info allow =
        blk_get_device_part_str env dev_iface s
          (part_get_info_by_dev_and_name env dev_iface s dd info).2.1
          (part_get_info_by_dev_and_name env dev_iface s dd info).2.2 allow) ∧
    ((∀ t : CStr, s = some t → '#' ∉ t) →
      part_get_info_by_dev_and_name_or_num env dev_iface s dd info allow =
        blk_get_device_part_str env dev_iface s dd info allow) ∧
    ((∀ u : CStr, '#' ∈ u → (env.hextoul u).2 ≠ []) →
      (part_get_info_by_dev_and_name env dev_iface s dd info).1 < 0 →
      (part_get_info_by_dev_and_name_or_num env dev_iface s dd info allow).1 =
        (blk_get_device_part_str env dev_iface s dd info allow).1) := by
  have hB : (part_get_info_by_dev_and_name env dev_iface s dd info).1 < 0 →
      part_get_info_by_dev_and_name_or_num env dev_iface s dd info allow =
        blk_get_device_part_str env dev_iface s
          (part_get_info_by_dev_and_name env dev_iface s dd info).2.1
          (part_get_info_by_dev_and_name env dev_iface s dd info).2.2 allow := by
    intro h
    unfold part_get_info_by_dev_and_name_or_num
    rw [if_neg (by omega)]
  have hC : (∀ t : CStr, s = some t → '#' ∉ t) →
      part_get_info_by_dev_and_name_or_num env dev_iface s dd info allow =
        blk_get_device_part_str env dev_iface s dd info allow := by
    intro hs
    have e := part_get_info_by_dev_and_name_no_hash env dev_iface s dd info hs
    rw [hB (by rw [e]; show -EINVAL < 0; decide), e]
  refine ⟨?_, hB, hC, ?_⟩
  · intro h
    unfold part_get_info_by_dev_and_name_or_num
    rw [if_pos h]
  · intro hx hneg
    cases s with
    | none => rw [hC (fun t h => by cases h)]
    | some t =>
      by_cases ht : '#' ∈ t
      · rw [hB hneg]
        exact blk_get_device_part_str_hash_ret env dev_iface t _ _ _ _ allow hx ht
      · rw [hC (fun u h => by cases h; exact ht)]

/-- Witness of C16: on a disk whose entry 2 is named "data", "0#data" is
answered by the name lookup (2), "0:2" has no '#' and is answered by
`blk_get_device_part_str` (2), and "0#nope" falls through to
`blk_get_device_part_str`, which refuses the string (`-EINVAL`). -/
theorem name_or_num_two_stage_witness :
    part_get_info_by_dev_and_name_or_num (sample_env (sample_disk 0 2 64000) table_names)
        "usb".toList (some "0#data".toList) none zero_info 1 =
      part_get_info_by_dev_and_name (sample_env (sample_disk 0 2 64000) table_names)
        "usb".toList (some "0#data".toList) none zero_info ∧
    part_get_info_by_dev_and_name_or_num (sample_env (sample_disk 0 2 64000) table_names)
        "usb".toList (some "0:2".toList) none zero_info 1 =
      blk_get_device_part_str (sample_env (sample_disk 0 2 64000) table_names)
        "usb".toList (some "0:2".toList) none zero_info 1 ∧
    (part_get_info_by_dev_and_name_or_num (sample_env (sample_disk 0 2 64000) table_names)
        "usb".toList (some "0#data".toList) none zero_info 1).1 = 2 ∧
    (part_get_info_by_dev_and_name_or_num (sample_env (sample_disk 0 2 64000) table_names)
        "usb".toList (some "0:2".toList) none zero_info 1).1 = 2 ∧
    (part_get_info_by_dev_and_name_or_num (sample_env (sample_disk 0 2 64000) table_names)
        "usb".toList (some "0#nope".toList) none zero_info 1).1 = -EINVAL :=
  ⟨(name_or_num_two_stage (sample_env (sample_disk 0 2 64000) table_names) "usb".toList
      (some "0#data".toList) none zero_info 1).1 (by decide),
    (name_or_num_two_stage (sample_env (sample_disk 0 2 64000) table_names) "usb".toList
      (some "0:2".toList) none zero_info 1).2.2.1
      (fun t h => by cases h; decide),
    by decide, by decide, by decide⟩

/-! ## The log2 cache -/

/-- On a classified device the search loop leaves the descriptor as it is. -/
theorem auto_search_dev (env : Env) (n : Nat) :
    ∀ s : auto_state, s.dev_desc.part_type ≠ PART_TYPE_UNKNOWN →
      (auto_search env n s).dev_desc = s.dev_desc := by
  induction n with
  | zero => intro s _; rfl
  | succ m ih =>
    intro s ht
    have hdev := part_get_info_dev env s.dev_desc s.p s.info ht
    have hih : ∀ t : auto_state,
        t.dev_desc = (part_get_info env s.dev_desc s.p s.info).2.1 →
        (auto_search env m t).dev_desc = s.dev_desc := by
      intro t hd
      rw [ih t (by rw [hd, hdev]; exact ht), hd, hdev]
    simp only [auto_search]
    split_ifs <;> first | exact hdev | exact hih _ rfl

/-- One iteration of the search loop, by cases on what `part_get_info`
reports for the index `p`: no entry, a bootable entry, another entry. -/
theorem auto_search_step (env : Env) (n : Nat) (s : auto_state) :
    ((part_get_info env s.dev_desc s.p s.info).1 ≠ 0 ∧
      auto_search env (n + 1) s =
        auto_search env n
          { ret := (part_get_info env s.dev_desc s.p s.info).1
            part := s.part
            p := s.p + 1
            info := (part_get_info env s.dev_desc s.p s.info).2.2
            tmpinfo := s.tmpinfo
            dev_desc := (part_get_info env s.dev_desc s.p s.info).2.1 }) ∨
    ((part_get_info env s.dev_desc s.p s.info).1 = 0 ∧
      (part_get_info env s.dev_desc s.p s.info).2.2.bootable ≠ 0 ∧
      auto_search env (n + 1) s =
        { ret := (part_get_info env s.dev_desc s.p s.info).1
          part := s.p
          p := s.p
          info := (part_get_info env s.dev_desc s.p s.info).2.2
          tmpinfo := s.tmpinfo
          dev_desc := (part_get_info env s.dev_desc s.p s.info).2.1 }) ∨
    ((part_get_info env s.dev_desc s.p s.info).1 = 0 ∧
      (part_get_info env s.dev_desc s.p s.info).2.2.bootable = 0 ∧
      auto_search env (n + 1) s =
        auto_search env n
          { ret := (part_get_info env s.dev_desc s.p s.info).1
            part := if s.part = 0 then s.p else s.part
            p := s.p + 1
            info := (part_get_info env s.dev_desc s.p s.info).2.2
            tmpinfo :=
              if (if s.part = 0 then s.p else s.part) = s.p then
                (part_get_info env s.dev_desc s.p s.info).2.2
              else s.tmpinfo
            dev_desc := (part_get_info env s.dev_desc s.p s.info).2.1 }) := by
  by_cases h1 : (part_get_info env s.dev_desc s.p s.info).1 ≠ 0
  · left
    refine ⟨h1, ?_⟩
    simp only [auto_search]
    rw [if_pos h1]
  · have h1' : (part_get_info env s.dev_desc s.p s.info).1 = 0 := by
      by_contra h; exact h1 h
    right
    by_cases h2 : (part_get_info env s.dev_desc s.p s.info).2.2.bootable ≠ 0
    · left
      refine ⟨h1', h2, ?_⟩
      simp only [auto_search]
      rw [if_neg h1, if_pos h2, if_pos (Or.inr h2)]
    · have h2' : (part_get_info env s.dev_desc s.p s.info).2.2.bootable = 0 := by
        by_contra h; exact h2 h
      right
      refine ⟨h1', h2', ?_⟩
      simp only [auto_search]
      rw [if_neg h1, if_neg h2]
      simp only [h2', ne_eq, not_true_eq_false, or_false]

/-- The index recorded by the search loop is 0 or an index from 1 on. -/
theorem auto_search_part_nonneg (env : Env) (n : Nat) :
    ∀ s : auto_state, 0 ≤ s.part → 1 ≤ s.p → 0 ≤ (auto_search env n s).part := by
  induction n with
  | zero => intro s h _; exact h
  | succ m ih =>
    intro s h1 h2
    rcases auto_search_step env m s with ⟨_, e⟩ | ⟨_, _, e⟩ | ⟨_, _, e⟩
    · rw [e]; exact ih _ h1 (by show 1 ≤ s.p + 1; omega)
    · rw [e]; show 0 ≤ s.p; omega
    · rw [e]
      exact ih _ (by show 0 ≤ (if s.part = 0 then s.p else s.part); split_ifs <;> omega)
        (by show 1 ≤ s.p + 1; omega)

/-- An index once recorded by the search loop stays recorded. -/
theorem auto_search_part_stays (env : Env) (n : Nat) :
    ∀ s : auto_state, s.part ≠ 0 → 1 ≤ s.p → (auto_search env n s).part ≠ 0 := by
  induction n with
  | zero => intro s h _; exact h
  | succ m ih =>
    intro s h1 h2
    rcases auto_search_step env m s with ⟨_, e⟩ | ⟨_, _, e⟩ | ⟨_, _, e⟩
    · rw [e]; exact ih _ h1 (by show 1 ≤ s.p + 1; omega)
    · rw [e]; show s.p ≠ 0; omega
    · rw [e]
      exact ih _ (by show (if s.part = 0 then s.p else s.part) ≠ 0; rw [if_neg h1]; exact h1)
        (by show 1 ≤ s.p + 1; omega)

/-- When the search loop ends without an index recorded, `ret` holds the
negative return value of the last `part_get_info`. -/
theorem auto_search_none_found (env : Env) (n : Nat) :
    ∀ s : auto_state, s.part = 0 → 1 ≤ s.p → (auto_search env n s).part = 0 →
      (0 < n ∨ s.ret < 0) → (auto_search env n s).ret < 0 := by
  induction n with
  | zero =>
    intro s _ _ _ h
    exact h.elim (fun h => absurd h (by omega)) id
  | succ m ih =>
    intro s h1 h2 h3 _
    have hcode := part_get_info_ret env s.dev_desc s.p s.info
    rcases auto_search_step env m s with ⟨hf, e⟩ | ⟨_, _, e⟩ | ⟨_, _, e⟩
    · rw [e] at h3 ⊢
      exact ih _ h1 (by show 1 ≤ s.p + 1; omega) h3 (Or.inr (hcode.resolve_left hf))
    · rw [e] at h3
      have : s.p = 0 := h3
      omega
    · rw [e] at h3
      exact absurd h3 (auto_search_part_stays env m _
        (by show (if s.part = 0 then s.p else s.part) ≠ 0; rw [if_pos h1]; omega)
        (by show 1 ≤ s.p + 1; omega))

/-- A non-negative result of the type check has the log2 cache set. -/
theorem check_part_type_nonneg (env : Env) (d : blk_desc) (part : Int) (e : disk_partition)
    (h : 0 ≤ (check_part_type env d part e).1) :
    (check_part_type env d part e).2.1 = { d with log2blksz := LOG2 d.blksz } := by
  rw [check_part_type_eq] at h ⊢
  by_cases hc : strncmp_eq e.type env.BOOT_PART_TYPE env.PART_TYPE_LEN = true
  · rw [if_pos hc]
  · rw [if_neg hc] at h
    have h' : (0 : Int) ≤ -EINVAL := h
    exact absurd h' (by decide)

/-- The result of the type check is the index it was given, or `-EINVAL`
with the descriptor untouched. -/
theorem check_part_type_cases (env : Env) (d : blk_desc) (part : Int) (e : disk_partition) :
    (check_part_type env d part e).1 = part ∨
      ((check_part_type env d part e).1 = -EINVAL ∧ (check_part_type env d part e).2.1 = d) := by
  rw [check_part_type_eq]
  by_cases hc : strncmp_eq e.type env.BOOT_PART_TYPE env.PART_TYPE_LEN = true
  · rw [if_pos hc]; left; rfl
  · rw [if_neg hc]; right; exact ⟨rfl, rfl⟩

/-- A non-negative return value of lines 557-661 comes with the log2 cache
set. -/
theorem resolve_part_nonneg_log2 (env : Env) (d : blk_desc) (part : Int)
    (info : disk_partition) (allow : Int) (hmax : 1 ≤ env.MAX_SEARCH_PARTITIONS)
    (h : 0 ≤ (resolve_part env d part info allow).1) :
    (resolve_part env d part info allow).2.1.log2blksz =
      LOG2 (resolve_part env d part info allow).2.1.blksz := by
  have hg := part_get_info_ret env d (if part = PART_UNSPECIFIED then 1 else part) info
  unfold resolve_part at h ⊢
  by_cases h1 : d.part_type = PART_TYPE_UNKNOWN ∨ part = 0
  · rw [if_pos h1] at h ⊢
    split_ifs at h ⊢
    · have h' : (0 : Int) ≤ -EINVAL := h
      exact absurd h' (by decide)
    · have h' : (0 : Int) ≤ -EPROTONOSUPPORT := h
      exact absurd h' (by decide)
    · rfl
  · rw [if_neg h1] at h ⊢
    by_cases h2 : (if part = PART_UNSPECIFIED then 1 else part) ≠ PART_AUTO
    · rw [if_pos h2] at h ⊢
      by_cases h3 : (part_get_info env d (if part = PART_UNSPECIFIED then 1 else part) info).1 ≠ 0
      · rw [if_pos h3] at h
        rcases hg with h4 | h4
        · exact absurd h4 h3
        · omega
      · rw [if_neg h3] at h ⊢
        rw [check_part_type_nonneg env _ _ _ h]
    · rw [if_neg h2] at h ⊢
      simp only at h ⊢
      by_cases h4 : (auto_search env env.MAX_SEARCH_PARTITIONS
          { ret := env.ret_indeterminate, part := 0, p := 1, info := info,
            tmpinfo := env.tmpinfo_indeterminate, dev_desc := d }).part ≠ 0
      · rw [if_pos h4] at h ⊢
        rw [check_part_type_nonneg env _ _ _ h]
      · rw [if_neg h4] at h
        have h4' : (auto_search env env.MAX_SEARCH_PARTITIONS
            { ret := env.ret_indeterminate, part := 0, p := 1, info := info,
              tmpinfo := env.tmpinfo_indeterminate, dev_desc := d }).part = 0 := by
          by_contra hc; exact h4 hc
        have := auto_search_none_found env env.MAX_SEARCH_PARTITIONS
          { ret := env.ret_indeterminate, part := 0, p := 1, info := info,
            tmpinfo := env.tmpinfo_indeterminate, dev_desc := d } rfl
          (by show (1 : Int) ≤ 1; omega) h4' (Or.inl (by omega))
        have h' : 0 ≤ (auto_search env env.MAX_SEARCH_PARTITIONS
            { ret := env.ret_indeterminate, part := 0, p := 1, info := info,
              tmpinfo := env.tmpinfo_indeterminate, dev_desc := d }).ret := h
        omega

/-- A negative return value of lines 557-661 comes with the descriptor
untouched, when the partition number is not negative or is one of the two
selector values. -/
theorem resolve_part_error_dev (env : Env) (d : blk_desc) (part : Int)
    (info : disk_partition) (allow : Int)
    (hns : 0 ≤ part ∨ part = PART_AUTO ∨ part = PART_UNSPECIFIED)
    (h : (resolve_part env d part info allow).1 < 0) :
    (resolve_part env d part info allow).2.1 = d := by
  unfold resolve_part at h ⊢
  by_cases h1 : d.part_type = PART_TYPE_UNKNOWN ∨ part = 0
  · rw [if_pos h1] at h ⊢
    split_ifs at h ⊢
    · rfl
    · rfl
    · have h' : (0 : Int) < 0 := h
      exact absurd h' (by decide)
  · rw [if_neg h1] at h ⊢
    have ht : d.part_type ≠ PART_TYPE_UNKNOWN := fun e => h1 (Or.inl e)
    have hp0 : part ≠ 0 := fun e => h1 (Or.inr e)
    by_cases h2 : (if part = PART_UNSPECIFIED then 1 else part) ≠ PART_AUTO
    · rw [if_pos h2] at h ⊢
      have hdev := part_get_info_dev env d (if part = PART_UNSPECIFIED then 1 else part) info ht
      have hsel : 1 ≤ (if part = PART_UNSPECIFIED then 1 else part) := by
        by_cases hu : part = PART_UNSPECIFIED
        · rw [if_pos hu]
        · rw [if_neg hu] at h2 ⊢
          rcases hns with h5 | h5 | h5
          · omega
          · exact absurd h5 h2
          · exact absurd h5 hu
      by_cases h3 : (part_get_info env d (if part = PART_UNSPECIFIED then 1 else part) info).1 ≠ 0
      · rw [if_pos h3]; exact hdev
      · rw [if_neg h3] at h ⊢
        rcases check_part_type_cases env
          (part_get_info env d (if part = PART_UNSPECIFIED then 1 else part) info).2.1
          (if part = PART_UNSPECIFIED then 1 else part)
          (part_get_info env d (if part = PART_UNSPECIFIED then 1 else part) info).2.2
          with h6 | ⟨_, h6⟩
        · rw [h6] at h; omega
        · rw [h6]; exact hdev
    · rw [if_neg h2] at h ⊢
      simp only at h ⊢
      have hdev := auto_search_dev env env.MAX_SEARCH_PARTITIONS
        { ret := env.ret_indeterminate, part := 0, p := 1, info := info,
          tmpinfo := env.tmpinfo_indeterminate, dev_desc := d } ht
      have hnn := auto_search_part_nonneg env env.MAX_SEARCH_PARTITIONS
        { ret := env.ret_indeterminate, part := 0, p := 1, info := info,
          tmpinfo := env.tmpinfo_indeterminate, dev_desc := d } (le_refl 0)
        (by show (1 : Int) ≤ 1; omega)
      by_cases h4 : (auto_search env env.MAX_SEARCH_PARTITIONS
          { ret := env.ret_indeterminate, part := 0, p := 1, info := info,
            tmpinfo := env.tmpinfo_indeterminate, dev_desc := d }).part ≠ 0
      · rw [if_pos h4] at h ⊢
        rcases check_part_type_cases env
          (auto_search env env.MAX_SEARCH_PARTITIONS
            { ret := env.ret_indeterminate, part := 0, p := 1, info := info,
              tmpinfo := env.tmpinfo_indeterminate, dev_desc := d }).dev_desc
          (auto_search env env.MAX_SEARCH_PARTITIONS
            { ret := env.ret_indeterminate, part := 0, p := 1, info := info,
              tmpinfo := env.tmpinfo_indeterminate, dev_desc := d }).part
          (if (auto_search env env.MAX_SEARCH_PARTITIONS
                { ret := env.ret_indeterminate, part := 0, p := 1, info := info,
                  tmpinfo := env.tmpinfo_indeterminate, dev_desc := d }).p =
                (env.MAX_SEARCH_PARTITIONS : Int) + 1 then
            (auto_search env env.MAX_SEARCH_PARTITIONS
              { ret := env.ret_indeterminate, part := 0, p := 1, info := info,
                tmpinfo := env.tmpinfo_indeterminate, dev_desc := d }).tmpinfo
          else
            (auto_search env env.MAX_SEARCH_PARTITIONS
              { ret := env.ret_indeterminate, part := 0, p := 1, info := info,
                tmpinfo := env.tmpinfo_indeterminate, dev_desc := d }).info)
          with h6 | ⟨_, h6⟩
        · rw [h6] at h; omega
        · rw [h6]; exact hdev
      · rw [if_neg h4]; exact hdev

/-- A non-negative return value of lines 517-666 comes with the log2 cache
set on the device handed back. -/
theorem resolve_dev_part_str_nonneg_log2 (env : Env) (ifname s : CStr)
    (dd : Option blk_desc) (info : disk_partition) (allow : Int) (dv : blk_desc)
    (hmax : 1 ≤ env.MAX_SEARCH_PARTITIONS)
    (hdv : (resolve_dev_part_str env ifname s dd info allow).2.1 = some dv)
    (h : 0 ≤ (resolve_dev_part_str env ifname s dd info allow).1) :
    dv.log2blksz = LOG2 dv.blksz := by
  simp only [resolve_dev_part_str] at h hdv
  generalize blk_get_device_by_str env ifname
    (match strchr s ':' with
      | some k => s.take k
      | none => s) dd = q at h hdv
  by_cases h1 : q.1 < 0
  · rw [if_pos h1] at h
    have h' : 0 ≤ q.1 := h
    omega
  · rw [if_neg h1] at h hdv
    cases hq : q.2 with
    | none =>
      rw [hq] at hdv
      simp only at hdv
      cases hdv
    | some d =>
      rw [hq] at h hdv
      simp only at h hdv
      cases hn : part_str_to_number env
          (Option.map (fun k => List.drop (k + 1) s) (strchr s ':')) allow with
      | none =>
        rw [hn] at h
        have h' : (0 : Int) ≤ -ENOENT := h
        exact absurd h' (by decide)
      | some part =>
        rw [hn] at h hdv
        simp only at h hdv
        have e := resolve_part_nonneg_log2 env d part info allow hmax h
        have hdv' : (resolve_part env d part info allow).2.1 = dv := Option.some.inj hdv
        rw [hdv'] at e
        exact e

/-- C19, the general part and the failing input. With
`MAX_SEARCH_PARTITIONS >= 1`: (1) whenever `blk_get_device_part_str` returns
a non-negative value together with a device, that device has `log2blksz`
set to `LOG2` of its block size (whole disk and real partition alike).
(2) When the device string D gave a device, the partition ID of "D:S" is
accepted as a number that is not negative (or is "auto", or is empty), and
the call returns a negative value, the device is handed back as the device
lookup left it, `log2blksz` included. (3) The same when the partition ID is
refused (`-ENOENT`). (4) `LOG2 512 = 9`. (5) The failing input: the driver
answers for the index -3, which is what the partition ID "fffffffd" becomes
as an `int`; the call returns -3, a negative value, after setting
`log2blksz` from 0 to 9. -/
theorem log2_cache (env : Env) (ifname : CStr) (hmax : 1 ≤ env.MAX_SEARCH_PARTITIONS) :
    (∀ (dev_part_str : Option CStr) (dd : Option blk_desc) (info : disk_partition)
        (allow : Int) (dv : blk_desc),
      (blk_get_device_part_str env ifname dev_part_str dd info allow).2.1 = some dv →
      0 ≤ (blk_get_device_part_str env ifname dev_part_str dd info allow).1 →
      dv.log2blksz = LOG2 dv.blksz) ∧
    (∀ (D S : CStr) (dd : Option blk_desc) (info : disk_partition) (allow : Int) (r : Int)
        (d : blk_desc) (part : Int),
      (env.cfg_hostfs = true → ifname ≠ "hostfs".toList) →
      (env.cfg_ubifs = true → ifname ≠ "ubi".toList) →
      ':' ∉ D → blk_get_device_by_str env ifname D dd = (r, some d) → 0 ≤ r →
      part_str_to_number env (some S) allow = some part →
      (0 ≤ part ∨ part = PART_AUTO ∨ part = PART_UNSPECIFIED) →
      (blk_get_device_part_str env ifname (some (D ++ ':' :: S)) dd info allow).1 < 0 →
      (blk_get_device_part_str env ifname (some (D ++ ':' :: S)) dd info allow).2.1 =
        some d) ∧
    (∀ (D S : CStr) (dd : Option blk_desc) (info : disk_partition) (allow : Int) (r : Int)
        (d : blk_desc),
      (env.cfg_hostfs = true → ifname ≠ "hostfs".toList) →
      (env.cfg_ubifs = true → ifname ≠ "ubi".toList) →
      ':' ∉ D → blk_get_device_by_str env ifname D dd = (r, some d) → 0 ≤ r →
      part_str_to_number env (some S) allow = none →
      blk_get_device_part_str env ifname (some (D ++ ':' :: S)) dd info allow =
        (-ENOENT, some d, info)) ∧
    LOG2 512 = 9 ∧
    ((sample_disk 0 2 64000).log2blksz = 0 ∧
      ulong_to_int (hextoul "fffffffd".toList).1 = -3 ∧
      blk_get_device_part_str (sample_env (sample_disk 0 2 64000) table_negative)
          "usb".toList (some "0:fffffffd".toList) none zero_info 1 =
        (-3, some { sample_disk 0 2 64000 with log2blksz := 9 },
          sample_entry 3 0 "U-Boot".toList)) := by
  refine ⟨?_, ?_, ?_, by decide, by decide⟩
  · intro dev_part_str dd info allow dv hdv h
    unfold blk_get_device_part_str at h hdv
    by_cases c1 : env.cfg_hostfs = true ∧ ifname = "hostfs".toList
    · rw [if_pos c1] at hdv
      cases hdv
    · rw [if_neg c1] at h hdv
      by_cases c2 : env.cfg_ubifs = true ∧ ifname = "ubi".toList
      · rw [if_pos c2] at h hdv
        by_cases c3 : env.ubifs_is_mounted = false
        · rw [if_pos c3] at h
          have h' : (0 : Int) ≤ -EINVAL := h
          exact absurd h' (by decide)
        · rw [if_neg c3] at hdv
          cases hdv
      · rw [if_neg c2] at h hdv
        generalize (if dev_part_str = none ∨ dev_part_str = some [] ∨
            dev_part_str = some "-".toList then env.env_get "bootdevice".toList
          else dev_part_str) = x at h hdv
        cases x with
        | none =>
          have h' : (0 : Int) ≤ -ENODEV := h
          exact absurd h' (by decide)
        | some s =>
          exact resolve_dev_part_str_nonneg_log2 env ifname s dd info allow dv hmax hdv h
  · intro D S dd info allow r d part hh hu hD hr h0 hn hns hneg
    rw [blk_get_device_part_str_colon env ifname D S dd info allow hh hu hD r d hr h0, hn]
      at hneg ⊢
    simp only at hneg ⊢
    rw [resolve_part_error_dev env d part info allow hns hneg]
  · intro D S dd info allow r d hh hu hD hr h0 hn
    rw [blk_get_device_part_str_colon env ifname D S dd info allow hh hu hD r d hr h0, hn]

/-- Witness of C19: on a disk with entries 1 and 2, "0:1" succeeds and the
device handed back has `log2blksz = LOG2 512`; "0:7" fails and the device is
handed back unchanged. -/
theorem log2_cache_witness :
    ({ sample_disk 0 2 64000 with log2blksz := 9 } : blk_desc).log2blksz =
      LOG2 ({ sample_disk 0 2 64000 with log2blksz := 9 } : blk_desc).blksz ∧
    (blk_get_device_part_str (sample_env (sample_disk 0 2 64000) table_no_boot) "usb".toList
        (some ("0".toList ++ ':' :: "7".toList)) none zero_info 1).2.1 =
      some (sample_disk 0 2 64000) ∧
    (blk_get_device_part_str (sample_env (sample_disk 0 2 64000) table_no_boot) "usb".toList
        (some "0:7".toList) none zero_info 1).1 = -ENOENT :=
  ⟨(log2_cache (sample_env (sample_disk 0 2 64000) table_no_boot) "usb".toList
      (by decide)).1 (some "0:1".toList) none zero_info 1
      { sample_disk 0 2 64000 with log2blksz := 9 } (by decide) (by decide),
    (log2_cache (sample_env (sample_disk 0 2 64000) table_no_boot) "usb".toList
      (by decide)).2.1 "0".toList "7".toList none zero_info 1 0 (sample_disk 0 2 64000) 7
      (by decide) (by decide) (by decide) (by decide) (by decide) (by decide) (by decide)
      (by decide),
    by decide⟩

/-! ## Classification and the no-partition-table path -/

/-- The loop of `part_init` stops at the first driver whose test succeeds. -/
theorem part_init_loop_first (pre : List part_driver) (e : part_driver)
    (post : List part_driver) (dev : blk_desc)
    (hpre : ∀ x ∈ pre, x.test dev ≠ 0) (he : e.test dev = 0) :
    part_init_loop (pre ++ e :: post) dev = { dev with part_type := e.part_type } := by
  induction pre with
  | nil => simp [part_init_loop, he]
  | cons x xs ih =>
    have hx : x.test dev ≠ 0 := hpre x (List.mem_cons_self _ _)
    have hxs : ∀ y ∈ xs, y.test dev ≠ 0 := fun y hy => hpre y (List.mem_cons_of_mem _ hy)
    simp [part_init_loop, hx, ih hxs]

/-- Lines 601-606 and 650-661: an explicit partition number from 1 on, on a
classified device. -/
theorem resolve_part_explicit (env : Env) (d : blk_desc) (n : Int) (info : disk_partition)
    (allow : Int) (ht : d.part_type ≠ PART_TYPE_UNKNOWN) (hn : 0 < n) :
    resolve_part env d n info allow =
      if (part_get_info env d n info).1 ≠ 0 then part_get_info env d n info
      else check_part_type env (part_get_info env d n info).2.1 n
        (part_get_info env d n info).2.2 := by
  have h1 : ¬ (d.part_type = PART_TYPE_UNKNOWN ∨ n = 0) := by
    rintro (h | h)
    · exact ht h
    · omega
  have h2 : ¬ (n = PART_UNSPECIFIED) := by
    intro h; rw [h] at hn; exact absurd hn (by decide)
  have h3 : n ≠ PART_AUTO := by
    intro h; rw [h] at hn; exact absurd hn (by decide)
  unfold resolve_part
  rw [if_neg h1]
  simp only [if_neg h2]
  rw [if_pos h3]

/-- C20, as the code has it. `blk_get_device_part_str` decides "no partition
table" from the format tag on the descriptor that the device lookup hands
back, and the device lookup runs the classification (`part_init`) for MMC
devices only. The device string D parses to the device number `dev >= 0` and
the hardware partition `hwpart`, `get_dev_hwpart` gives the device `d0`, whose
device type is not `DEV_TYPE_UNKNOWN`, and S is an explicit partition number
`n >= 1`. (1) If `d0` is an MMC device and
`e` is the first registered driver whose test accepts it (tag of `e` not
UNKNOWN, no driver before `e` with the same tag, `e` has `get_info`), the
device is re-classified to the tag of `e` and "D:S" is resolved through
`get_info` of `e`: `-ENOENT` if it fails for `n`, else the type check on the
entry it returned. (2) If `d0` is not an MMC device, its cached tag is
UNKNOWN and its capacity is not 0, "D:S" returns `-EPROTONOSUPPORT`,
whatever the drivers' tests would say. -/
theorem no_table_path_uses_cached_tag (env : Env) (ifname D S : CStr)
    (dd : Option blk_desc) (info : disk_partition) (allow : Int) (dev hwpart : Int)
    (d0 : blk_desc)
    (hh : env.cfg_hostfs = true → ifname ≠ "hostfs".toList)
    (hu : env.cfg_ubifs = true → ifname ≠ "ubi".toList)
    (hD : ':' ∉ D)
    (hparse : blk_get_device_by_str env ifname D dd =
      blk_get_device_by_str_lookup env ifname dev hwpart)
    (hdev : 0 ≤ dev)
    (hget : get_dev_hwpart env ifname dev hwpart = some d0)
    (hty : d0.type ≠ env.DEV_TYPE_UNKNOWN)
    (hS1 : S ≠ []) (hS2 : S ≠ "auto".toList) (hS3 : (env.hextoul S).2 = [])
    (hS4 : 0 < ulong_to_int (env.hextoul S).1) :
    (d0.if_type = if_type_t.IF_TYPE_MMC →
      ∀ (pre : List part_driver) (e : part_driver) (post : List part_driver)
        (g : get_info_fn),
        env.drivers = pre ++ e :: post →
        (∀ x ∈ pre, x.test { d0 with part_type := PART_TYPE_UNKNOWN } ≠ 0) →
        e.test { d0 with part_type := PART_TYPE_UNKNOWN } = 0 →
        e.part_type ≠ PART_TYPE_UNKNOWN →
        (∀ x ∈ pre, x.part_type ≠ e.part_type) →
        e.get_info = some g →
        blk_get_device_part_str env ifname (some (D ++ ':' :: S)) dd info allow =
          (if (g { d0 with part_type := e.part_type } (ulong_to_int (env.hextoul S).1)
                (clear_optional_fields env info)).1 = 0 then
            ((check_part_type env { d0 with part_type := e.part_type }
                (ulong_to_int (env.hextoul S).1)
                (g { d0 with part_type := e.part_type } (ulong_to_int (env.hextoul S).1)
                  (clear_optional_fields env info)).2).1,
              some (check_part_type env { d0 with part_type := e.part_type }
                (ulong_to_int (env.hextoul S).1)
                (g { d0 with part_type := e.part_type } (ulong_to_int (env.hextoul S).1)
                  (clear_optional_fields env info)).2).2.1,
              (g { d0 with part_type := e.part_type } (ulong_to_int (env.hextoul S).1)
                (clear_optional_fields env info)).2)
          else
            (-ENOENT, some { d0 with part_type := e.part_type },
              (g { d0 with part_type := e.part_type } (ulong_to_int (env.hextoul S).1)
                (clear_optional_fields env info)).2))) ∧
    (d0.if_type ≠ if_type_t.IF_TYPE_MMC → d0.part_type = PART_TYPE_UNKNOWN → d0.lba ≠ 0 →
      blk_get_device_part_str env ifname (some (D ++ ':' :: S)) dd info allow =
        (-EPROTONOSUPPORT, some d0, info)) := by
  have hne : ulong_to_int (env.hextoul S).1 ≠ 0 := by omega
  have hnum := part_str_to_number_explicit env S allow hS1 hS2 hS3 (Or.inl hne)
  constructor
  · intro hmmc pre e post g hsplit hpre he hetag hpretag hg
    have hinit : part_init env d0 = { d0 with part_type := e.part_type } := by
      simp only [part_init, hsplit]
      exact part_init_loop_first pre e post _ hpre he
    have hr : blk_get_device_by_str env ifname D dd =
        (dev, some { d0 with part_type := e.part_type }) := by
      rw [hparse]
      simp only [blk_get_device_by_str_lookup, hget, if_neg hty, if_pos hmmc, hinit]
    have ht : ({ d0 with part_type := e.part_type } : blk_desc).part_type ≠
        PART_TYPE_UNKNOWN := hetag
    have hd : (part_driver_lookup_type env { d0 with part_type := e.part_type }).1 =
        some e := by
      simp only [part_driver_lookup_type, if_neg ht, hsplit]
      exact lookup_by_tag_first pre e post _ hpretag rfl
    rw [blk_get_device_part_str_colon env ifname D S dd info allow hh hu hD dev _ hr hdev,
      hnum]
    simp only [resolve_part_explicit env _ _ info allow ht hS4,
      part_get_info_known env _ _ info e g ht hd hg]
    by_cases hq : (g { d0 with part_type := e.part_type } (ulong_to_int (env.hextoul S).1)
        (clear_optional_fields env info)).1 = 0
    · simp only [hq, if_true, ne_eq, not_true_eq_false, if_false]
      rw [show (check_part_type env { d0 with part_type := e.part_type }
          (ulong_to_int (env.hextoul S).1)
          (g { d0 with part_type := e.part_type } (ulong_to_int (env.hextoul S).1)
            (clear_optional_fields env info)).2).2.2 =
          (g { d0 with part_type := e.part_type } (ulong_to_int (env.hextoul S).1)
            (clear_optional_fields env info)).2 by
        rw [check_part_type_eq]; split_ifs <;> rfl]
    · have hne2 : (-ENOENT : Int) ≠ 0 := by decide
      simp only [hq, if_false, ne_eq, hne2, not_false_eq_true, if_true]
  · intro hmmc hunk hl
    have hr : blk_get_device_by_str env ifname D dd = (dev, some d0) := by
      rw [hparse]
      simp only [blk_get_device_by_str_lookup, hget, if_neg hty, if_neg hmmc]
    rw [blk_get_device_part_str_colon env ifname D S dd info allow hh hu hD dev _ hr hdev,
      hnum]
    simp only [resolve_part_no_table env d0 _ info allow (Or.inl hunk) hl (Or.inl hS4)]

/-- Witness of C20: device 0 has the cached tag UNKNOWN and both drivers
accept it. On the interface "mmc" (an MMC device) "0:1" is resolved through
the first driver, tag 1, and gives partition 1; on the interface "usb" the
same disk gives `-EPROTONOSUPPORT`. -/
theorem no_table_path_uses_cached_tag_witness :
    blk_get_device_part_str
        (sample_mmc_env { sample_disk 0 0 64000 with if_type := if_type_t.IF_TYPE_MMC }
          table_no_boot)
        "mmc".toList (some ("0".toList ++ ':' :: "1".toList)) none zero_info 1 =
      (1,
        some { sample_disk 0 1 64000 with if_type := if_type_t.IF_TYPE_MMC, log2blksz := 9 },
        sample_entry 1 0 "U-Boot".toList) ∧
    blk_get_device_part_str (sample_env (sample_disk 0 0 64000) table_no_boot) "usb".toList
        (some ("0".toList ++ ':' :: "1".toList)) none zero_info 1 =
      (-EPROTONOSUPPORT, some (sample_disk 0 0 64000), zero_info) :=
  ⟨(no_table_path_uses_cached_tag
      (sample_mmc_env { sample_disk 0 0 64000 with if_type := if_type_t.IF_TYPE_MMC }
        table_no_boot)
      "mmc".toList "0".toList "1".toList none zero_info 1 0 0
      { sample_disk 0 0 64000 with if_type := if_type_t.IF_TYPE_MMC }
      (by decide) (by decide) (by decide) (by decide) (by decide) (by decide) (by decide)
      (by decide) (by decide) (by decide) (by decide)).1 (by decide) []
      (sample_driver "EFI".toList 1 0 table_no_boot)
      [sample_driver "DOS".toList 2 0 table_no_boot] (table_get_info table_no_boot)
      rfl (by simp) (by decide) (by decide) (by simp) rfl,
    (no_table_path_uses_cached_tag (sample_env (sample_disk 0 0 64000) table_no_boot)
      "usb".toList "0".toList "1".toList none zero_info 1 0 0 (sample_disk 0 0 64000)
      (by decide) (by decide) (by decide) (by decide) (by decide) (by decide) (by decide)
      (by decide) (by decide) (by decide) (by decide)).2 (by decide) (by decide)
      (by decide)⟩

/-- C20 as stated fails. A USB disk has the cached tag UNKNOWN; the
classification `part_driver_lookup_type` finds a driver for it (the test of
"EFI" accepts it) and that driver has an entry 1. Yet "0:1" is not resolved
through the driver: the call returns `-EPROTONOSUPPORT`. -/
theorem no_table_path_without_classification :
    (sample_disk 0 0 64000).part_type = PART_TYPE_UNKNOWN ∧
    (sample_disk 0 0 64000).if_type = if_type_t.IF_TYPE_USB ∧
    (part_driver_lookup_type (sample_env (sample_disk 0 0 64000) table_no_boot)
        (sample_disk 0 0 64000)).1.map (fun e => e.name) = some "EFI".toList ∧
    table_get_info table_no_boot (sample_disk 0 1 64000) 1 zero_info =
      (0, sample_entry 1 0 "U-Boot".toList) ∧
    blk_get_device_part_str (sample_env (sample_disk 0 0 64000) table_no_boot) "usb".toList
        (some "0:1".toList) none zero_info 1 =
      (-EPROTONOSUPPORT, some (sample_disk 0 0 64000), zero_info) := by
  decide

/-! ## The search does not read the type field -/

/-- Two runs of the search loop, possibly in two images and with two
different `get_info` methods, that start from the same index and the same
recorded choice, choose the same index and leave the loop at the same index
when the two methods agree on which indices are valid and which valid
entries are bootable. -/
theorem auto_search_pattern (env env2 : Env) (dev : blk_desc) (drv drv2 : part_driver)
    (g g2 : get_info_fn) (ht : dev.part_type ≠ PART_TYPE_UNKNOWN)
    (hd : (part_driver_lookup_type env dev).1 = some drv) (hg : drv.get_info = some g)
    (hd2 : (part_driver_lookup_type env2 dev).1 = some drv2) (hg2 : drv2.get_info = some g2)
    (n : Nat) :
    ∀ s s2 : auto_state, s.dev_desc = dev → s2.dev_desc = dev → s2.p = s.p →
      s2.part = s.part →
      (∀ j : Nat, j < n → ∀ buf buf2,
        ((g dev (s.p + j) buf).1 = 0 ↔ (g2 dev (s.p + j) buf2).1 = 0)) →
      (∀ j : Nat, j < n → ∀ buf buf2, (g dev (s.p + j) buf).1 = 0 →
        ((g dev (s.p + j) buf).2.bootable = 0 ↔ (g2 dev (s.p + j) buf2).2.bootable = 0)) →
      (auto_search env2 n s2).part = (auto_search env n s).part ∧
        (auto_search env2 n s2).p = (auto_search env n s).p := by
  induction n with
  | zero =>
    intro s s2 _ _ hp hpart _ _
    exact ⟨hpart, hp⟩
  | succ m ih =>
    intro s s2 hs hs2 hp hpart hv hb
    have e1 : ∀ j : Nat, s.p + 1 + (j : Int) = s.p + ((j + 1 : Nat) : Int) := by
      intro j; push_cast; ring
    have hv0 := hv 0 (by omega) (clear_optional_fields env s.info)
      (clear_optional_fields env2 s2.info)
    have hb0 := hb 0 (by omega) (clear_optional_fields env s.info)
      (clear_optional_fields env2 s2.info)
    simp only [Nat.cast_zero, add_zero] at hv0 hb0
    have hv' : ∀ j : Nat, j < m → ∀ buf buf2,
        ((g dev (s.p + 1 + j) buf).1 = 0 ↔ (g2 dev (s.p + 1 + j) buf2).1 = 0) := by
      intro j hj buf buf2; simp only [e1]; exact hv (j + 1) (by omega) buf buf2
    have hb' : ∀ j : Nat, j < m → ∀ buf buf2, (g dev (s.p + 1 + j) buf).1 = 0 →
        ((g dev (s.p + 1 + j) buf).2.bootable = 0 ↔
          (g2 dev (s.p + 1 + j) buf2).2.bootable = 0) := by
      intro j hj buf buf2; simp only [e1]; exact hb (j + 1) (by omega) buf buf2
    by_cases c : (g dev s.p (clear_optional_fields env s.info)).1 = 0
    · have c2 : (g2 dev s2.p (clear_optional_fields env2 s2.info)).1 = 0 := by
        rw [hp]; exact hv0.1 c
      by_cases b : (g dev s.p (clear_optional_fields env s.info)).2.bootable = 0
      · have b2 : (g2 dev s2.p (clear_optional_fields env2 s2.info)).2.bootable = 0 := by
          rw [hp]; exact (hb0 c).1 b
        rw [auto_search_plain_entry env dev drv g ht hd hg m s hs c b,
          auto_search_plain_entry env2 dev drv2 g2 ht hd2 hg2 m s2 hs2 c2 b2]
        exact ih _ _ rfl rfl (by show s2.p + 1 = s.p + 1; rw [hp])
          (by show (if s2.part = 0 then s2.p else s2.part) = (if s.part = 0 then s.p else s.part)
              rw [hp, hpart])
          hv' hb'
      · have b2 : (g2 dev s2.p (clear_optional_fields env2 s2.info)).2.bootable ≠ 0 := by
          rw [hp]; exact fun h => b ((hb0 c).2 h)
        rw [auto_search_bootable_entry env dev drv g ht hd hg m s hs c b,
          auto_search_bootable_entry env2 dev drv2 g2 ht hd2 hg2 m s2 hs2 c2 b2]
        exact ⟨hp, hp⟩
    · have c2 : (g2 dev s2.p (clear_optional_fields env2 s2.info)).1 ≠ 0 := by
        rw [hp]; exact fun h => c (hv0.2 h)
      rw [auto_search_absent env dev drv g ht hd hg m s hs c,
        auto_search_absent env2 dev drv2 g2 ht hd2 hg2 m s2 hs2 c2]
      exact ih _ _ rfl rfl (by show s2.p + 1 = s.p + 1; rw [hp]) hpart hv' hb'

/-- The selector "auto" on a classified device whose first valid bootable
entry is at `p`: the type check is made on what `get_info` returned for
`p`. -/
theorem resolve_part_auto_bootable (env : Env) (d : blk_desc) (info : disk_partition)
    (allow : Int) (drv : part_driver) (g : get_info_fn) (p : Nat)
    (ht : d.part_type ≠ PART_TYPE_UNKNOWN)
    (hd : (part_driver_lookup_type env d).1 = some drv) (hg : drv.get_info = some g)
    (hp1 : 1 ≤ p) (hp2 : p ≤ env.MAX_SEARCH_PARTITIONS)
    (hp : ∀ buf, (g d p buf).1 = 0 ∧ (g d p buf).2.bootable ≠ 0)
    (hlt : ∀ i : Nat, 1 ≤ i → i < p → ∀ buf,
      (g d i buf).1 ≠ 0 ∨ (g d i buf).2.bootable = 0) :
    ∃ buf, resolve_part env d PART_AUTO info allow =
      check_part_type env d (p : Int) (g d p buf).2 := by
  have ep : ∀ j : Nat, (1 : Int) + (j : Int) = ((j + 1 : Nat) : Int) := by
    intro j; push_cast; ring
  obtain ⟨k, rfl⟩ : ∃ k, p = k + 1 := ⟨p - 1, by omega⟩
  obtain ⟨buf, s1, s2, s3, s4⟩ := auto_search_first_bootable env d drv g ht hd hg k
    env.MAX_SEARCH_PARTITIONS
    { ret := env.ret_indeterminate, part := 0, p := 1, info := info,
      tmpinfo := env.tmpinfo_indeterminate, dev_desc := d } (by omega) rfl
    (by intro buf; simp only [ep]; exact hp buf)
    (by intro j hj buf; simp only [ep]; exact hlt (j + 1) (by omega) (by omega) buf)
  simp only [ep] at s1 s2 s3
  have hne : ¬ (((k + 1 : Nat) : Int) = 0) := by omega
  have hnm : ¬ (((k + 1 : Nat) : Int) = (env.MAX_SEARCH_PARTITIONS : Int) + 1) := by omega
  refine ⟨buf, ?_⟩
  simp only [resolve_part_auto env d info allow ht, s1, s2, s3, s4, ne_eq, hne,
    not_false_eq_true, if_true, if_neg hnm]

/-- The selector "auto" on a classified device without a valid bootable
entry, whose first valid entry is at `f`: the type check is made on what
`get_info` returned for `f`. -/
theorem resolve_part_auto_fallback (env : Env) (d : blk_desc) (info : disk_partition)
    (allow : Int) (drv : part_driver) (g : get_info_fn) (f : Nat)
    (ht : d.part_type ≠ PART_TYPE_UNKNOWN)
    (hd : (part_driver_lookup_type env d).1 = some drv) (hg : drv.get_info = some g)
    (hf1 : 1 ≤ f) (hf2 : f ≤ env.MAX_SEARCH_PARTITIONS)
    (hf : ∀ buf, (g d f buf).1 = 0)
    (hlt : ∀ i : Nat, 1 ≤ i → i < f → ∀ buf, (g d i buf).1 ≠ 0)
    (hnb : ∀ i : Nat, 1 ≤ i → i ≤ env.MAX_SEARCH_PARTITIONS → ∀ buf,
      (g d i buf).1 ≠ 0 ∨ (g d i buf).2.bootable = 0) :
    ∃ buf, resolve_part env d PART_AUTO info allow =
      check_part_type env d (f : Int) (g d f buf).2 := by
  have ep : ∀ j : Nat, (1 : Int) + (j : Int) = ((j + 1 : Nat) : Int) := by
    intro j; push_cast; ring
  obtain ⟨k, rfl⟩ : ∃ k, f = k + 1 := ⟨f - 1, by omega⟩
  obtain ⟨buf, s1, s2, s3, s4⟩ := auto_search_first_valid env d drv g ht hd hg k
    env.MAX_SEARCH_PARTITIONS
    { ret := env.ret_indeterminate, part := 0, p := 1, info := info,
      tmpinfo := env.tmpinfo_indeterminate, dev_desc := d } (by omega) rfl rfl
    (by show (0 : Int) < 1; omega)
    (by intro buf; simp only [ep]; exact hf buf)
    (by intro j hj buf; simp only [ep]; exact hlt (j + 1) (by omega) (by omega) buf)
    (by intro j hj buf; simp only [ep]; exact hnb (j + 1) (by omega) (by omega) buf)
  simp only [ep] at s1 s3
  have s2' : (auto_search env env.MAX_SEARCH_PARTITIONS
      { ret := env.ret_indeterminate, part := 0, p := 1, info := info,
        tmpinfo := env.tmpinfo_indeterminate, dev_desc := d }).p =
      (env.MAX_SEARCH_PARTITIONS : Int) + 1 := by
    rw [s2]; ring
  have hne : ¬ (((k + 1 : Nat) : Int) = 0) := by omega
  refine ⟨buf, ?_⟩
  simp only [resolve_part_auto env d info allow ht, s1, s2', s3, s4, ne_eq, hne,
    not_false_eq_true, if_true]

/-- C21. The search of lines 612-636 does not read the type field. The
device string D gives a classified device `d` whose driver has the `get_info`
method `g`. (1) The index chosen, the variable `part` when the loop is left,
is the same in any other image whose method `g2` for this device agrees with
`g` on which indices of `1 .. MAX_SEARCH_PARTITIONS` are valid and on which
valid entries are bootable; nothing is asked of the type fields, nor of the
other fields, of the entries of `g2`. (2) When `p` is the first valid
bootable entry and its type fails the comparison with `BOOT_PART_TYPE`,
"D:auto" returns `-EINVAL`, whatever the other entries hold. (3) When no
valid entry is bootable, `f` is the first valid entry and its type fails the
comparison, "D:auto" returns `-EINVAL`, whatever the other entries hold. -/
theorem auto_search_ignores_type (env : Env) (ifname D : CStr)
    (dd : Option blk_desc) (info : disk_partition) (allow : Int) (r : Int) (d : blk_desc)
    (drv : part_driver) (g : get_info_fn)
    (hh : env.cfg_hostfs = true → ifname ≠ "hostfs".toList)
    (hu : env.cfg_ubifs = true → ifname ≠ "ubi".toList)
    (hD : ':' ∉ D)
    (hr : blk_get_device_by_str env ifname D dd = (r, some d)) (h0 : 0 ≤ r)
    (ht : d.part_type ≠ PART_TYPE_UNKNOWN)
    (hd : (part_driver_lookup_type env d).1 = some drv) (hg : drv.get_info = some g) :
    (∀ (env2 : Env) (drv2 : part_driver) (g2 : get_info_fn) (info2 : disk_partition),
      env2.MAX_SEARCH_PARTITIONS = env.MAX_SEARCH_PARTITIONS →
      (part_driver_lookup_type env2 d).1 = some drv2 → drv2.get_info = some g2 →
      (∀ i : Nat, 1 ≤ i → i ≤ env.MAX_SEARCH_PARTITIONS → ∀ buf buf2,
        ((g d i buf).1 = 0 ↔ (g2 d i buf2).1 = 0)) →
      (∀ i : Nat, 1 ≤ i → i ≤ env.MAX_SEARCH_PARTITIONS → ∀ buf buf2, (g d i buf).1 = 0 →
        ((g d i buf).2.bootable = 0 ↔ (g2 d i buf2).2.bootable = 0)) →
      (auto_search env2 env2.MAX_SEARCH_PARTITIONS
          { ret := env2.ret_indeterminate, part := 0, p := 1, info := info2,
            tmpinfo := env2.tmpinfo_indeterminate, dev_desc := d }).part =
        (auto_search env env.MAX_SEARCH_PARTITIONS
          { ret := env.ret_indeterminate, part := 0, p := 1, info := info,
            tmpinfo := env.tmpinfo_indeterminate, dev_desc := d }).part) ∧
    (∀ p : Nat, 1 ≤ p → p ≤ env.MAX_SEARCH_PARTITIONS →
      (∀ buf, (g d p buf).1 = 0 ∧ (g d p buf).2.bootable ≠ 0 ∧
        strncmp_eq (g d p buf).2.type env.BOOT_PART_TYPE env.PART_TYPE_LEN = false) →
      (∀ i : Nat, 1 ≤ i → i < p → ∀ buf,
        (g d i buf).1 ≠ 0 ∨ (g d i buf).2.bootable = 0) →
      (blk_get_device_part_str env ifname (some (D ++ ':' :: "auto".toList)) dd info
        allow).1 = -EINVAL) ∧
    (∀ f : Nat, 1 ≤ f → f ≤ env.MAX_SEARCH_PARTITIONS →
      (∀ buf, (g d f buf).1 = 0 ∧
        strncmp_eq (g d f buf).2.type env.BOOT_PART_TYPE env.PART_TYPE_LEN = false) →
      (∀ i : Nat, 1 ≤ i → i < f → ∀ buf, (g d i buf).1 ≠ 0) →
      (∀ i : Nat, 1 ≤ i → i ≤ env.MAX_SEARCH_PARTITIONS → ∀ buf,
        (g d i buf).1 ≠ 0 ∨ (g d i buf).2.bootable = 0) →
      (blk_get_device_part_str env ifname (some (D ++ ':' :: "auto".toList)) dd info
        allow).1 = -EINVAL) := by
  have ep : ∀ j : Nat, (1 : Int) + (j : Int) = ((j + 1 : Nat) : Int) := by
    intro j; push_cast; ring
  refine ⟨?_, ?_, ?_⟩
  · intro env2 drv2 g2 info2 hmax hd2 hg2 hv hb
    rw [hmax]
    exact (auto_search_pattern env env2 d drv drv2 g g2 ht hd hg hd2 hg2
      env.MAX_SEARCH_PARTITIONS
      { ret := env.ret_indeterminate, part := 0, p := 1, info := info,
        tmpinfo := env.tmpinfo_indeterminate, dev_desc := d }
      { ret := env2.ret_indeterminate, part := 0, p := 1, info := info2,
        tmpinfo := env2.tmpinfo_indeterminate, dev_desc := d } rfl rfl rfl rfl
      (by intro j hj buf buf2
          show (g d (1 + (j : Int)) buf).1 = 0 ↔ (g2 d (1 + (j : Int)) buf2).1 = 0
          simp only [ep]; exact hv (j + 1) (by omega) (by omega) buf buf2)
      (by intro j hj buf buf2
          show (g d (1 + (j : Int)) buf).1 = 0 →
            ((g d (1 + (j : Int)) buf).2.bootable = 0 ↔
              (g2 d (1 + (j : Int)) buf2).2.bootable = 0)
          simp only [ep]; exact hb (j + 1) (by omega) (by omega) buf buf2)).1
  · intro p hp1 hp2 hp hlt
    obtain ⟨buf, e⟩ := resolve_part_auto_bootable env d info allow drv g p ht hd hg hp1 hp2
      (fun buf => ⟨(hp buf).1, (hp buf).2.1⟩) hlt
    rw [blk_get_device_part_str_colon env ifname D _ dd info allow hh hu hD r d hr h0,
      part_str_to_number_auto]
    simp only [e, check_part_type, (hp buf).2.2, if_true]
  · intro f hf1 hf2 hf hlt hnb
    obtain ⟨buf, e⟩ := resolve_part_auto_fallback env d info allow drv g f ht hd hg hf1 hf2
      (fun buf => (hf buf).1) hlt hnb
    rw [blk_get_device_part_str_colon env ifname D _ dd info allow hh hu hD r d hr h0,
      part_str_to_number_auto]
    simp only [e, check_part_type, (hf buf).2, if_true]

/-- Witness of C21. The tables `table_other_type` and `table_no_boot` have
valid entries at 1 and 2, none bootable, and differ in the type of entry 1:
the search chooses the same index in both, and "0:auto" returns `-EINVAL` in
the first (entry 1 has type "Linux") although entry 2 is valid with the type
"U-Boot" ("0:2" returns 2), and 1 in the second. In `table_boot_other_type`
the first bootable entry, 2, has type "Linux": "0:auto" returns `-EINVAL`
although the entries 1 and 3 have type "U-Boot". -/
theorem auto_search_ignores_type_witness :
    (auto_search (sample_env (sample_disk 0 2 64000) table_no_boot)
        (sample_env (sample_disk 0 2 64000) table_no_boot).MAX_SEARCH_PARTITIONS
        { ret := (sample_env (sample_disk 0 2 64000) table_no_boot).ret_indeterminate,
          part := 0, p := 1, info := zero_info,
          tmpinfo := (sample_env (sample_disk 0 2 64000) table_no_boot).tmpinfo_indeterminate,
          dev_desc := sample_disk 0 2 64000 }).part =
      (auto_search (sample_env (sample_disk 0 2 64000) table_other_type)
        (sample_env (sample_disk 0 2 64000) table_other_type).MAX_SEARCH_PARTITIONS
        { ret := (sample_env (sample_disk 0 2 64000) table_other_type).ret_indeterminate,
          part := 0, p := 1, info := zero_info,
          tmpinfo :=
            (sample_env (sample_disk 0 2 64000) table_other_type).tmpinfo_indeterminate,
          dev_desc := sample_disk 0 2 64000 }).part ∧
    (blk_get_device_part_str (sample_env (sample_disk 0 2 64000) table_boot_other_type)
        "usb".toList (some ("0".toList ++ ':' :: "auto".toList)) none zero_info 1).1 =
      -EINVAL ∧
    (blk_get_device_part_str (sample_env (sample_disk 0 2 64000) table_other_type)
        "usb".toList (some ("0".toList ++ ':' :: "auto".toList)) none zero_info 1).1 =
      -EINVAL ∧
    blk_get_device_part_str (sample_env (sample_disk 0 2 64000) table_other_type)
        "usb".toList (some "0:2".toList) none zero_info 1 =
      (2, some { sample_disk 0 2 64000 with log2blksz := 9 },
        sample_entry 2 0 "U-Boot".toList) ∧
    (blk_get_device_part_str (sample_env (sample_disk 0 2 64000) table_no_boot)
        "usb".toList (some "0:auto".toList) none zero_info 1).1 = 1 ∧
    (blk_get_device_part_str (sample_env (sample_disk 0 2 64000) table_boot_other_type)
        "usb".toList (some "0:3".toList) none zero_info 1).1 = 3 :=
  ⟨(auto_search_ignores_type (sample_env (sample_disk 0 2 64000) table_other_type)
      "usb".toList "0".toList none zero_info 1 0 (sample_disk 0 2 64000)
      (sample_driver "DOS".toList 2 0 table_other_type) (table_get_info table_other_type)
      (by decide) (by decide) (by decide) (by decide) (by decide) (by decide) rfl rfl).1
      (sample_env (sample_disk 0 2 64000) table_no_boot)
      (sample_driver "DOS".toList 2 0 table_no_boot) (table_get_info table_no_boot)
      zero_info rfl rfl rfl
      (fun i _ _ _ _ => by
        by_cases h : i = 1 ∨ i = 2
        · rcases h with rfl | rfl <;> exact ⟨fun _ => rfl, fun _ => rfl⟩
        · have h3 : ¬ ((i : Int) = 1 ∨ (i : Int) = 2) := by omega
          have h4 : table_no_boot (i : Int) = none := if_neg h3
          have h5 : table_other_type (i : Int) = none := by
            unfold table_other_type
            rw [if_neg (fun e => h3 (Or.inl e)), if_neg (fun e => h3 (Or.inr e))]
          simp only [table_get_info, h4, h5])
      (fun i _ _ _ _ hv => by
        by_cases h : i = 1 ∨ i = 2
        · rcases h with rfl | rfl <;> exact ⟨fun _ => rfl, fun _ => rfl⟩
        · have h3 : ¬ ((i : Int) = 1 ∨ (i : Int) = 2) := by omega
          have h5 : table_other_type (i : Int) = none := by
            unfold table_other_type
            rw [if_neg (fun e => h3 (Or.inl e)), if_neg (fun e => h3 (Or.inr e))]
          simp only [table_get_info, h5] at hv
          exact absurd hv (by decide)),
    (auto_search_ignores_type (sample_env (sample_disk 0 2 64000) table_boot_other_type)
      "usb".toList "0".toList none zero_info 1 0 (sample_disk 0 2 64000)
      (sample_driver "DOS".toList 2 0 table_boot_other_type)
      (table_get_info table_boot_other_type)
      (by decide) (by decide) (by decide) (by decide) (by decide) (by decide) rfl rfl).2.1 2
      (by decide) (by decide)
      (fun _ => ⟨rfl, by show (1 : Int) ≠ 0; decide, rfl⟩)
      (fun i h1 h2 _ => by
        obtain rfl : i = 1 := by omega
        exact Or.inr rfl),
    (auto_search_ignores_type (sample_env (sample_disk 0 2 64000) table_other_type)
      "usb".toList "0".toList none zero_info 1 0 (sample_disk 0 2 64000)
      (sample_driver "DOS".toList 2 0 table_other_type) (table_get_info table_other_type)
      (by decide) (by decide) (by decide) (by decide) (by decide) (by decide) rfl rfl).2.2 1
      (by decide) (by decide)
      (fun _ => ⟨rfl, rfl⟩)
      (fun i h1 h2 _ => absurd h2 (by omega))
      (fun i _ _ _ => by
        by_cases h : i = 1 ∨ i = 2
        · rcases h with rfl | rfl <;> exact Or.inr rfl
        · left
          have h3 : ¬ ((i : Int) = 1 ∨ (i : Int) = 2) := by omega
          have h5 : table_other_type (i : Int) = none := by
            unfold table_other_type
            rw [if_neg (fun e => h3 (Or.inl e)), if_neg (fun e => h3 (Or.inr e))]
          simp only [table_get_info, h5]
          decide),
    by decide, by decide, by decide⟩

/-! ## Explicit partition numbers -/

/-- Lines 601-606 and 650-661: a partition number that is not 0 and not one
of the two selector values, on a classified device. -/
theorem resolve_part_index (env : Env) (d : blk_desc) (n : Int) (info : disk_partition)
    (allow : Int) (ht : d.part_type ≠ PART_TYPE_UNKNOWN) (hn0 : n ≠ 0)
    (hn1 : n ≠ PART_AUTO) (hn2 : n ≠ PART_UNSPECIFIED) :
    resolve_part env d n info allow =
      if (part_get_info env d n info).1 ≠ 0 then part_get_info env d n info
      else check_part_type env (part_get_info env d n info).2.1 n
        (part_get_info env d n info).2.2 := by
  have h1 : ¬ (d.part_type = PART_TYPE_UNKNOWN ∨ n = 0) := by
    rintro (h | h)
    · exact ht h
    · exact hn0 h
  unfold resolve_part
  rw [if_neg h1]
  simp only [if_neg hn2]
  rw [if_pos hn1]

/-- The resolution of "D:S" on a classified device whose driver has
`get_info`, when S is a number that is not 0 and not one of the two selector
values: one call of `get_info`, for that number. -/
theorem blk_get_device_part_str_index (env : Env) (ifname D S : CStr)
    (dd : Option blk_desc) (info : disk_partition) (allow : Int) (r : Int) (d : blk_desc)
    (drv : part_driver) (g : get_info_fn)
    (hh : env.cfg_hostfs = true → ifname ≠ "hostfs".toList)
    (hu : env.cfg_ubifs = true → ifname ≠ "ubi".toList)
    (hD : ':' ∉ D)
    (hr : blk_get_device_by_str env ifname D dd = (r, some d)) (h0 : 0 ≤ r)
    (ht : d.part_type ≠ PART_TYPE_UNKNOWN)
    (hd : (part_driver_lookup_type env d).1 = some drv) (hg : drv.get_info = some g)
    (hS1 : S ≠ []) (hS2 : S ≠ "auto".toList) (hS3 : (env.hextoul S).2 = [])
    (hn0 : ulong_to_int (env.hextoul S).1 ≠ 0)
    (hn1 : ulong_to_int (env.hextoul S).1 ≠ PART_AUTO)
    (hn2 : ulong_to_int (env.hextoul S).1 ≠ PART_UNSPECIFIED) :
    blk_get_device_part_str env ifname (some (D ++ ':' :: S)) dd info allow =
      if (g d (ulong_to_int (env.hextoul S).1) (clear_optional_fields env info)).1 ≠ 0 then
        (-ENOENT, some d,
          (g d (ulong_to_int (env.hextoul S).1) (clear_optional_fields env info)).2)
      else if strncmp_eq
          (g d (ulong_to_int (env.hextoul S).1) (clear_optional_fields env info)).2.type
          env.BOOT_PART_TYPE env.PART_TYPE_LEN = true then
        (ulong_to_int (env.hextoul S).1, some { d with log2blksz := LOG2 d.blksz },
          (g d (ulong_to_int (env.hextoul S).1) (clear_optional_fields env info)).2)
      else
        (-EINVAL, some d,
          (g d (ulong_to_int (env.hextoul S).1) (clear_optional_fields env info)).2) := by
  rw [blk_get_device_part_str_colon env ifname D S dd info allow hh hu hD r d hr h0,
    part_str_to_number_explicit env S allow hS1 hS2 hS3 (Or.inl hn0)]
  simp only [resolve_part_index env d _ info allow ht hn0 hn1 hn2,
    part_get_info_known env d _ info drv g ht hd hg, check_part_type_eq]
  by_cases c : (g d (ulong_to_int (env.hextoul S).1) (clear_optional_fields env info)).1 = 0
  · have h1 : ¬ ((0 : Int) ≠ 0) := by decide
    simp only [if_pos c, ne_eq, not_true_eq_false, if_false]
    split_ifs <;> rfl
  · have h1 : (-ENOENT : Int) ≠ 0 := by decide
    simp only [if_neg c, ne_eq, h1, not_false_eq_true, if_true, if_false]
    rw [if_pos c]

/-- Two partition IDs that lines 538-555 turn into the same number are
resolved alike. -/
theorem blk_get_device_part_str_same_number (env : Env) (ifname D S T : CStr)
    (dd : Option blk_desc) (info : disk_partition) (allow : Int) (hD : ':' ∉ D)
    (h : part_str_to_number env (some S) allow = part_str_to_number env (some T) allow) :
    blk_get_device_part_str env ifname (some (D ++ ':' :: S)) dd info allow =
      blk_get_device_part_str env ifname (some (D ++ ':' :: T)) dd info allow := by
  rw [blk_get_device_part_str_unfold env ifname _ dd info allow (append_sep_ne_nil D ':' S)
      (append_colon_ne_dash D S),
    blk_get_device_part_str_unfold env ifname _ dd info allow (append_sep_ne_nil D ':' T)
      (append_colon_ne_dash D T),
    resolve_dev_part_str_unfold_colon env ifname D S dd info allow hD,
    resolve_dev_part_str_unfold_colon env ifname D T dd info allow hD, h]

/-- C22, the general part and the failing inputs. The device string D gives
a classified device `d` whose driver has the `get_info` method `g`; the
partition ID S is not empty, is not "auto", and is read completely by
`hextoul`; `n` is the value read, converted to `int` (line 544).
(1) When `n` is not 0, not -1 and not -2, "D:S" is resolved by one call of
`get_info`, for the index `n`: `-ENOENT` when it fails, `n` when it succeeds
and the entry passes the type check, `-EINVAL` otherwise; a non-negative
return value is `n`; and the result is the same when the method is replaced
by one that answers differently for every index other than `n`.
(2) When `n` is -1, the value of `PART_AUTO`, "D:S" is resolved as "D:auto".
(3) When `n` is -2, the value of `PART_UNSPECIFIED`, "D:S" is resolved as
"D:", the unspecified selector. (4) The failing inputs: "ffffffff" and
"fffffffe" are read completely and become -1 and -2; on a disk with entries
at 1, 2, 3 (bootable), 4, -1 and -2, "0:ffffffff" returns 3 with the record
of entry 3, found by the search, and "0:fffffffe" returns 1 with the record
of entry 1. -/
theorem explicit_selector_used_exactly (env : Env) (ifname D S : CStr)
    (dd : Option blk_desc) (info : disk_partition) (allow : Int) (r : Int) (d : blk_desc)
    (drv : part_driver) (g : get_info_fn)
    (hh : env.cfg_hostfs = true → ifname ≠ "hostfs".toList)
    (hu : env.cfg_ubifs = true → ifname ≠ "ubi".toList)
    (hD : ':' ∉ D)
    (hr : blk_get_device_by_str env ifname D dd = (r, some d)) (h0 : 0 ≤ r)
    (ht : d.part_type ≠ PART_TYPE_UNKNOWN)
    (hd : (part_driver_lookup_type env d).1 = some drv) (hg : drv.get_info = some g)
    (hS1 : S ≠ []) (hS2 : S ≠ "auto".toList) (hS3 : (env.hextoul S).2 = []) :
    (ulong_to_int (env.hextoul S).1 ≠ 0 → ulong_to_int (env.hextoul S).1 ≠ PART_AUTO →
      ulong_to_int (env.hextoul S).1 ≠ PART_UNSPECIFIED →
      blk_get_device_part_str env ifname (some (D ++ ':' :: S)) dd info allow =
        (if (g d (ulong_to_int (env.hextoul S).1) (clear_optional_fields env info)).1 ≠ 0 then
          (-ENOENT, some d,
            (g d (ulong_to_int (env.hextoul S).1) (clear_optional_fields env info)).2)
        else if strncmp_eq
            (g d (ulong_to_int (env.hextoul S).1) (clear_optional_fields env info)).2.type
            env.BOOT_PART_TYPE env.PART_TYPE_LEN = true then
          (ulong_to_int (env.hextoul S).1, some { d with log2blksz := LOG2 d.blksz },
            (g d (ulong_to_int (env.hextoul S).1) (clear_optional_fields env info)).2)
        else
          (-EINVAL, some d,
            (g d (ulong_to_int (env.hextoul S).1) (clear_optional_fields env info)).2)) ∧
      (0 ≤ (blk_get_device_part_str env ifname (some (D ++ ':' :: S)) dd info allow).1 →
        (blk_get_device_part_str env ifname (some (D ++ ':' :: S)) dd info allow).1 =
          ulong_to_int (env.hextoul S).1) ∧
      (∀ other : get_info_fn,
        blk_get_device_part_str
            (set_get_info
              (fun x => x.get_info.map (get_info_at (ulong_to_int (env.hextoul S).1) other))
              env)
            ifname (some (D ++ ':' :: S)) dd info allow =
          blk_get_device_part_str env ifname (some (D ++ ':' :: S)) dd info allow)) ∧
    (ulong_to_int (env.hextoul S).1 = PART_AUTO →
      blk_get_device_part_str env ifname (some (D ++ ':' :: S)) dd info allow =
        blk_get_device_part_str env ifname (some (D ++ ':' :: "auto".toList)) dd info
          allow) ∧
    (ulong_to_int (env.hextoul S).1 = PART_UNSPECIFIED →
      blk_get_device_part_str env ifname (some (D ++ ':' :: S)) dd info allow =
        blk_get_device_part_str env ifname (some (D ++ ':' :: [])) dd info allow) ∧
    ((hextoul "ffffffff".toList).2 = [] ∧ ulong_to_int (hextoul "ffffffff".toList).1 = -1 ∧
      (hextoul "fffffffe".toList).2 = [] ∧ ulong_to_int (hextoul "fffffffe".toList).1 = -2 ∧
      table_get_info table_sentinels (sample_disk 0 2 64000) (-1) zero_info =
        (0, named_entry 5 "minus one".toList) ∧
      table_get_info table_sentinels (sample_disk 0 2 64000) (-2) zero_info =
        (0, named_entry 6 "minus two".toList) ∧
      blk_get_device_part_str (sample_env (sample_disk 0 2 64000) table_sentinels)
          "usb".toList (some "0:ffffffff".toList) none zero_info 1 =
        (3, some { sample_disk 0 2 64000 with log2blksz := 9 },
          sample_entry 3 1 "U-Boot".toList) ∧
      blk_get_device_part_str (sample_env (sample_disk 0 2 64000) table_sentinels)
          "usb".toList (some "0:fffffffe".toList) none zero_info 1 =
        (1, some { sample_disk 0 2 64000 with log2blksz := 9 },
          sample_entry 1 0 "U-Boot".toList)) := by
  refine ⟨?_, ?_, ?_, by decide⟩
  · intro hn0 hn1 hn2
    have key := blk_get_device_part_str_index env ifname D S dd info allow r d drv g hh hu hD
      hr h0 ht hd hg hS1 hS2 hS3 hn0 hn1 hn2
    refine ⟨key, ?_, ?_⟩
    · intro hpos
      rw [key] at hpos ⊢
      split_ifs at hpos ⊢ with c1 c2
      · exact absurd hpos (by show ¬ (0 ≤ -ENOENT); decide)
      · rfl
      · exact absurd hpos (by show ¬ (0 ≤ -EINVAL); decide)
    · intro other
      have hd2 : (part_driver_lookup_type
          (set_get_info
            (fun x => x.get_info.map (get_info_at (ulong_to_int (env.hextoul S).1) other))
            env) d).1 =
          some { drv with
            get_info :=
              drv.get_info.map (get_info_at (ulong_to_int (env.hextoul S).1) other) } := by
        rw [part_driver_lookup_type_set_get_info, hd]
        rfl
      have key2 := blk_get_device_part_str_index
        (set_get_info
          (fun x => x.get_info.map (get_info_at (ulong_to_int (env.hextoul S).1) other)) env)
        ifname D S dd info allow r d _
        (get_info_at (ulong_to_int (env.hextoul S).1) other g) hh hu hD
        (by rw [blk_get_device_by_str_set_get_info]; exact hr) h0 ht hd2
        (by show drv.get_info.map _ = _; rw [hg]; rfl) hS1 hS2 hS3 hn0 hn1 hn2
      rw [key, key2]
      have e : ∀ buf, get_info_at (ulong_to_int (env.hextoul S).1) other g d
          (ulong_to_int (env.hextoul S).1) buf =
          g d (ulong_to_int (env.hextoul S).1) buf := by
        intro buf
        simp only [get_info_at, if_true]
      have e2 : ulong_to_int ((set_get_info
          (fun x => x.get_info.map (get_info_at (ulong_to_int (env.hextoul S).1) other))
          env).hextoul S).1 = ulong_to_int (env.hextoul S).1 := rfl
      simp only [e2, e]
      rfl
  · intro hn
    apply blk_get_device_part_str_same_number env ifname D S _ dd info allow hD
    rw [part_str_to_number_explicit env S allow hS1 hS2 hS3
      (Or.inl (by rw [hn]; decide)), part_str_to_number_auto, hn]
  · intro hn
    apply blk_get_device_part_str_same_number env ifname D S _ dd info allow hD
    rw [part_str_to_number_explicit env S allow hS1 hS2 hS3
      (Or.inl (by rw [hn]; decide)), hn]
    rfl

/-- Witness of C22: on the disk with entries 1, 2, 4 and the bootable entry
3, "0:2" returns 2, the value read from "2", with the record of entry 2, also
when the method answers nothing for the other indices; and "0:ffffffff" is
resolved as "0:auto". -/
theorem explicit_selector_used_exactly_witness :
    (blk_get_device_part_str (sample_env (sample_disk 0 2 64000) table_boot3) "usb".toList
        (some ("0".toList ++ ':' :: "2".toList)) none zero_info 1).1 =
      ulong_to_int ((sample_env (sample_disk 0 2 64000) table_boot3).hextoul "2".toList).1 ∧
    blk_get_device_part_str
        (set_get_info
          (fun x => x.get_info.map
            (get_info_at
              (ulong_to_int
                ((sample_env (sample_disk 0 2 64000) table_boot3).hextoul "2".toList).1)
              (table_get_info table_empty)))
          (sample_env (sample_disk 0 2 64000) table_boot3))
        "usb".toList (some ("0".toList ++ ':' :: "2".toList)) none zero_info 1 =
      blk_get_device_part_str (sample_env (sample_disk 0 2 64000) table_boot3) "usb".toList
        (some ("0".toList ++ ':' :: "2".toList)) none zero_info 1 ∧
    blk_get_device_part_str (sample_env (sample_disk 0 2 64000) table_boot3) "usb".toList
        (some ("0".toList ++ ':' :: "ffffffff".toList)) none zero_info 1 =
      blk_get_device_part_str (sample_env (sample_disk 0 2 64000) table_boot3) "usb".toList
        (some ("0".toList ++ ':' :: "auto".toList)) none zero_info 1 ∧
    blk_get_device_part_str (sample_env (sample_disk 0 2 64000) table_boot3) "usb".toList
        (some "0:2".toList) none zero_info 1 =
      (2, some { sample_disk 0 2 64000 with log2blksz := 9 },
        sample_entry 2 0 "U-Boot".toList) :=
  ⟨((explicit_selector_used_exactly (sample_env (sample_disk 0 2 64000) table_boot3)
      "usb".toList "0".toList "2".toList none zero_info 1 0 (sample_disk 0 2 64000)
      (sample_driver "DOS".toList 2 0 table_boot3) (table_get_info table_boot3)
      (by decide) (by decide) (by decide) (by decide) (by decide) (by decide) rfl rfl
      (by decide) (by decide) (by decide)).1 (by decide) (by decide) (by decide)).2.1
      (by decide),
    ((explicit_selector_used_exactly (sample_env (sample_disk 0 2 64000) table_boot3)
      "usb".toList "0".toList "2".toList none zero_info 1 0 (sample_disk 0 2 64000)
      (sample_driver "DOS".toList 2 0 table_boot3) (table_get_info table_boot3)
      (by decide) (by decide) (by decide) (by decide) (by decide) (by decide) rfl rfl
      (by decide) (by decide) (by decide)).1 (by decide) (by decide) (by decide)).2.2
      (table_get_info table_empty),
    (explicit_selector_used_exactly (sample_env (sample_disk 0 2 64000) table_boot3)
      "usb".toList "0".toList "ffffffff".toList none zero_info 1 0 (sample_disk 0 2 64000)
      (sample_driver "DOS".toList 2 0 table_boot3) (table_get_info table_boot3)
      (by decide) (by decide) (by decide) (by decide) (by decide) (by decide) rfl rfl
      (by decide) (by decide) (by decide)).2.1 (by decide),
    by decide⟩

/-! ## Scaled division -/

/-- The quotient and the remainder of line 118 and 119 when nothing wraps. -/
theorem lba512_bc_rem_eq (bc s : Nat) (hbc : bc < 2 ^ 64) :
    lba512_bc_quot bc s <<< s ≤ bc ∧ lba512_bc_rem bc s = bc % 2 ^ s := by
  have hq : lba512_bc_quot bc s <<< s = bc / 2 ^ s * 2 ^ s := by
    simp only [lba512_bc_quot, Nat.shiftLeft_eq, Nat.shiftRight_eq_div_pow]
  have hle : bc / 2 ^ s * 2 ^ s ≤ bc := Nat.div_mul_le_self bc (2 ^ s)
  have hmod : bc % 2 ^ s = bc - bc / 2 ^ s * 2 ^ s := by
    have := Nat.div_add_mod bc (2 ^ s)
    rw [Nat.mul_comm] at this
    omega
  refine ⟨by rw [hq]; exact hle, ?_⟩
  unfold lba512_bc_rem
  rw [hq, Nat.mod_eq_of_lt (lt_of_le_of_lt hle hbc), hmod]
  have h1 : bc + 2 ^ 64 - bc / 2 ^ s * 2 ^ s = (bc - bc / 2 ^ s * 2 ^ s) + 2 ^ 64 := by omega
  rw [h1, Nat.add_mod_right, Nat.mod_eq_of_lt (by omega)]

/-- The identity of line 117: `x * m / d = x / d * m + (x % d) * m / d`. -/
theorem muldiv_split (x m d : Nat) (hd : 0 < d) :
    x * m / d = x / d * m + x % d * m / d := by
  have h : x * m = x % d * m + x / d * m * d := by
    conv_lhs => rw [← Nat.div_add_mod x d]
    ring
  rw [h, Nat.add_mul_div_right _ _ hd]
  omega

/-- When the product of line 120 does not wrap, `lba512_muldiv` is the exact
scaled division. -/
theorem lba512_muldiv_exact (bc m : Nat) (s : Int) (hbc : bc < 2 ^ 64) (hs0 : 0 ≤ s)
    (hs : s < 64) (hm : m < 2 ^ s.toNat) (hrem : bc % 2 ^ s.toNat * m < 2 ^ 64) :
    lba512_muldiv bc m s = some (bc * m / 2 ^ s.toNat) ∧
      lba512_bc_quot bc s.toNat * m < 2 ^ 64 ∧
      lba512_bc_quot bc s.toNat * m + bc % 2 ^ s.toNat * m / 2 ^ s.toNat < 2 ^ 64 := by
  have hpos : 0 < 2 ^ s.toNat := Nat.two_pow_pos s.toNat
  have hq : lba512_bc_quot bc s.toNat = bc / 2 ^ s.toNat := by
    simp only [lba512_bc_quot, Nat.shiftRight_eq_div_pow]
  have hsplit := muldiv_split bc m (2 ^ s.toNat) hpos
  have htot : bc * m / 2 ^ s.toNat < 2 ^ 64 := by
    have h1 : bc * m ≤ bc * 2 ^ s.toNat := Nat.mul_le_mul_left bc (le_of_lt hm)
    have h2 : bc * m / 2 ^ s.toNat ≤ bc := by
      calc bc * m / 2 ^ s.toNat ≤ bc * 2 ^ s.toNat / 2 ^ s.toNat := Nat.div_le_div_right h1
        _ = bc := Nat.mul_div_cancel bc hpos
    omega
  have hqm : bc / 2 ^ s.toNat * m < 2 ^ 64 := by
    have : bc / 2 ^ s.toNat * m ≤ bc * m / 2 ^ s.toNat := by
      rw [hsplit]; exact Nat.le_add_right _ _
    omega
  refine ⟨?_, by rw [hq]; exact hqm, by rw [hq, ← hsplit]; exact htot⟩
  unfold lba512_muldiv
  rw [if_neg (by omega), (lba512_bc_rem_eq bc s.toNat hbc).2, hq,
    Nat.mod_eq_of_lt hqm, Nat.mod_eq_of_lt hrem, Nat.shiftRight_eq_div_pow, ← hsplit,
    Nat.mod_eq_of_lt htot]

/-- C23, as the code has it. (1) For every 64-bit `block_count`, every shift
count from 0 to 32 and every `mul_by` below `2 ^ right_shift`,
`lba512_muldiv` returns the quotient of `block_count * mul_by` by
`2 ^ right_shift` computed over the natural numbers, and nothing wraps on the
way: the shift and the subtraction of line 119, the two products and the sum
of line 120 have their exact values below `2 ^ 64`. (2) In particular for
`mul_by = 10` and `right_shift = 11`, the arguments of the one call of the
function, for every 64-bit `block_count`. (3) The value `mb` of `dev_print`
is that quotient for the number of 512-byte blocks, for every device. -/
theorem lba512_muldiv_scaled_division :
    (∀ (bc m : Nat) (s : Int), bc < 2 ^ 64 → 0 ≤ s → s ≤ 32 → m < 2 ^ s.toNat →
      lba512_muldiv bc m s = some (bc * m / 2 ^ s.toNat) ∧
        lba512_bc_quot bc s.toNat <<< s.toNat ≤ bc ∧
        lba512_bc_rem bc s.toNat * m < 2 ^ 64 ∧
        lba512_bc_quot bc s.toNat * m < 2 ^ 64 ∧
        lba512_bc_quot bc s.toNat * m + (lba512_bc_rem bc s.toNat * m) >>> s.toNat <
          2 ^ 64) ∧
    (∀ bc : Nat, bc < 2 ^ 64 →
      lba512_muldiv bc 10 11 = some (bc * 10 / 2048) ∧
        lba512_bc_quot bc 11 <<< 11 ≤ bc ∧
        lba512_bc_rem bc 11 * 10 < 2 ^ 64 ∧
        lba512_bc_quot bc 11 * 10 < 2 ^ 64 ∧
        lba512_bc_quot bc 11 * 10 + (lba512_bc_rem bc 11 * 10) >>> 11 < 2 ^ 64) ∧
    (∀ d : blk_desc,
      dev_print_mb d = some ((d.lba * (d.blksz / 512)) % 2 ^ 64 * 10 / 2048)) := by
  have gen : ∀ (bc m : Nat) (s : Int), bc < 2 ^ 64 → 0 ≤ s → s ≤ 32 → m < 2 ^ s.toNat →
      lba512_muldiv bc m s = some (bc * m / 2 ^ s.toNat) ∧
        lba512_bc_quot bc s.toNat <<< s.toNat ≤ bc ∧
        lba512_bc_rem bc s.toNat * m < 2 ^ 64 ∧
        lba512_bc_quot bc s.toNat * m < 2 ^ 64 ∧
        lba512_bc_quot bc s.toNat * m + (lba512_bc_rem bc s.toNat * m) >>> s.toNat <
          2 ^ 64 := by
    intro bc m s hbc hs0 hs hm
    have hpos : 0 < 2 ^ s.toNat := Nat.two_pow_pos s.toNat
    have hr := lba512_bc_rem_eq bc s.toNat hbc
    have hrem : bc % 2 ^ s.toNat * m < 2 ^ 64 := by
      have h1 : bc % 2 ^ s.toNat * m < 2 ^ s.toNat * 2 ^ s.toNat :=
        Nat.mul_lt_mul'' (Nat.mod_lt bc hpos) hm
      have h2 : 2 ^ s.toNat * 2 ^ s.toNat ≤ 2 ^ 64 := by
        rw [← Nat.pow_add]
        exact Nat.pow_le_pow_right (by decide) (by omega)
      omega
    have he := lba512_muldiv_exact bc m s hbc hs0 (by omega) hm hrem
    refine ⟨he.1, hr.1, by rw [hr.2]; exact hrem, he.2.1, ?_⟩
    rw [hr.2, Nat.shiftRight_eq_div_pow]
    exact he.2.2
  refine ⟨gen, ?_, ?_⟩
  · intro bc hbc
    exact gen bc 10 11 hbc (by decide) (by decide) (by decide)
  · intro d
    exact (gen ((d.lba * (d.blksz / 512)) % 2 ^ 64) 10 11 (Nat.mod_lt _ (by decide))
      (by decide) (by decide) (by decide)).1

/-- Witness of C23: a disk of 64000 blocks of 512 bytes has 31.2 megabytes,
`mb = 312`; and with the widest shift covered, 32, the block count
`2 ^ 64 - 1` and the multiplier `2 ^ 32 - 1` give the exact quotient. -/
theorem lba512_muldiv_scaled_division_witness :
    lba512_muldiv 64000 10 11 = some (64000 * 10 / 2048) ∧
    lba512_muldiv (2 ^ 64 - 1) (2 ^ 32 - 1) 32 =
      some ((2 ^ 64 - 1) * (2 ^ 32 - 1) / 2 ^ (32 : Int).toNat) ∧
    dev_print_mb (sample_disk 0 2 64000) = some 312 :=
  ⟨(lba512_muldiv_scaled_division.2.1 64000 (by decide)).1,
    (lba512_muldiv_scaled_division.1 (2 ^ 64 - 1) (2 ^ 32 - 1) 32 (by decide) (by decide)
      (by decide) (by decide)).1,
    by decide⟩

/-- C23 as stated fails: `right_shift = 33` and `mul_by = 2 ^ 32` satisfy
`2 ^ right_shift > mul_by`, and `block_count = 2 ^ 33 - 1` is a 64-bit value;
`bc_quot` is 0 and `bc_rem` is `2 ^ 33 - 1`, the product `bc_rem * mul_by` of
line 120 is `2 ^ 65 - 2 ^ 32`, which is not below `2 ^ 64`, and the function
returns `2 ^ 31 - 1` where the quotient over the natural numbers is
`2 ^ 32 - 1`. -/
theorem lba512_muldiv_wraps :
    (2 : Nat) ^ 33 - 1 < 2 ^ 64 ∧ (2 : Nat) ^ 32 < 2 ^ (33 : Int).toNat ∧
    lba512_bc_quot (2 ^ 33 - 1) 33 = 0 ∧
    lba512_bc_rem (2 ^ 33 - 1) 33 = 2 ^ 33 - 1 ∧
    lba512_bc_rem (2 ^ 33 - 1) 33 * 2 ^ 32 = 2 ^ 65 - 2 ^ 32 ∧
    ¬ (lba512_bc_rem (2 ^ 33 - 1) 33 * 2 ^ 32 < 2 ^ 64) ∧
    lba512_muldiv (2 ^ 33 - 1) (2 ^ 32) 33 = some (2 ^ 31 - 1) ∧
    (2 ^ 33 - 1) * 2 ^ 32 / 2 ^ (33 : Int).toNat = 2 ^ 32 - 1 ∧
    lba512_muldiv (2 ^ 33 - 1) (2 ^ 32) 33 ≠
      some ((2 ^ 33 - 1) * 2 ^ 32 / 2 ^ (33 : Int).toNat) := by
  decide

/-! ## A string with a '#' is never a device and partition number -/

/-- The digit loop of the model `hextoul` does not get past a '#'. -/
theorem hextoul_loop_hash : ∀ (u : CStr) (acc : Nat), '#' ∈ u → (hextoul_loop u acc).2 ≠ []
  | [], _, h => by simp at h
  | c :: cs, acc, h => by
    cases hc : hex_digit c with
    | none => simp [hextoul_loop, hc]
    | some v =>
      have hne : c ≠ '#' := by
        intro e
        rw [e] at hc
        have hn : hex_digit '#' = none := by decide
        rw [hn] at hc
        cases hc
      have hcs : '#' ∈ cs := by
        rcases List.mem_cons.1 h with e | e
        · exact absurd e.symm hne
        · exact e
      simp only [hextoul_loop, hc]
      exact hextoul_loop_hash cs _ hcs

/-- The model `hextoul` stops at a '#' at the latest. -/
theorem hextoul_hash (u : CStr) (h : '#' ∈ u) : (hextoul u).2 ≠ [] :=
  hextoul_loop_hash u 0 h

/-- A string with a '#' and without ':' is refused by the device lookup. -/
theorem blk_get_device_part_str_hash_plain (env : Env) (ifname s : CStr)
    (dd : Option blk_desc) (info : disk_partition) (allow : Int)
    (hh : env.cfg_hostfs = true → ifname ≠ "hostfs".toList)
    (hu : env.cfg_ubifs = true → ifname ≠ "ubi".toList)
    (hx : ∀ u : CStr, '#' ∈ u → (env.hextoul u).2 ≠ [])
    (hc : ':' ∉ s) (hs : '#' ∈ s) :
    blk_get_device_part_str env ifname (some s) dd info allow = (-EINVAL, dd, info) := by
  have hne : s ≠ [] := by
    intro e; rw [e] at hs; simp at hs
  have hnd : s ≠ "-".toList := by
    intro e; rw [e] at hs; exact absurd hs (by decide)
  rw [blk_get_device_part_str_some env ifname s dd info allow hh hu hne hnd,
    resolve_dev_part_str_unfold_plain env ifname s dd info allow hc,
    blk_get_device_by_str_hash env ifname s dd hx hs]
  rw [if_pos (by show -EINVAL < 0; decide)]

/-- A string with a '#' before its first ':' is refused by the device
lookup. -/
theorem blk_get_device_part_str_hash_dev (env : Env) (ifname D S : CStr)
    (dd : Option blk_desc) (info : disk_partition) (allow : Int)
    (hh : env.cfg_hostfs = true → ifname ≠ "hostfs".toList)
    (hu : env.cfg_ubifs = true → ifname ≠ "ubi".toList)
    (hx : ∀ u : CStr, '#' ∈ u → (env.hextoul u).2 ≠ [])
    (hD : ':' ∉ D) (hs : '#' ∈ D) :
    blk_get_device_part_str env ifname (some (D ++ ':' :: S)) dd info allow =
      (-EINVAL, dd, info) := by
  rw [blk_get_device_part_str_some env ifname _ dd info allow hh hu (append_sep_ne_nil D ':' S)
      (append_colon_ne_dash D S),
    resolve_dev_part_str_unfold_colon env ifname D S dd info allow hD,
    blk_get_device_by_str_hash env ifname D dd hx hs]
  rw [if_pos (by show -EINVAL < 0; decide)]

/-- A string with a '#' after its first ':' and none before it: the error of
the device lookup if it fails, else the partition ID is refused. -/
theorem blk_get_device_part_str_hash_part (env : Env) (ifname D S : CStr)
    (dd : Option blk_desc) (info : disk_partition) (allow : Int)
    (hh : env.cfg_hostfs = true → ifname ≠ "hostfs".toList)
    (hu : env.cfg_ubifs = true → ifname ≠ "ubi".toList)
    (hx : ∀ u : CStr, '#' ∈ u → (env.hextoul u).2 ≠ [])
    (hD : ':' ∉ D) (hs : '#' ∈ S) :
    blk_get_device_part_str env ifname (some (D ++ ':' :: S)) dd info allow =
      if (blk_get_device_by_str env ifname D dd).1 < 0 then
        ((blk_get_device_by_str env ifname D dd).1, (blk_get_device_by_str env ifname D dd).2,
          info)
      else (-ENOENT, (blk_get_device_by_str env ifname D dd).2, info) := by
  have hp : part_str_to_number env (some S) allow = none := by
    apply part_str_to_number_rejected
    · intro e; rw [e] at hs; simp at hs
    · intro e; rw [e] at hs; exact absurd hs (by decide)
    · exact Or.inl (hx _ hs)
  rw [blk_get_device_part_str_some env ifname _ dd info allow hh hu (append_sep_ne_nil D ':' S)
      (append_colon_ne_dash D S),
    resolve_dev_part_str_unfold_colon env ifname D S dd info allow hD]
  by_cases h1 : (blk_get_device_by_str env ifname D dd).1 < 0
  · rw [if_pos h1, if_pos h1]
  · rw [if_neg h1, if_neg h1]
    obtain ⟨d, hd⟩ := blk_get_device_by_str_device env ifname D dd (by omega)
    rw [hd]
    simp only [hp]

/-- On an interface that is not a pseudo-interface, a string with a '#' makes
`blk_get_device_part_str` fail, whatever `*dev_desc` and `*info` hold. -/
theorem blk_get_device_part_str_hash_neg (env : Env) (ifname s : CStr)
    (dd : Option blk_desc) (info : disk_partition) (allow : Int)
    (hh : env.cfg_hostfs = true → ifname ≠ "hostfs".toList)
    (hu : env.cfg_ubifs = true → ifname ≠ "ubi".toList)
    (hx : ∀ u : CStr, '#' ∈ u → (env.hextoul u).2 ≠ []) (hs : '#' ∈ s) :
    (blk_get_device_part_str env ifname (some s) dd info allow).1 < 0 := by
  by_cases hc : ':' ∈ s
  · obtain ⟨D, S, rfl, hD⟩ := List.eq_append_cons_of_mem hc
    by_cases h1 : '#' ∈ D
    · rw [blk_get_device_part_str_hash_dev env ifname D S dd info allow hh hu hx hD h1]
      show -EINVAL < 0; decide
    · have h2 : '#' ∈ S := by
        rcases List.mem_append.1 hs with h | h
        · exact absurd h h1
        · rcases List.mem_cons.1 h with e | e
          · exact absurd e (by decide)
          · exact e
      rw [blk_get_device_part_str_hash_part env ifname D S dd info allow hh hu hx hD h2]
      by_cases h3 : (blk_get_device_by_str env ifname D dd).1 < 0
      · rw [if_pos h3]; exact h3
      · rw [if_neg h3]
        show -ENOENT < 0; decide
  · rw [blk_get_device_part_str_hash_plain env ifname s dd info allow hh hu hx hc hs]
    show -EINVAL < 0; decide

/-- C24, as the code has it. On an interface that is not one of the
pseudo-interfaces, with a `hextoul` that never reads past a '#', and for a
string `s` with a '#' in it: (1) `blk_get_device_part_str` on `s` returns a
negative value, whatever `*dev_desc` and `*info` hold before the call.
(2) Without ':' in `s` the value is `-EINVAL`. (3) For `s` = "D:S", split at
its first ':': with a '#' in D the value is `-EINVAL`; with none in D, it is
the error of the device lookup on D when that lookup fails, and `-ENOENT`
when the lookup gives a device. (4) `part_get_info_by_dev_and_name_or_num`
on `s` returns a non-negative value if and only if the name lookup
`part_get_info_by_dev_and_name` does, and then it returns the result of the
name lookup. -/
theorem colon_fallback_never_rescues (env : Env) (ifname s : CStr)
    (dd : Option blk_desc) (info : disk_partition) (allow : Int)
    (hh : env.cfg_hostfs = true → ifname ≠ "hostfs".toList)
    (hu : env.cfg_ubifs = true → ifname ≠ "ubi".toList)
    (hx : ∀ u : CStr, '#' ∈ u → (env.hextoul u).2 ≠ []) (hs : '#' ∈ s) :
    (∀ (dd2 : Option blk_desc) (info2 : disk_partition),
      (blk_get_device_part_str env ifname (some s) dd2 info2 allow).1 < 0) ∧
    (':' ∉ s →
      blk_get_device_part_str env ifname (some s) dd info allow = (-EINVAL, dd, info)) ∧
    (∀ D S : CStr, s = D ++ ':' :: S → ':' ∉ D →
      ('#' ∈ D →
        blk_get_device_part_str env ifname (some s) dd info allow = (-EINVAL, dd, info)) ∧
      ('#' ∉ D → (blk_get_device_by_str env ifname D dd).1 < 0 →
        blk_get_device_part_str env ifname (some s) dd info allow =
          ((blk_get_device_by_str env ifname D dd).1,
            (blk_get_device_by_str env ifname D dd).2, info)) ∧
      ('#' ∉ D → 0 ≤ (blk_get_device_by_str env ifname D dd).1 →
        blk_get_device_part_str env ifname (some s) dd info allow =
          (-ENOENT, (blk_get_device_by_str env ifname D dd).2, info))) ∧
    (0 ≤ (part_get_info_by_dev_and_name_or_num env ifname (some s) dd info allow).1 ↔
      0 ≤ (part_get_info_by_dev_and_name env ifname (some s) dd info).1) ∧
    (0 ≤ (part_get_info_by_dev_and_name env ifname (some s) dd info).1 →
      part_get_info_by_dev_and_name_or_num env ifname (some s) dd info allow =
        part_get_info_by_dev_and_name env ifname (some s) dd info) := by
  have hneg := fun dd2 info2 =>
    blk_get_device_part_str_hash_neg env ifname s dd2 info2 allow hh hu hx hs
  refine ⟨hneg, ?_, ?_, ?_, ?_⟩
  · intro hc
    exact blk_get_device_part_str_hash_plain env ifname s dd info allow hh hu hx hc hs
  · intro D S e hD
    subst e
    have hS : '#' ∉ D → '#' ∈ S := by
      intro h1
      rcases List.mem_append.1 hs with h | h
      · exact absurd h h1
      · rcases List.mem_cons.1 h with e | e
        · exact absurd e (by decide)
        · exact e
    refine ⟨?_, ?_, ?_⟩
    · intro h1
      exact blk_get_device_part_str_hash_dev env ifname D S dd info allow hh hu hx hD h1
    · intro h1 h2
      rw [blk_get_device_part_str_hash_part env ifname D S dd info allow hh hu hx hD (hS h1),
        if_pos h2]
    · intro h1 h2
      rw [blk_get_device_part_str_hash_part env ifname D S dd info allow hh hu hx hD (hS h1),
        if_neg (by omega)]
  · constructor
    · intro h
      by_contra hn
      unfold part_get_info_by_dev_and_name_or_num at h
      rw [if_neg hn] at h
      have := hneg (part_get_info_by_dev_and_name env ifname (some s) dd info).2.1
        (part_get_info_by_dev_and_name env ifname (some s) dd info).2.2
      omega
    · intro h
      unfold part_get_info_by_dev_and_name_or_num
      rw [if_pos h]
      exact h
  · intro h
    unfold part_get_info_by_dev_and_name_or_num
    rw [if_pos h]

/-- Witness of C24: on a disk whose entries 1 and 2 are named "boot" and
"data", "0:#boot" is refused with `-ENOENT` by `blk_get_device_part_str`,
"0#1:2" with `-EINVAL`, and the two-stage lookup answers "0#data" by the name
lookup and fails on "0#nope" and on "0:#boot". -/
theorem colon_fallback_never_rescues_witness :
    blk_get_device_part_str (sample_env (sample_disk 0 2 64000) table_names) "usb".toList
        (some "0:#boot".toList) none zero_info 1 =
      (-ENOENT,
        (blk_get_device_by_str (sample_env (sample_disk 0 2 64000) table_names) "usb".toList
          "0".toList none).2, zero_info) ∧
    blk_get_device_part_str (sample_env (sample_disk 0 2 64000) table_names) "usb".toList
        (some "0#1:2".toList) none zero_info 1 = (-EINVAL, none, zero_info) ∧
    (0 ≤ (part_get_info_by_dev_and_name_or_num (sample_env (sample_disk 0 2 64000) table_names)
          "usb".toList (some "0#nope".toList) none zero_info 1).1 ↔
      0 ≤ (part_get_info_by_dev_and_name (sample_env (sample_disk 0 2 64000) table_names)
          "usb".toList (some "0#nope".toList) none zero_info).1) ∧
    part_get_info_by_dev_and_name_or_num (sample_env (sample_disk 0 2 64000) table_names)
        "usb".toList (some "0#data".toList) none zero_info 1 =
      part_get_info_by_dev_and_name (sample_env (sample_disk 0 2 64000) table_names)
        "usb".toList (some "0#data".toList) none zero_info ∧
    (part_get_info_by_dev_and_name_or_num (sample_env (sample_disk 0 2 64000) table_names)
        "usb".toList (some "0#data".toList) none zero_info 1).1 = 2 ∧
    (part_get_info_by_dev_and_name_or_num (sample_env (sample_disk 0 2 64000) table_names)
        "usb".toList (some "0#nope".toList) none zero_info 1).1 = -EINVAL ∧
    (part_get_info_by_dev_and_name_or_num (sample_env (sample_disk 0 2 64000) table_names)
        "usb".toList (some "0:#boot".toList) none zero_info 1).1 = -ENOENT :=
  ⟨((colon_fallback_never_rescues (sample_env (sample_disk 0 2 64000) table_names)
      "usb".toList "0:#boot".toList none zero_info 1 (by decide) (by decide)
      (fun u h => hextoul_hash u h) (by decide)).2.2.1 "0".toList "#boot".toList rfl
      (by decide)).2.2 (by decide) (by decide),
    ((colon_fallback_never_rescues (sample_env (sample_disk 0 2 64000) table_names)
      "usb".toList "0#1:2".toList none zero_info 1 (by decide) (by decide)
      (fun u h => hextoul_hash u h) (by decide)).2.2.1 "0#1".toList "2".toList rfl
      (by decide)).1 (by decide),
    (colon_fallback_never_rescues (sample_env (sample_disk 0 2 64000) table_names)
      "usb".toList "0#nope".toList none zero_info 1 (by decide) (by decide)
      (fun u h => hextoul_hash u h) (by decide)).2.2.2.1,
    (colon_fallback_never_rescues (sample_env (sample_disk 0 2 64000) table_names)
      "usb".toList "0#data".toList none zero_info 1 (by decide) (by decide)
      (fun u h => hextoul_hash u h) (by decide)).2.2.2.2 (by decide),
    by decide, by decide, by decide⟩

/-- C24 as stated fails: in "7:#boot" and in "z:#boot" the '#' lies after the
':' and not in the device part, yet `blk_get_device_part_str` does not
return `-ENOENT`: there is no device 7, so the first string gives `-ENODEV`,
and "z" is not a number, so the second gives `-EINVAL`; the device lookup
comes before the partition ID is read. -/
theorem hash_after_colon_device_error :
    '#' ∈ "7:#boot".toList ∧ strchr "7:#boot".toList ':' = some 1 ∧
    '#' ∉ "7:#boot".toList.take 1 ∧ '#' ∈ "7:#boot".toList.drop 2 ∧
    (blk_get_device_part_str (sample_env (sample_disk 0 2 64000) table_names) "usb".toList
        (some "7:#boot".toList) none zero_info 1).1 = -ENODEV ∧
    '#' ∉ "z:#boot".toList.take 1 ∧ '#' ∈ "z:#boot".toList.drop 2 ∧
    (blk_get_device_part_str (sample_env (sample_disk 0 2 64000) table_names) "usb".toList
        (some "z:#boot".toList) none zero_info 1).1 = -EINVAL ∧
    -ENODEV ≠ -ENOENT ∧ -EINVAL ≠ -ENOENT ∧
    "usb".toList ≠ "hostfs".toList ∧ "usb".toList ≠ "ubi".toList := by
  decide

/-! ## Devices that are not connected -/

/-- Lines 422-425: a device whose type is `DEV_TYPE_UNKNOWN` is refused with
`-ENODEV`, whatever its interface and its format tag. -/
theorem blk_get_device_by_str_lookup_unknown_type (env : Env) (ifname : CStr)
    (dev hwpart : Int) (d : blk_desc)
    (hget : get_dev_hwpart env ifname dev hwpart = some d)
    (hty : d.type = env.DEV_TYPE_UNKNOWN) :
    blk_get_device_by_str_lookup env ifname dev hwpart = (-ENODEV, some d) := by
  simp only [blk_get_device_by_str_lookup, hget]
  rw [if_pos hty]

/-- A disk of type 0xff on the sample image is refused with `-ENODEV` by
"0:1", one of type 0x1f is not. -/
theorem sample_unknown_type_refused :
    (blk_get_device_part_str
        (sample_env { sample_disk 0 0 64000 with type := 0xff } table_no_boot) "usb".toList
        (some "0:1".toList) none zero_info 1).1 = -ENODEV ∧
    (blk_get_device_part_str
        (sample_env { sample_disk 0 0 64000 with type := 0x1f } table_no_boot) "usb".toList
        (some "0:1".toList) none zero_info 1).1 = -EPROTONOSUPPORT := by
  decide

/-! ## The unspecified selector after a colon, for any device string -/

/-- On a classified device, "D:" and "D:1" are resolved alike for every
device string D without ':', the empty one included. -/
theorem colon_unspecified_is_partition_one (env : Env) (ifname D : CStr)
    (dd : Option blk_desc) (info : disk_partition) (allow : Int) (r : Int) (d : blk_desc)
    (hD : ':' ∉ D) (hx : env.hextoul "1".toList = (1, []))
    (hr : blk_get_device_by_str env ifname D dd = (r, some d))
    (ht : d.part_type ≠ PART_TYPE_UNKNOWN) :
    blk_get_device_part_str env ifname (some (D ++ ':' :: [])) dd info allow =
      blk_get_device_part_str env ifname (some (D ++ ':' :: "1".toList)) dd info allow := by
  have hn1 : part_str_to_number env (some "1".toList) allow = some 1 := by
    rw [part_str_to_number_explicit env "1".toList allow (by decide) (by decide)
      (by rw [hx]) (Or.inl (by rw [hx]; decide)), hx]
    rfl
  have hn0 : part_str_to_number env (some []) allow = some PART_UNSPECIFIED := by
    simp [part_str_to_number]
  have e2 : resolve_dev_part_str env ifname (D ++ ':' :: []) dd info allow =
      resolve_dev_part_str env ifname (D ++ ':' :: "1".toList) dd info allow := by
    rw [resolve_dev_part_str_unfold_colon env ifname D _ dd info allow hD,
      resolve_dev_part_str_unfold_colon env ifname D _ dd info allow hD, hr, hn1, hn0]
    simp only [resolve_part_unspecified env d info allow ht]
  rw [blk_get_device_part_str_unfold env ifname _ dd info allow (append_sep_ne_nil D ':' _)
      (append_colon_ne_dash D _),
    blk_get_device_part_str_unfold env ifname _ dd info allow (append_sep_ne_nil D ':' _)
      (append_colon_ne_dash D _), e2]

end DiskPart
